import Mathlib

/-!
NDK_OpenGLES_3_0, the PBO sample (`sample/PBOSample.cpp`)

A shallow embedding of `PBOSample` (double-buffered pixel transfer through
pixel buffer objects).  The sample's member functions become pure functions on
a record of its member variables; every OpenGL call and every CPU memory
operation they perform is recorded, in program order, in a list of `GLCall`s.
Values that come from outside the sample (the pointer returned by
`glMapBufferRange`, object names returned by `glGen*`, `rand()`, the
framebuffer status) are inputs of the functions.

Logging (`LOGCATE`, `GO_CHECK_GL_ERROR`, `BEGIN_TIME`/`END_TIME`) and the
floating point matrix computed by `UpdateMVPMatrix` have no effect on the
modelled state and are left out.
-/

namespace GLES

/-! ## Machine integers -/

/-- Two's-complement wrap of an integer into the range of a 32-bit C `int`. -/
def wrapInt32 (x : Int) : Int := (x + 2147483648) % 4294967296 - 2147483648

/-- C `*` on `int`. -/
def imul (a b : Int) : Int := wrapInt32 (a * b)

/-- C `-` on `int`. -/
def isub (a b : Int) : Int := wrapInt32 (a - b)

/-- C `%` on `int`: the remainder of the division truncated towards zero, with
the sign of the dividend.  (For `b = 0` the C operation is undefined; the
model returns `a`.) -/
def cRem (a b : Int) : Int := Int.tmod a b

/-- C `/` on `int`: the quotient truncated towards zero.  (For `b = 0` the C
operation is undefined; the model returns 0.) -/
def cDiv (a b : Int) : Int := Int.tdiv a b

/-- Read of element `i` of a C array.  `none` stands for a read outside the
array, whose value is indeterminate. -/
def arrayRead {α : Type} (a : List α) (i : Int) : Option α :=
  if i < 0 then none else a.get? i.toNat

/-- Store to element `i` of a C array (no effect in the model when `i` is
outside the array). -/
def arrayWrite {α : Type} (a : List α) (i : Int) (v : α) : List α :=
  if i < 0 then a else a.set i.toNat v

/-! ## Floating-point numbers -/

/-- The position of the leading binary digit, by halving at most `fuel`
times. -/
def floorLog2Aux : Nat → Nat → Nat
  | 0, _ => 0
  | fuel + 1, n => if n < 2 then 0 else floorLog2Aux fuel (n / 2) + 1

/-- The position of the leading binary digit of `n`: `2 ^ floorLog2 n ≤ n <
2 ^ (floorLog2 n + 1)` for `n > 0`. -/
def floorLog2 (n : Nat) : Nat := floorLog2Aux n n

/-- Rounding of a rational number to the nearest value of a binary
floating-point format with `p` bits of precision, ties to the even
significand (the default rounding of IEEE 754): `p = 24` is the C++ type
`float` (binary32), `p = 53` is `double` (binary64).  The exponent range is
not bounded: the values of this development are far from overflow and from
the subnormal range. -/
def roundBinary (p : Nat) (x : ℚ) : ℚ :=
  if x = 0 then 0
  else
    let a : Nat := x.num.natAbs
    let b : Nat := x.den
    -- `e` is the exponent of `|x| = a / b`: `2 ^ e ≤ a / b < 2 ^ (e + 1)`
    let e0 : Int := (floorLog2 a : Int) - (floorLog2 b : Int)
    let e : Int := if b * 2 ^ e0.toNat ≤ a * 2 ^ (-e0).toNat then e0 else e0 - 1
    -- `|x|` in units of the last place: `n / d` with `2 ^ (p - 1) ≤ n / d < 2 ^ p`
    let k : Int := (p : Int) - 1 - e
    let n : Nat := a * 2 ^ k.toNat
    let d : Nat := b * 2 ^ (-k).toNat
    let q : Nat := n / d
    let r : Nat := n % d
    let m : Nat :=
      if 2 * r < d then q
      else if d < 2 * r then q + 1
      else if q % 2 = 0 then q else q + 1
    let v : ℚ := (m * 2 ^ (-k).toNat : Nat) / (2 ^ k.toNat : Nat)
    if x < 0 then -v else v

/-! ## Data model -/

/-- An OpenGL object name (`GLuint`); `0` is `GL_NONE`. -/
abbrev GLuint := Nat

/-- The constant `GL_NONE`. -/
def GL_NONE : GLuint := 0

/-- A client (CPU) address; `0` is `nullptr`. -/
abbrev Ptr := Nat

/-- Modelled from the spec: the `NativeImage` struct of `util/ImageDef.h`
(pixel buffer with `width`, `height`, a format tag and plane pointers). -/
structure NativeImage where
  width : Int
  height : Int
  format : Int
  ppPlane0 : Ptr
  ppPlane1 : Ptr
  ppPlane2 : Ptr
  deriving DecidableEq, Repr

/-- Modelled from the spec: the default-constructed `NativeImage` of
`util/ImageDef.h`, zero size and null planes (a slot of `m_DownloadImages`
that was never filled has a null plane 0, which is what `DownloadPixels` tests
before it maps). -/
def NativeImage.empty : NativeImage := ⟨0, 0, 0, 0, 0, 0⟩

/-- Modelled from the spec: the format tag `IMAGE_FORMAT_RGBA` of
`util/ImageDef.h` (RGBA8 pixels). -/
def IMAGE_FORMAT_RGBA : Int := 1

/-- Buffer binding points used by the sample. -/
inductive BufferTarget where
  | GL_ARRAY_BUFFER
  | GL_ELEMENT_ARRAY_BUFFER
  | GL_PIXEL_UNPACK_BUFFER
  | GL_PIXEL_PACK_BUFFER
  deriving DecidableEq, Repr

/-- The `access` argument of `glMapBufferRange`. -/
inductive MapAccess where
  /-- The flags `GL_MAP_WRITE_BIT | GL_MAP_INVALIDATE_BUFFER_BIT`. -/
  | writeInvalidate
  /-- The flag `GL_MAP_READ_BIT`. -/
  | read
  deriving DecidableEq, Repr

/-- One externally visible operation of the sample: an OpenGL call, a CPU
memory operation or a call into `NativeImageUtil`.  Arguments that are the
same constant at every call site (`GL_TEXTURE_2D`, `GL_RGBA`, ...) are left
out.  A buffer name argument is `none` when the program read it from outside
its array. -/
inductive GLCall where
  | glViewport (x y width height : Int)
  | glGenBuffers (names : List GLuint)
  | glGenTextures (names : List GLuint)
  | glGenVertexArrays (names : List GLuint)
  | glGenFramebuffers (names : List GLuint)
  | glBindBuffer (target : BufferTarget) (buffer : Option GLuint)
  /-- The call `glBufferData(target, size, data, usage)`; `hasData` is false
  when `data` is null. -/
  | glBufferData (target : BufferTarget) (size : Int) (hasData : Bool)
  | glMapBufferRange (target : BufferTarget) (offset length : Int)
      (access : MapAccess) (result : Ptr)
  | glUnmapBuffer (target : BufferTarget)
  | glBindTexture (texture : GLuint)
  | glTexParameter
  /-- The call `glTexImage2D(..., width, height, ..., pixels)`. -/
  | glTexImage2D (width height : Int) (pixels : Ptr)
  /-- The call `glTexSubImage2D(..., 0, 0, width, height, ..., pixels)`. -/
  | glTexSubImage2D (width height : Int) (pixels : Ptr)
  /-- The call `glReadPixels(0, 0, width, height, ..., pixels)`. -/
  | glReadPixels (width height : Int) (pixels : Ptr)
  | glBindFramebuffer (framebuffer : GLuint)
  | glFramebufferTexture2D (texture : GLuint)
  /-- The call `glCheckFramebufferStatus`; `complete` tells whether it
  returned `GL_FRAMEBUFFER_COMPLETE`. -/
  | glCheckFramebufferStatus (complete : Bool)
  /-- The call `GLUtils::CreateProgram`, returning the program `result`. -/
  | CreateProgram (result : GLuint)
  | glGetUniformLocation (program : GLuint) (result : Int)
  | glUseProgram (program : GLuint)
  | glBindVertexArray (array : GLuint)
  | glEnableVertexAttribArray (index : Nat)
  | glVertexAttribPointer (index : Nat) (size : Nat)
  | glActiveTexture
  | glUniform1i (location : Int) (v : Int)
  | glUniformMatrix4fv (location : Int)
  | glDrawElements
  | glDeleteProgram (program : GLuint)
  | glDeleteTextures (names : List GLuint)
  | glDeleteBuffers (names : List GLuint)
  | glDeleteVertexArrays (names : List GLuint)
  | glDeleteFramebuffers (names : List GLuint)
  /-- The call `memcpy(dst, src, n)`. -/
  | memcpy (dst src : Ptr) (n : Int)
  /-- The call `memset(dst + offset, value, n)`. -/
  | memset (dst : Ptr) (offset : Int) (value : Nat) (n : Int)
  /-- Allocation `new uint8_t[n]` returning `result`. -/
  | newArray (n : Int) (result : Ptr)
  /-- Deallocation `delete [] p`. -/
  | deleteArray (p : Ptr)
  /-- The call `NativeImageUtil::AllocNativeImage`, which gives the image the
  plane `result`. -/
  | AllocNativeImage (result : Ptr)
  /-- The call `NativeImageUtil::CopyNativeImage(src, dst)`, by plane 0. -/
  | CopyNativeImage (src dst : Ptr)
  | FreeNativeImage (p : Ptr)
  /-- The call `NativeImageUtil::DumpNativeImage(image, dir, "PBO_<fileIndex>")`. -/
  | DumpNativeImage (image : NativeImage) (fileIndex : Int)
  deriving DecidableEq, Repr

/-- Whether the operation is a CPU write through a pointer (`memcpy` or
`memset`). -/
def GLCall.isMemWrite : GLCall → Bool
  | .memcpy _ _ _ => true
  | .memset _ _ _ _ => true
  | _ => false

/-- Whether the operation is a `glBufferData`, which gives a buffer a new data
store. -/
def GLCall.isBufferData : GLCall → Bool
  | .glBufferData _ _ _ => true
  | _ => false

/-- Whether the operation specifies texels (`glTexImage2D` or
`glTexSubImage2D`). -/
def GLCall.isTexImage : GLCall → Bool
  | .glTexImage2D _ _ _ => true
  | .glTexSubImage2D _ _ _ => true
  | _ => false

/-- The size argument of a `glBufferData` on a pixel buffer target (`none` for
any other operation). -/
def GLCall.pixelStoreSize : GLCall → Option Int
  | .glBufferData .GL_PIXEL_UNPACK_BUFFER size _ => some size
  | .glBufferData .GL_PIXEL_PACK_BUFFER size _ => some size
  | _ => none

/-- The client address an operation stores through (`memcpy` and `memset`:
the destination; `glReadPixels`: the `pixels` argument), `none` for an
operation that stores through no pointer. -/
def GLCall.clientDst : GLCall → Option Ptr
  | .memcpy dst _ _ => some dst
  | .memset dst _ _ _ => some dst
  | .glReadPixels _ _ pixels => some pixels
  | _ => none

/-- The member variables of `PBOSample` (with those of `GLSampleBase` it
uses).  Shader handles, the scale factors and the MVP matrix are not used by
any modelled operation and are left out. -/
structure PBOSample where
  m_ProgramObj : GLuint
  m_ImageTextureId : GLuint
  m_FboTextureId : GLuint
  m_FboId : GLuint
  m_VaoIds : List GLuint
  m_VboIds : List GLuint
  m_SamplerLoc : Int
  m_RenderImage : NativeImage
  m_FboProgramObj : GLuint
  m_FboSamplerLoc : Int
  m_MVPMatrixLoc : Int
  m_AngleX : Int
  m_AngleY : Int
  m_UploadPboIds : List GLuint
  m_DownloadPboIds : List GLuint
  m_DownloadImages : List NativeImage
  m_FrameIndex : Int
  deriving DecidableEq, Repr

/-- What one `Draw` call receives from outside the sample. -/
structure FrameInput where
  screenW : Int
  screenH : Int
  /-- Result of `glMapBufferRange` in `UploadPixels` (`0`: mapping failed). -/
  uploadMapResult : Ptr
  /-- Result of `glMapBufferRange` in `DownloadPixels` (`0`: mapping failed). -/
  downloadMapResult : Ptr
  /-- Value returned by `rand()`. -/
  randValue : Int
  /-- Array allocated by `new uint8_t[dataSize]` in `DownloadPixels`. -/
  pBuffer : Ptr
  /-- Plane allocated by `AllocNativeImage` in the non-PBO upload path. -/
  allocPtr : Ptr
  deriving DecidableEq, Repr

/-- What `Init` receives from outside the sample: the results of the
OpenGL calls that create objects.  The name lists have the length of the
array they fill. -/
structure InitInput where
  programObj : GLuint
  fboProgramObj : GLuint
  samplerLoc : Int
  mvpMatrixLoc : Int
  fboSamplerLoc : Int
  vboIds : List GLuint
  vaoIds : List GLuint
  imageTextureId : GLuint
  uploadPboIds : List GLuint
  downloadPboIds : List GLuint
  fboTextureId : GLuint
  fboId : GLuint
  /-- Whether `glCheckFramebufferStatus` returns `GL_FRAMEBUFFER_COMPLETE`. -/
  framebufferComplete : Bool
  deriving DecidableEq, Repr

namespace PBOSample

/-- The constructor `PBOSample::PBOSample()` (after `GLSampleBase()` and the
default member initialisers). -/
def ctor : PBOSample :=
  { m_ProgramObj := 0
    m_ImageTextureId := GL_NONE
    m_FboTextureId := GL_NONE
    m_FboId := GL_NONE
    m_VaoIds := [GL_NONE, 0]
    m_VboIds := [GL_NONE, 0, 0, 0]
    m_SamplerLoc := 0
    m_RenderImage := NativeImage.empty
    m_FboProgramObj := GL_NONE
    m_FboSamplerLoc := 0
    m_MVPMatrixLoc := 0
    m_AngleX := 0
    m_AngleY := 0
    m_UploadPboIds := [GL_NONE, 0]
    m_DownloadPboIds := [GL_NONE, 0]
    m_DownloadImages := [NativeImage.empty, NativeImage.empty]
    m_FrameIndex := 0 }

/-- The member function `PBOSample::LoadImage(pImage)` for a non-null
`pImage`; `plane` is the plane 0 that `CopyNativeImage` leaves in
`m_RenderImage`. -/
def LoadImage (pImage : NativeImage) (plane : Ptr) (s : PBOSample) : PBOSample :=
  { s with m_RenderImage :=
      { s.m_RenderImage with
        width := pImage.width, height := pImage.height, format := pImage.format,
        ppPlane0 := plane } }

/-- Set-up of one vertex array object in `Init`: position attribute from
`m_VboIds[0]`, texture coordinates from `m_VboIds[texVbo]`, indices from
`m_VboIds[3]`. -/
def initVao (vao : GLuint) (vbo : List GLuint) (texVbo : Int) : List GLCall :=
  [ GLCall.glBindVertexArray vao,
    GLCall.glBindBuffer .GL_ARRAY_BUFFER (arrayRead vbo 0),
    GLCall.glEnableVertexAttribArray 0,
    GLCall.glVertexAttribPointer 0 3,
    GLCall.glBindBuffer .GL_ARRAY_BUFFER (some GL_NONE),
    GLCall.glBindBuffer .GL_ARRAY_BUFFER (arrayRead vbo texVbo),
    GLCall.glEnableVertexAttribArray 1,
    GLCall.glVertexAttribPointer 1 2,
    GLCall.glBindBuffer .GL_ARRAY_BUFFER (some GL_NONE),
    GLCall.glBindBuffer .GL_ELEMENT_ARRAY_BUFFER (arrayRead vbo 3),
    GLCall.glBindVertexArray GL_NONE ]

/-- The member function `PBOSample::CreateFrameBufferObj`: the sample
afterwards, the returned `bool`, and the list of its operations. -/
def CreateFrameBufferObj (i : InitInput) (s : PBOSample) : (PBOSample × Bool) × List GLCall :=
  let s1 : PBOSample := { s with m_FboTextureId := i.fboTextureId, m_FboId := i.fboId }
  let body : List GLCall :=
    [ GLCall.glGenTextures [i.fboTextureId],
      GLCall.glBindTexture i.fboTextureId,
      GLCall.glTexParameter, GLCall.glTexParameter, GLCall.glTexParameter, GLCall.glTexParameter,
      GLCall.glBindTexture GL_NONE,
      GLCall.glGenFramebuffers [i.fboId],
      GLCall.glBindFramebuffer i.fboId,
      GLCall.glBindTexture i.fboTextureId,
      GLCall.glFramebufferTexture2D i.fboTextureId,
      GLCall.glTexImage2D s.m_RenderImage.width s.m_RenderImage.height 0,
      GLCall.glCheckFramebufferStatus i.framebufferComplete ]
  if i.framebufferComplete then
    ((s1, true), body ++ [ GLCall.glBindTexture GL_NONE, GLCall.glBindFramebuffer GL_NONE ])
  else
    ((s1, false), body)

/-- The member function `PBOSample::Init`: the sample afterwards and the list
of its operations. -/
def Init (i : InitInput) (s : PBOSample) : PBOSample × List GLCall :=
  if s.m_ProgramObj ≠ 0 then (s, [])
  else
    let s1 : PBOSample := { s with m_ProgramObj := i.programObj, m_FboProgramObj := i.fboProgramObj }
    let t1 : List GLCall := [ GLCall.CreateProgram i.programObj, GLCall.CreateProgram i.fboProgramObj ]
    if i.programObj = GL_NONE ∨ i.fboProgramObj = GL_NONE then (s1, t1)
    else
      let s2 : PBOSample :=
        { s1 with
          m_SamplerLoc := i.samplerLoc, m_MVPMatrixLoc := i.mvpMatrixLoc,
          m_FboSamplerLoc := i.fboSamplerLoc,
          m_VboIds := i.vboIds, m_VaoIds := i.vaoIds,
          m_ImageTextureId := i.imageTextureId,
          m_UploadPboIds := i.uploadPboIds, m_DownloadPboIds := i.downloadPboIds }
      let imgByteSize : Int := imul (imul s.m_RenderImage.width s.m_RenderImage.height) 4
      let t2 : List GLCall :=
        [ GLCall.glGetUniformLocation i.programObj i.samplerLoc,
          GLCall.glGetUniformLocation i.programObj i.mvpMatrixLoc,
          GLCall.glGetUniformLocation i.fboProgramObj i.fboSamplerLoc,
          GLCall.glGenBuffers i.vboIds,
          GLCall.glBindBuffer .GL_ARRAY_BUFFER (arrayRead i.vboIds 0),
          GLCall.glBufferData .GL_ARRAY_BUFFER 48 true,
          GLCall.glBindBuffer .GL_ARRAY_BUFFER (arrayRead i.vboIds 1),
          GLCall.glBufferData .GL_ARRAY_BUFFER 32 true,
          GLCall.glBindBuffer .GL_ARRAY_BUFFER (arrayRead i.vboIds 2),
          GLCall.glBufferData .GL_ARRAY_BUFFER 32 true,
          GLCall.glBindBuffer .GL_ELEMENT_ARRAY_BUFFER (arrayRead i.vboIds 3),
          GLCall.glBufferData .GL_ELEMENT_ARRAY_BUFFER 12 true,
          GLCall.glGenVertexArrays i.vaoIds ]
        ++ initVao ((arrayRead i.vaoIds 0).getD 0) i.vboIds 1
        ++ initVao ((arrayRead i.vaoIds 1).getD 0) i.vboIds 2
        ++ [ GLCall.glGenTextures [i.imageTextureId],
             GLCall.glBindTexture i.imageTextureId,
             GLCall.glTexParameter, GLCall.glTexParameter, GLCall.glTexParameter,
             GLCall.glTexParameter,
             GLCall.glTexImage2D s.m_RenderImage.width s.m_RenderImage.height
               s.m_RenderImage.ppPlane0,
             GLCall.glBindTexture GL_NONE,
             GLCall.glGenBuffers i.uploadPboIds,
             GLCall.glBindBuffer .GL_PIXEL_UNPACK_BUFFER (arrayRead i.uploadPboIds 0),
             GLCall.glBufferData .GL_PIXEL_UNPACK_BUFFER imgByteSize false,
             GLCall.glBindBuffer .GL_PIXEL_UNPACK_BUFFER (arrayRead i.uploadPboIds 1),
             GLCall.glBufferData .GL_PIXEL_UNPACK_BUFFER imgByteSize false,
             GLCall.glBindBuffer .GL_PIXEL_UNPACK_BUFFER (some 0),
             GLCall.glGenBuffers i.downloadPboIds,
             GLCall.glBindBuffer .GL_PIXEL_PACK_BUFFER (arrayRead i.downloadPboIds 0),
             GLCall.glBufferData .GL_PIXEL_PACK_BUFFER imgByteSize false,
             GLCall.glBindBuffer .GL_PIXEL_PACK_BUFFER (arrayRead i.downloadPboIds 1),
             GLCall.glBufferData .GL_PIXEL_PACK_BUFFER imgByteSize false,
             GLCall.glBindBuffer .GL_PIXEL_PACK_BUFFER (some 0) ]
      let fbo := CreateFrameBufferObj i s2
      (fbo.1.1, t1 ++ t2 ++ fbo.2)

/-- The member function `PBOSample::Destroy`: the sample afterwards and the
list of its operations. -/
def Destroy (s : PBOSample) : PBOSample × List GLCall :=
  let t1 := if s.m_ProgramObj ≠ 0 then [ GLCall.glDeleteProgram s.m_ProgramObj ] else []
  let s1 : PBOSample := if s.m_ProgramObj ≠ 0 then { s with m_ProgramObj := GL_NONE } else s
  let t2 := if s1.m_FboProgramObj ≠ 0 then [ GLCall.glDeleteProgram s1.m_FboProgramObj ] else []
  let s2 : PBOSample :=
    if s1.m_FboProgramObj ≠ 0 then { s1 with m_FboProgramObj := GL_NONE } else s1
  let t3 := if s2.m_ImageTextureId ≠ 0 then [ GLCall.glDeleteTextures [s2.m_ImageTextureId] ] else []
  let t4 := if s2.m_FboTextureId ≠ 0 then [ GLCall.glDeleteTextures [s2.m_FboTextureId] ] else []
  let t5 :=
    if (arrayRead s2.m_VboIds 0).getD 0 ≠ 0 then [ GLCall.glDeleteBuffers s2.m_VboIds ] else []
  let t6 :=
    if (arrayRead s2.m_VaoIds 0).getD 0 ≠ 0 then [ GLCall.glDeleteVertexArrays s2.m_VaoIds ] else []
  let t7 := if s2.m_FboId ≠ 0 then [ GLCall.glDeleteFramebuffers [s2.m_FboId] ] else []
  let t8 :=
    if (arrayRead s2.m_DownloadPboIds 0).getD 0 ≠ 0 then
      [ GLCall.glDeleteBuffers s2.m_DownloadPboIds ] else []
  let t9 :=
    if (arrayRead s2.m_UploadPboIds 0).getD 0 ≠ 0 then
      [ GLCall.glDeleteBuffers s2.m_UploadPboIds ] else []
  (s2, t1 ++ t2 ++ t3 ++ t4 ++ t5 ++ t6 ++ t7 ++ t8 ++ t9)

/-- The local `index = m_FrameIndex % 2` of `UploadPixels` and `DownloadPixels`. -/
def index (s : PBOSample) : Int := cRem s.m_FrameIndex 2

/-- The local `nextIndex = (index + 1) % 2` of `UploadPixels` and `DownloadPixels`. -/
def nextIndex (s : PBOSample) : Int := cRem (index s + 1) 2

/-- The local `dataSize = m_RenderImage.width * m_RenderImage.height * 4`. -/
def dataSize (s : PBOSample) : Int :=
  imul (imul s.m_RenderImage.width s.m_RenderImage.height) 4

/-- The local `randomRow = rand() % (m_RenderImage.height - 5)`. -/
def randomRow (s : PBOSample) (randValue : Int) : Int :=
  cRem randValue (isub s.m_RenderImage.height 5)

/-- The stripe `memset(base + randomRow * width * 4, 188, width * 4 * 5)`. -/
def stripe (s : PBOSample) (base : Ptr) (randValue : Int) : GLCall :=
  GLCall.memset base (imul (imul (randomRow s randValue) s.m_RenderImage.width) 4) 188
    (imul (imul s.m_RenderImage.width 4) 5)

/-- The member function `PBOSample::UploadPixels`.  `PBO_UPLOAD` tells whether
the macro of that name is defined (the file as shipped has it commented out).
The function changes no member variable; the result is the list of its
operations. -/
def UploadPixels ( PBO_UPLOAD : Bool) (f : FrameInput) (s : PBOSample) : List GLCall :=
  if PBO_UPLOAD then
    [ GLCall.glBindTexture s.m_ImageTextureId,
      GLCall.glBindBuffer .GL_PIXEL_UNPACK_BUFFER (arrayRead s.m_UploadPboIds (index s)),
      GLCall.glTexSubImage2D s.m_RenderImage.width s.m_RenderImage.height 0,
      GLCall.glBindBuffer .GL_PIXEL_UNPACK_BUFFER (arrayRead s.m_UploadPboIds (nextIndex s)),
      GLCall.glBufferData .GL_PIXEL_UNPACK_BUFFER (dataSize s) false,
      GLCall.glMapBufferRange .GL_PIXEL_UNPACK_BUFFER 0 (dataSize s) .writeInvalidate
        f.uploadMapResult ]
    ++ (if f.uploadMapResult ≠ 0 then
          [ GLCall.memcpy f.uploadMapResult s.m_RenderImage.ppPlane0 (dataSize s),
            stripe s f.uploadMapResult f.randValue,
            GLCall.glUnmapBuffer .GL_PIXEL_UNPACK_BUFFER ]
        else [])
    ++ [ GLCall.glBindBuffer .GL_PIXEL_UNPACK_BUFFER (some 0) ]
  else
    [ GLCall.glBindTexture s.m_ImageTextureId,
      GLCall.glTexSubImage2D s.m_RenderImage.width s.m_RenderImage.height
        s.m_RenderImage.ppPlane0,
      GLCall.AllocNativeImage f.allocPtr,
      stripe s s.m_RenderImage.ppPlane0 f.randValue,
      GLCall.CopyNativeImage s.m_RenderImage.ppPlane0 f.allocPtr,
      GLCall.FreeNativeImage f.allocPtr ]

/-- Element `i` of `m_DownloadImages` (`i` is always `nextIndex`, which lies
inside the array). -/
def downloadImage (s : PBOSample) (i : Int) : NativeImage :=
  (arrayRead s.m_DownloadImages i).getD NativeImage.empty

/-- The member function `PBOSample::DownloadPixels`: the sample afterwards and
the list of its operations. -/
def DownloadPixels (f : FrameInput) (s : PBOSample) : PBOSample × List GLCall :=
  let head : List GLCall :=
    [ GLCall.newArray (dataSize s) f.pBuffer,
      GLCall.glReadPixels s.m_RenderImage.width s.m_RenderImage.height f.pBuffer,
      GLCall.deleteArray f.pBuffer,
      GLCall.glBindBuffer .GL_PIXEL_PACK_BUFFER (arrayRead s.m_DownloadPboIds (index s)),
      GLCall.glReadPixels s.m_RenderImage.width s.m_RenderImage.height 0 ]
  let r : PBOSample × List GLCall :=
    if (downloadImage s (nextIndex s)).ppPlane0 = 0 then
      let img : NativeImage := { s.m_RenderImage with format := IMAGE_FORMAT_RGBA }
      let img : NativeImage :=
        if f.downloadMapResult ≠ 0 then { img with ppPlane0 := f.downloadMapResult } else img
      ({ s with m_DownloadImages := arrayWrite s.m_DownloadImages (nextIndex s) img },
       [ GLCall.glBindBuffer .GL_PIXEL_PACK_BUFFER (arrayRead s.m_DownloadPboIds (nextIndex s)),
         GLCall.glMapBufferRange .GL_PIXEL_PACK_BUFFER 0 (dataSize s) .read f.downloadMapResult,
         GLCall.glUnmapBuffer .GL_PIXEL_PACK_BUFFER,
         GLCall.glBindBuffer .GL_PIXEL_PACK_BUFFER (some 0) ])
    else (s, [])
  let dump : List GLCall :=
    if (downloadImage r.1 (nextIndex s)).ppPlane0 ≠ 0 then
      [ GLCall.DumpNativeImage (downloadImage r.1 (nextIndex s)) (nextIndex s) ]
    else []
  (r.1, head ++ r.2 ++ dump)

/-- Operations of `Draw` between `UploadPixels` and `DownloadPixels`: the
off-screen pass into `m_FboId`, sampling `m_ImageTextureId`. -/
def offscreenPass (s : PBOSample) : List GLCall :=
  [ GLCall.glBindFramebuffer s.m_FboId,
    GLCall.glUseProgram s.m_FboProgramObj,
    GLCall.glBindVertexArray ((arrayRead s.m_VaoIds 1).getD 0),
    GLCall.glActiveTexture,
    GLCall.glBindTexture s.m_ImageTextureId,
    GLCall.glUniform1i s.m_FboSamplerLoc 0,
    GLCall.glDrawElements,
    GLCall.glBindVertexArray 0,
    GLCall.glBindTexture 0 ]

/-- Operations of `Draw` after `DownloadPixels`: the pass to the screen,
sampling `m_FboTextureId`. -/
def screenPass (f : FrameInput) (s : PBOSample) : List GLCall :=
  [ GLCall.glBindFramebuffer 0,
    GLCall.glViewport 0 0 f.screenW f.screenH,
    GLCall.glUseProgram s.m_ProgramObj,
    GLCall.glBindVertexArray ((arrayRead s.m_VaoIds 0).getD 0),
    GLCall.glActiveTexture,
    GLCall.glBindTexture s.m_FboTextureId,
    GLCall.glUniformMatrix4fv s.m_MVPMatrixLoc,
    GLCall.glUniform1i s.m_SamplerLoc 0,
    GLCall.glDrawElements,
    GLCall.glBindTexture GL_NONE,
    GLCall.glBindVertexArray GL_NONE ]

/-- The member function `PBOSample::Draw(screenW, screenH)`: the sample
afterwards and the list of its operations.  The final `m_FrameIndex++` wraps
around at the end of the `int` range. -/
def Draw ( PBO_UPLOAD : Bool) (f : FrameInput) (s : PBOSample) : PBOSample × List GLCall :=
  let up := UploadPixels PBO_UPLOAD f s
  let down := DownloadPixels f s
  ({ down.1 with m_FrameIndex := wrapInt32 (down.1.m_FrameIndex + 1) },
   [ GLCall.glViewport 0 0 s.m_RenderImage.width s.m_RenderImage.height ]
     ++ up ++ offscreenPass s ++ down.2 ++ screenPass f down.1)

/-- A call of one of the public member functions that run once the sample is
set up. -/
inductive Call where
  | Draw (f : FrameInput)
  | UploadPixels (f : FrameInput)
  | DownloadPixels (f : FrameInput)
  deriving DecidableEq, Repr

/-- The sample after one call. -/
def call ( PBO_UPLOAD : Bool) : Call → PBOSample → PBOSample
  | .Draw f, s => (Draw PBO_UPLOAD f s).1
  | .UploadPixels _, s => s
  | .DownloadPixels f, s => (DownloadPixels f s).1

/-- The sample after a sequence of calls. -/
def runCalls ( PBO_UPLOAD : Bool) : List Call → PBOSample → PBOSample
  | [], s => s
  | c :: cs, s => runCalls PBO_UPLOAD cs (call PBO_UPLOAD c s)

/-- The number of `Draw` calls in a sequence of calls. -/
def countDraws : List Call → Nat
  | [] => 0
  | .Draw _ :: cs => countDraws cs + 1
  | _ :: cs => countDraws cs

/-- A call made between `Init` and `Destroy`: `LoadImage(pImage)` (with the
plane 0 that `CopyNativeImage` leaves in `m_RenderImage`) or `Draw`. -/
inductive Action where
  | LoadImage (pImage : NativeImage) (plane : Ptr)
  | Draw (f : FrameInput)
  deriving DecidableEq, Repr

/-- A sequence of `LoadImage` and `Draw` calls: the sample afterwards and the
operations in order (`LoadImage` performs none on the modelled state). -/
def runActions ( PBO_UPLOAD : Bool) : List Action → PBOSample → PBOSample × List GLCall
  | [], s => (s, [])
  | .LoadImage pImage plane :: rest, s => runActions PBO_UPLOAD rest (LoadImage pImage plane s)
  | .Draw f :: rest, s =>
    let d := Draw PBO_UPLOAD f s
    let r := runActions PBO_UPLOAD rest d.1
    (r.1, d.2 ++ r.2)

/-- A sequence of `Draw` calls, one per element of `frames`: the sample
afterwards and the operations of all the frames in order. -/
def runFrames ( PBO_UPLOAD : Bool) : List FrameInput → PBOSample → PBOSample × List GLCall
  | [], s => (s, [])
  | f :: fs, s =>
    let d := Draw PBO_UPLOAD f s
    let r := runFrames PBO_UPLOAD fs d.1
    (r.1, d.2 ++ r.2)

end PBOSample

/-! ## The OpenGL objects the operations act on

A model of the part of the OpenGL ES 3.0 state that the pixel transfers of the
sample touch: the pixel pack/unpack buffer bindings, the texture and
framebuffer bindings, the data stores of buffer objects, texture images,
active mappings and client memory.  A byte is `none` when its value is
unspecified (a fresh data store, an invalidated mapping, a read outside a
region). -/

/-- A sequence of bytes, each possibly unspecified. -/
abbrev Bytes := List (Option Nat)

/-- The byte sequence of length `n` with every byte unspecified. -/
def unspecified (n : Int) : Bytes := List.replicate n.toNat none

/-- The `n` bytes of `b` from `offset` on; bytes outside `b` are unspecified. -/
def readBytes (b : Bytes) (offset n : Int) : Bytes :=
  if offset < 0 then unspecified n
  else (List.range n.toNat).map fun k => (b.get? (offset.toNat + k)).join

/-- The region `old` after storing `new` at `offset`; the part of `new` that
falls outside `old` is dropped. -/
def writeBytes (old : Bytes) (offset : Int) (new : Bytes) : Bytes :=
  if offset < 0 then old
  else (List.range old.length).map fun k =>
    if offset.toNat ≤ k ∧ k < offset.toNat + new.length then (new.get? (k - offset.toNat)).join
    else (old.get? k).join

/-- The data store of a buffer object. -/
structure BufferObj where
  size : Int
  data : Bytes
  deriving DecidableEq, Repr

/-- The level-0 image of a texture object. -/
structure TextureObj where
  width : Int
  height : Int
  data : Bytes
  deriving DecidableEq, Repr

/-- The modelled OpenGL and client-memory state.  A binding is `none` when the
program bound an indeterminate name. -/
structure Machine where
  unpackBinding : Option GLuint
  packBinding : Option GLuint
  textureBinding : GLuint
  framebufferBinding : GLuint
  buffers : GLuint → BufferObj
  textures : GLuint → TextureObj
  /-- Active mappings: client address and mapped buffer. -/
  mappings : List (Ptr × GLuint)
  /-- Client memory regions by base address. -/
  mem : Ptr → Bytes

namespace Machine

/-- The state of a new context: nothing bound, no data stores, with client
memory `mem`. -/
def initial (mem : Ptr → Bytes) : Machine :=
  { unpackBinding := some 0
    packBinding := some 0
    textureBinding := 0
    framebufferBinding := 0
    buffers := fun _ => ⟨0, []⟩
    textures := fun _ => ⟨0, 0, []⟩
    mappings := []
    mem := mem }

/-- The buffer object bound to a pixel buffer target (`none`: no buffer
object, or a target the model does not track). -/
def bound (m : Machine) : BufferTarget → Option GLuint
  | .GL_PIXEL_UNPACK_BUFFER => m.unpackBinding.bind fun b => if b = 0 then none else some b
  | .GL_PIXEL_PACK_BUFFER => m.packBinding.bind fun b => if b = 0 then none else some b
  | _ => none

/-- A store of `new` through the client address `dst + offset`: into the
buffer mapped at `dst` if there is one, else into client memory. -/
def store (m : Machine) (dst : Ptr) (offset : Int) (new : Bytes) : Machine :=
  match m.mappings.lookup dst with
  | some b =>
    { m with buffers := (Function.update m.buffers b
        { m.buffers b with data := writeBytes (m.buffers b).data offset new }) }
  | none => { m with mem := (Function.update m.mem dst (writeBytes (m.mem dst) offset new)) }

/-- The pixel data a texture upload of `n` bytes reads: from the bound unpack
buffer at offset `pixels`, or from client memory at address `pixels`. -/
def unpackSource (m : Machine) (pixels : Ptr) (n : Int) : Bytes :=
  match m.unpackBinding with
  | none => unspecified n
  | some 0 => if pixels = 0 then unspecified n else readBytes (m.mem pixels) 0 n
  | some b => readBytes (m.buffers b).data pixels n

/-- The effect of one operation on the modelled state.  Operations that do
not touch it (vertex state, programs, uniforms, draws, deletions) leave it as
it is.  `glBufferData` is modelled for its use on the pixel buffer targets,
where the sample always passes null data: the new store is unspecified.
`glMapBufferRange` is modelled for its use with offset 0 and the whole store.
A `glTexSubImage2D` of another size than the texture image is outside the
model and leaves the texels unspecified.  `glReadPixels` leaves the bytes it
writes unspecified, the contents of framebuffers not being modelled. -/
def step (m : Machine) : GLCall → Machine
  | .glBindBuffer .GL_PIXEL_UNPACK_BUFFER b => { m with unpackBinding := b }
  | .glBindBuffer .GL_PIXEL_PACK_BUFFER b => { m with packBinding := b }
  | .glBufferData t size _ =>
    match m.bound t with
    | some b =>
      { m with
        buffers := (Function.update m.buffers b ⟨size, unspecified size⟩)
        mappings := (m.mappings.filter fun e => e.2 ≠ b) }
    | none => m
  | .glMapBufferRange t _ _ access result =>
    match m.bound t with
    | some b =>
      if result = 0 then m
      else
        { m with
          mappings := ((result, b) :: m.mappings)
          buffers :=
            (if access = .writeInvalidate then
              Function.update m.buffers b
                { m.buffers b with data := unspecified (m.buffers b).size }
            else m.buffers) }
    | none => m
  | .glUnmapBuffer t =>
    match m.bound t with
    | some b => { m with mappings := (m.mappings.filter fun e => e.2 ≠ b) }
    | none => m
  | .memcpy dst src n => m.store dst 0 (readBytes (m.mem src) 0 n)
  | .memset dst offset value n => m.store dst offset (List.replicate n.toNat (some value))
  | .glBindTexture t => { m with textureBinding := t }
  | .glTexImage2D w h pixels =>
    { m with textures := (Function.update m.textures m.textureBinding
        ⟨w, h, m.unpackSource pixels (w * h * 4)⟩) }
  | .glTexSubImage2D w h pixels =>
    let t := m.textures m.textureBinding
    { m with textures := (Function.update m.textures m.textureBinding
        { t with data :=
            (if w = t.width ∧ h = t.height then m.unpackSource pixels (w * h * 4)
            else unspecified (t.width * t.height * 4)) }) }
  | .glReadPixels w h pixels =>
    match m.packBinding with
    | none => m
    | some 0 => { m with mem := (Function.update m.mem pixels
        (writeBytes (m.mem pixels) 0 (unspecified (w * h * 4)))) }
    | some b => { m with buffers := (Function.update m.buffers b
        { m.buffers b with
          data := writeBytes (m.buffers b).data pixels (unspecified (w * h * 4)) }) }
  | .glBindFramebuffer fb => { m with framebufferBinding := fb }
  | _ => m

/-- The state after a list of operations. -/
def run (m : Machine) : List GLCall → Machine
  | [] => m
  | c :: cs => run (m.step c) cs

/-- The values `obs` reports while the operations run, in order. -/
def observe {α : Type} (obs : Machine → GLCall → Option α) : Machine → List GLCall → List α
  | _, [] => []
  | m, c :: cs => (obs m c).toList ++ observe obs (m.step c) cs

/-- At a `glMapBufferRange` on `target`, successful or not: the buffer bound
to `target`. -/
def obsMapAttempt (target : BufferTarget) (m : Machine) : GLCall → Option (Option GLuint)
  | .glMapBufferRange t _ _ _ _ =>
    if t = target then
      some (match target with
        | .GL_PIXEL_UNPACK_BUFFER => m.unpackBinding
        | .GL_PIXEL_PACK_BUFFER => m.packBinding
        | _ => none)
    else none
  | _ => none

/-- At a `glTexSubImage2D`: the pixel unpack buffer binding, which is the
source of the texture update. -/
def obsTexSource (m : Machine) : GLCall → Option (Option GLuint)
  | .glTexSubImage2D _ _ _ => some m.unpackBinding
  | _ => none

/-- At a `glReadPixels`: the pixel pack buffer binding and the `pixels`
argument.  With a buffer bound the read goes into that buffer at offset
`pixels` (the sample passes a null `pixels` for its read into a PBO); with
binding 0 it goes to client memory at `pixels`. -/
def obsRead (m : Machine) : GLCall → Option (Option GLuint × Ptr)
  | .glReadPixels _ _ pixels => some (m.packBinding, pixels)
  | _ => none

/-- At a `memcpy` whose destination is the start of a mapped buffer and whose
length is the size of that buffer's data store: the buffer, which the copy
writes completely, and the number of bytes. -/
def obsFullWrite (m : Machine) : GLCall → Option (GLuint × Int)
  | .memcpy dst _ n =>
    match m.mappings.lookup dst with
    | some b => if n = (m.buffers b).size then some (b, n) else none
    | none => none
  | _ => none

/-- The data store of buffer `x` has size `n` and no specified byte. -/
def Unwritten (m : Machine) (x : GLuint) (n : Int) : Prop :=
  m.buffers x = ⟨n, unspecified n⟩

/-- At a `glDrawElements`: the framebuffer drawn into and the texture sampled. -/
def obsDraw (m : Machine) : GLCall → Option (GLuint × GLuint)
  | .glDrawElements => some (m.framebufferBinding, m.textureBinding)
  | _ => none

/-- At a `glReadPixels`: the framebuffer read from. -/
def obsReadFramebuffer (m : Machine) : GLCall → Option GLuint
  | .glReadPixels _ _ _ => some m.framebufferBinding
  | _ => none

/-- At a `glBufferData` on a pixel buffer target: the target, the buffer bound
to it, which receives the new data store, and the size of the store. -/
def obsBufferData (m : Machine) : GLCall → Option (BufferTarget × Option GLuint × Int)
  | .glBufferData .GL_PIXEL_UNPACK_BUFFER size _ =>
    some (.GL_PIXEL_UNPACK_BUFFER, m.unpackBinding, size)
  | .glBufferData .GL_PIXEL_PACK_BUFFER size _ =>
    some (.GL_PIXEL_PACK_BUFFER, m.packBinding, size)
  | _ => none

end Machine

end GLES

/-! ## Properties and concrete inputs used in the statements -/

namespace GLES
namespace PBOSample

/-- The two slot indices are complementary: both in `{0, 1}` and `j = 1 - i`. -/
def Complementary (i j : Int) : Prop := (i = 0 ∨ i = 1) ∧ (j = 0 ∨ j = 1) ∧ j = 1 - i

instance (i j : Int) : Decidable (Complementary i j) := by
  unfold Complementary; infer_instance

/-- A frame input with every mapping succeeding. -/
def exampleFrame : FrameInput :=
  { screenW := 1080, screenH := 1920, uploadMapResult := 28672, downloadMapResult := 32768,
    randValue := 7, pBuffer := 36864, allocPtr := 40960 }

/-- A frame input with both mappings failing (`glMapBufferRange` returns null). -/
def failedMapFrame : FrameInput :=
  { exampleFrame with uploadMapResult := 0, downloadMapResult := 0 }

/-- A 1 x 7 RGBA image, as passed to `LoadImage`. -/
def exampleImage : NativeImage :=
  { width := 1, height := 7, format := IMAGE_FORMAT_RGBA, ppPlane0 := 4096, ppPlane1 := 0,
    ppPlane2 := 0 }

/-- Results of the object-creating calls of a successful `Init`: distinct
non-zero names per object kind, framebuffer complete. -/
def exampleInit : InitInput :=
  { programObj := 1, fboProgramObj := 2, samplerLoc := 0, mvpMatrixLoc := 1, fboSamplerLoc := 0,
    vboIds := [1, 2, 3, 4], vaoIds := [1, 2], imageTextureId := 1,
    uploadPboIds := [5, 6], downloadPboIds := [7, 8], fboTextureId := 2, fboId := 1,
    framebufferComplete := true }

/-- Client memory holding the 28 bytes `0, 1, ..., 27` of the loaded image at
address 8192. -/
def exampleMem : Ptr → Bytes := fun p => if p = 8192 then (List.range 28).map some else []

/-- A new sample after `LoadImage(exampleImage)` (the copy of the pixels lives
at address 8192). -/
def loadedSample : PBOSample := LoadImage exampleImage 8192 ctor

/-- The sample `loadedSample` after a successful `Init`, with the operations
of that `Init`. -/
def exampleSample : PBOSample × List GLCall := Init exampleInit loadedSample

/-- The results of `exampleInit`, but with a framebuffer that is not complete. -/
def incompleteInit : InitInput := { exampleInit with framebufferComplete := false }

/-- The sample `loadedSample` after an `Init` in which `CreateFrameBufferObj`
returned false, with the operations of that `Init`. -/
def incompleteSample : PBOSample × List GLCall := Init incompleteInit loadedSample

/-- A new sample after a successful `Init` without any `LoadImage` (zero
size, null plane), with the operations of that `Init`. -/
def unloadedSample : PBOSample × List GLCall := Init exampleInit ctor

/-- The first 2^31 + 1 frames of `unloadedSample` in the shipped configuration,
every mapping failing. -/
def unloadedLongRun : PBOSample × List GLCall :=
  runFrames false (List.replicate 2147483649 failedMapFrame) unloadedSample.1

/-- The first 2^31 frames of `exampleSample` with PBO upload, every mapping
succeeding. -/
def uploadLongRun : PBOSample × List GLCall :=
  runFrames true (List.replicate 2147483648 exampleFrame) exampleSample.1

/-- A 32768 x 16384 RGBA image: `width * height * 4` is 2^31. -/
def hugeImage : NativeImage :=
  { width := 32768, height := 16384, format := IMAGE_FORMAT_RGBA, ppPlane0 := 4096,
    ppPlane1 := 0, ppPlane2 := 0 }

/-- A new sample after `LoadImage(hugeImage)` and a successful `Init`, with
the operations of that `Init`. -/
def hugeSample : PBOSample × List GLCall := Init exampleInit (LoadImage hugeImage 8192 ctor)

/-- The results of `exampleInit`, but `glGenBuffers` delivered no name for the
four pixel buffer objects (the arrays keep `GL_NONE`). -/
def failedAllocInit : InitInput :=
  { exampleInit with uploadPboIds := [0, 0], downloadPboIds := [0, 0] }

/-- The sample `loadedSample` after an `Init` in which the creation of the
pixel buffer objects failed, with the operations of that `Init`. -/
def failedAllocSample : PBOSample × List GLCall := Init failedAllocInit loadedSample

/-- A 2 x 7 RGBA image, twice as wide as `exampleImage`. -/
def widerImage : NativeImage :=
  { width := 2, height := 7, format := IMAGE_FORMAT_RGBA, ppPlane0 := 4096, ppPlane1 := 0,
    ppPlane2 := 0 }

/-- The texel bytes of an image of `w` x `h` RGBA pixels with the five rows
from row `r` on replaced by the value 188: byte `k` is 188 when it lies in
rows `r .. r + 4` and byte `k` of `pixels` otherwise. -/
def expectedTexture (pixels : Bytes) (w h r : Int) : Bytes :=
  (List.range (w * h * 4).toNat).map fun (k : Nat) =>
    if r * (w * 4) ≤ (k : Int) ∧ (k : Int) < (r + 5) * (w * 4) then some 188
    else (pixels.get? k).join

/-- The results of the calls of a second `Init`, after a `Destroy`: new names
15, 16 for the upload buffers and 17, 18 for the download buffers. -/
def reinitInput : InitInput :=
  { exampleInit with uploadPboIds := [15, 16], downloadPboIds := [17, 18] }

/-- The first two frames of `exampleSample` in the shipped configuration,
every mapping succeeding. -/
def usedSample : PBOSample × List GLCall :=
  runFrames false [exampleFrame, exampleFrame] exampleSample.1

/-- The sample `usedSample` after `Destroy` followed by `Init`, with the
operations of both calls. -/
def reinitSample : PBOSample × List GLCall :=
  ((Init reinitInput (Destroy usedSample.1).1).1,
   (Destroy usedSample.1).2 ++ (Init reinitInput (Destroy usedSample.1).1).2)

end PBOSample
end GLES

/-! ## The angles of `UpdateMVPMatrix` -/

namespace GLES
namespace CoordSystemSample

/-- The first two statements of
`CoordSystemSample::UpdateMVPMatrix(mvpMatrix, angleX, angleY, ratio)`,
`angleX = angleX % 360; angleY = angleY % 360;`: the pair of angles, in
degrees, that the function converts to radians next (`MATH_PI / 180.0f *
angle`).  The matrices built from the radians are not modelled.  The
functions of the same name in BeatingHeartSample, Model3DSample and
BigEyesSample start with the same two statements. -/
def UpdateMVPMatrix (angleX angleY : Int) : Int × Int :=
  (cRem angleX 360, cRem angleY 360)

end CoordSystemSample

/-! ## The big-eyes sample (`sample/BigEyesSample.cpp`) -/

/-- A member of the struct `m_RenderImage`. -/
inductive ImageField where
  | width
  | height
  | format
  | ppPlane
  deriving DecidableEq, Repr

/-- The uniforms of the fragment shader that `BigEyesSample::Draw` sets by
name. -/
inductive EyesUniform where
  | u_ScaleRatio
  | u_Radius
  | u_LeftEyeCenterPos
  | u_RightEyeCenterPos
  | u_ImgSize
  deriving DecidableEq, Repr

/-- The operations of `BigEyesSample::LoadImage` and `BigEyesSample::Draw`, in
program order: construction and destruction of the `ScopedSyncLock` on
`m_Lock`, reads and writes of the members of `m_RenderImage`, OpenGL calls, and
the calls of `GLUtils::setFloat` and `GLUtils::setVec2`.  A `float` value is
modelled by the rational number the expression denotes without rounding. -/
inductive EyesOp where
  /-- The construction of `ScopedSyncLock lock(&m_Lock)`: `m_Lock` is acquired. -/
  | acquire
  /-- The end of the scope of the `ScopedSyncLock`: `m_Lock` is released. -/
  | release
  | read (field : ImageField)
  | write (field : ImageField)
  | gl (c : GLCall)
  /-- The call `UpdateMVPMatrix(m_MVPMatrix, angleX, angleY, ratio)`, with the
  angles it converts to radians. -/
  | UpdateMVPMatrix (angles : Int × Int)
  | setFloat (name : EyesUniform) (value : ℚ)
  | setVec2 (name : EyesUniform) (x y : ℚ)
  deriving DecidableEq

/-- The member variables of `BigEyesSample` that `LoadImage` and `Draw` use.
The class declaration (`BigEyesSample.h`) is not among the sources;
`m_FrameIndex`, `m_AngleX` and `m_AngleY` are `int`s, as the operations `%`,
`/` and `static_cast<int>` on them show. -/
structure BigEyesSample where
  m_ProgramObj : GLuint
  m_TextureId : GLuint
  m_VaoId : GLuint
  m_SamplerLoc : Int
  m_MVPMatLoc : Int
  m_RenderImage : NativeImage
  m_AngleX : Int
  m_AngleY : Int
  m_FrameIndex : Int
  deriving DecidableEq

namespace BigEyesSample

/-- The constants `EyeRadius`, `LeftEyePoint` and `RightEyePoint`. -/
def EyeRadius : ℚ := 36

/-- The constant `LeftEyePoint`. -/
def LeftEyePoint : ℚ × ℚ := (283, 361)

/-- The constant `RightEyePoint`. -/
def RightEyePoint : ℚ × ℚ := (395, 360)

/-- The constructor `BigEyesSample::BigEyesSample()`; `m_ProgramObj` and the
image start out zero. -/
def ctor : BigEyesSample :=
  { m_ProgramObj := GL_NONE, m_TextureId := GL_NONE, m_VaoId := GL_NONE,
    m_SamplerLoc := 0, m_MVPMatLoc := 0, m_RenderImage := NativeImage.empty,
    m_AngleX := 0, m_AngleY := 0, m_FrameIndex := 0 }

/-- The member function `BigEyesSample::LoadImage(pImage)` (`none`: a null
`pImage`); `plane` is the plane 0 that `CopyNativeImage` leaves in
`m_RenderImage`. -/
def LoadImage (pImage : Option NativeImage) (plane : Ptr) (s : BigEyesSample) :
    BigEyesSample × List EyesOp :=
  match pImage with
  | none => (s, [])
  | some img =>
    ({ s with m_RenderImage :=
        { s.m_RenderImage with
          width := img.width, height := img.height, format := img.format, ppPlane0 := plane } },
     [ EyesOp.acquire,
       EyesOp.write .width,
       EyesOp.write .height,
       EyesOp.write .format,
       EyesOp.write .ppPlane,
       EyesOp.release ])

/-- The member function `BigEyesSample::UpdateMVPMatrix`, as far as the
angles go: the same two statements as in `CoordSystemSample`. -/
def UpdateMVPMatrix (angleX angleY : Int) : Int × Int :=
  (cRem angleX 360, cRem angleY 360)

/-- The local `offset` of `Draw` for the value `frameIndex` that
`m_FrameIndex` has after its increment:
`offset = (m_FrameIndex % 100) * 1.0f / 100;
offset = (m_FrameIndex / 100) % 2 == 1 ? (1 - offset) : offset;`,
as the exact rational number the expression denotes; `offsetFloat` below is
the `float` value, with the roundings. -/
def offset (frameIndex : Int) : ℚ :=
  let offset : ℚ := (cRem frameIndex 100 : Int) * 1 / 100
  if cRem (cDiv frameIndex 100) 2 = 1 then 1 - offset else offset

/-- The argument `offset * 1.6f` of `setFloat(m_ProgramObj, "u_ScaleRatio", ...)`. -/
def scaleRatio (frameIndex : Int) : ℚ := offset frameIndex * (8 / 5)

/-- The local `offset` of `Draw` as the `float` that the two statements
compute, for the value `frameIndex` that `m_FrameIndex` has after its
increment: the conversion of `m_FrameIndex % 100` to `float`, the product with
`1.0f` and the quotient by `100` (converted to `float`) are each rounded to
`float`, and so is the difference `1 - offset`.  `offset` above is the same
expression without the roundings. -/
def offsetFloat (frameIndex : Int) : ℚ :=
  let offset : ℚ :=
    roundBinary 24
      (roundBinary 24 (roundBinary 24 ((cRem frameIndex 100 : Int) : ℚ) * 1) / roundBinary 24 100)
  if cRem (cDiv frameIndex 100) 2 = 1 then roundBinary 24 (roundBinary 24 1 - offset) else offset

/-- The member function `BigEyesSample::Draw(screenW, screenH)`: the sample
afterwards and the list of its operations.  `genTexture` is the name that
`glGenTextures` delivers.  The increment of `m_FrameIndex` wraps around at the
end of the `int` range. -/
def Draw (screenW screenH : Int) (genTexture : GLuint) (s : BigEyesSample) :
    BigEyesSample × List EyesOp :=
  if s.m_ProgramObj = GL_NONE then (s, [])
  else if s.m_TextureId = GL_NONE then
    if s.m_RenderImage.ppPlane0 ≠ 0 then
      ({ s with m_TextureId := genTexture },
       [ EyesOp.acquire,
         EyesOp.read .ppPlane,
         EyesOp.gl (GLCall.glGenTextures [genTexture]),
         EyesOp.gl (GLCall.glBindTexture genTexture),
         EyesOp.gl GLCall.glTexParameter, EyesOp.gl GLCall.glTexParameter,
         EyesOp.gl GLCall.glTexParameter, EyesOp.gl GLCall.glTexParameter,
         EyesOp.read .width,
         EyesOp.read .height,
         EyesOp.read .ppPlane,
         EyesOp.gl (GLCall.glTexImage2D s.m_RenderImage.width s.m_RenderImage.height
           s.m_RenderImage.ppPlane0),
         EyesOp.gl (GLCall.glBindTexture GL_NONE),
         EyesOp.release ])
    else (s, [ EyesOp.acquire, EyesOp.read .ppPlane, EyesOp.release ])
  else
    let s1 : BigEyesSample := { s with m_FrameIndex := wrapInt32 (s.m_FrameIndex + 1) }
    (s1,
     [ EyesOp.gl (GLCall.glViewport 0 0 screenW screenH),
       EyesOp.UpdateMVPMatrix (UpdateMVPMatrix s1.m_AngleX s1.m_AngleY),
       EyesOp.gl (GLCall.glUseProgram s1.m_ProgramObj),
       EyesOp.gl (GLCall.glBindVertexArray s1.m_VaoId),
       EyesOp.gl (GLCall.glUniformMatrix4fv s1.m_MVPMatLoc),
       EyesOp.gl GLCall.glActiveTexture,
       EyesOp.gl (GLCall.glBindTexture s1.m_TextureId),
       EyesOp.gl (GLCall.glUniform1i s1.m_SamplerLoc 0),
       EyesOp.setFloat .u_ScaleRatio (scaleRatio s1.m_FrameIndex),
       EyesOp.setFloat .u_Radius EyeRadius,
       EyesOp.setVec2 .u_LeftEyeCenterPos LeftEyePoint.1 LeftEyePoint.2,
       EyesOp.setVec2 .u_RightEyeCenterPos RightEyePoint.1 RightEyePoint.2,
       EyesOp.read .width,
       EyesOp.read .height,
       EyesOp.setVec2 .u_ImgSize s1.m_RenderImage.width s1.m_RenderImage.height,
       EyesOp.gl GLCall.glDrawElements ])

/-- Whether every read and write of `m_RenderImage` in the operations `ops`
happens while `m_Lock` is held; `held` tells whether it is held at the start. -/
def accessesUnderLock (held : Bool) : List EyesOp → Bool
  | [] => true
  | .acquire :: rest => accessesUnderLock true rest
  | .release :: rest => accessesUnderLock false rest
  | .read _ :: rest => held && accessesUnderLock held rest
  | .write _ :: rest => held && accessesUnderLock held rest
  | _ :: rest => accessesUnderLock held rest

/-- The value a `setFloat` on the uniform `name` passes, for each such call in
`ops`. -/
def floatsSet (name : EyesUniform) : List EyesOp → List ℚ
  | [] => []
  | .setFloat n v :: rest => if n = name then v :: floatsSet name rest else floatsSet name rest
  | _ :: rest => floatsSet name rest

/-- A sample with program 3, texture 4 and a 512 x 512 image loaded, at
`m_FrameIndex = 99`. -/
def renderingSample : BigEyesSample :=
  { ctor with
    m_ProgramObj := 3, m_TextureId := 4, m_VaoId := 1, m_FrameIndex := 99,
    m_RenderImage :=
      { width := 512, height := 512, format := IMAGE_FORMAT_RGBA, ppPlane0 := 8192,
        ppPlane1 := 0, ppPlane2 := 0 } }

end BigEyesSample
end GLES

/-! ## `FBOLegLengthenSample`: the stretch animation -/

namespace GLES

/-- The two member variables of `FBOLegLengthenSample` that control the
stretch animation.  `m_dt` is a floating-point variable: the field holds the
rational number that is its value. -/
structure FBOLegLengthenSample where
  m_dt : ℚ
  m_isgo : Bool
  deriving DecidableEq

namespace FBOLegLengthenSample

/-- The constructor `FBOLegLengthenSample::FBOLegLengthenSample()`:
`m_dt = 0.0`, `m_isgo = true`. -/
def ctor : FBOLegLengthenSample := { m_dt := 0, m_isgo := true }

/-- The animation control of `FBOLegLengthenSample::Init`, the only part of
`Init` that reads or writes `m_dt` and `m_isgo`, and which runs on every call:
the two direction tests, then one step of 0.01 in the direction `m_isgo`.
The class declaration is not among the sources: `prec` is the precision of the
type of `m_dt` (24 for `float`, 53 for `double`).  The literals `0.2` and
`0.01` are `double` constants, the comparisons and the sum are evaluated in
`double`, and the assignment rounds the sum to the type of `m_dt`. -/
def Init (prec : Nat) (s : FBOLegLengthenSample) : FBOLegLengthenSample :=
  let s1 : FBOLegLengthenSample :=
    if s.m_dt ≤ -(roundBinary 53 (1 / 5)) then { s with m_isgo := true } else s
  let s2 : FBOLegLengthenSample :=
    if s1.m_dt ≥ roundBinary 53 (1 / 5) then { s1 with m_isgo := false } else s1
  if s2.m_isgo then
    { s2 with m_dt := roundBinary prec (roundBinary 53 (s2.m_dt + roundBinary 53 (1 / 100))) }
  else
    { s2 with m_dt := roundBinary prec (roundBinary 53 (s2.m_dt - roundBinary 53 (1 / 100))) }

/-- The sample after `n` calls of `Init`. -/
def runInits (prec : Nat) : Nat → FBOLegLengthenSample → FBOLegLengthenSample
  | 0, s => s
  | n + 1, s => runInits prec n (Init prec s)

/-- The samples before each of the first `n` calls of `Init`, in order. -/
def orbit (prec : Nat) : Nat → FBOLegLengthenSample → List FBOLegLengthenSample
  | 0, _ => []
  | n + 1, s => s :: orbit prec n (Init prec s)

end FBOLegLengthenSample
end GLES

/-! ## `FBOBlitSample`: the blits to the screen -/

namespace GLES

/-- The member variables of `FBOBlitSample` that `BlitTextures` reads. -/
structure FBOBlitSample where
  m_FBO : GLuint
  m_RenderImage : NativeImage
  m_SurfaceWidth : Int
  m_SurfaceHeight : Int
  deriving DecidableEq, Repr

namespace FBOBlitSample

/-- The OpenGL calls of `BlitTextures`.  `glReadBuffer` carries the number `i`
of `GL_COLOR_ATTACHMENTi`; `glBlitFramebuffer` carries its source and
destination corners (mask and filter are the same in all four calls). -/
inductive BlitCall where
  | glBindReadFramebuffer (framebuffer : GLuint)
  | glReadBuffer (attachment : Nat)
  | glBlitFramebuffer (srcX0 srcY0 srcX1 srcY1 dstX0 dstY0 dstX1 dstY1 : Int)
  deriving DecidableEq, Repr

/-- The member function `FBOBlitSample::BlitTextures`: the list of its calls. -/
def BlitTextures (s : FBOBlitSample) : List BlitCall :=
  [ BlitCall.glBindReadFramebuffer s.m_FBO,
    BlitCall.glReadBuffer 0,
    BlitCall.glBlitFramebuffer 0 0 s.m_RenderImage.width s.m_RenderImage.height
      0 0 (cDiv s.m_SurfaceWidth 2) (cDiv s.m_SurfaceHeight 2),
    BlitCall.glReadBuffer 1,
    BlitCall.glBlitFramebuffer 0 0 s.m_RenderImage.width s.m_RenderImage.height
      (cDiv s.m_SurfaceWidth 2) 0 s.m_SurfaceWidth (cDiv s.m_SurfaceHeight 2),
    BlitCall.glReadBuffer 2,
    BlitCall.glBlitFramebuffer 0 0 s.m_RenderImage.width s.m_RenderImage.height
      0 (cDiv s.m_SurfaceHeight 2) (cDiv s.m_SurfaceWidth 2) s.m_SurfaceHeight,
    BlitCall.glReadBuffer 3,
    BlitCall.glBlitFramebuffer 0 0 s.m_RenderImage.width s.m_RenderImage.height
      (cDiv s.m_SurfaceWidth 2) (cDiv s.m_SurfaceHeight 2) s.m_SurfaceWidth s.m_SurfaceHeight ]

/-- A rectangle of pixels given by two corners, as `glBlitFramebuffer` takes
it: the pixels `(x, y)` with `x0 ≤ x < x1` and `y0 ≤ y < y1`. -/
structure Rect where
  x0 : Int
  y0 : Int
  x1 : Int
  y1 : Int
  deriving DecidableEq, Repr

/-- The pixel `(x, y)` lies in the rectangle. -/
def Rect.covers (r : Rect) (x y : Int) : Prop := r.x0 ≤ x ∧ x < r.x1 ∧ r.y0 ≤ y ∧ y < r.y1

instance (r : Rect) (x y : Int) : Decidable (r.covers x y) := by
  unfold Rect.covers; infer_instance

/-- The blits of a list of calls, in order: for each `glBlitFramebuffer` the
colour attachment selected by the latest `glReadBuffer` (attachment 0 when
there was none) and the destination rectangle. -/
def destinations : Nat → List BlitCall → List (Nat × Rect)
  | _, [] => []
  | _, .glReadBuffer a :: cs => destinations a cs
  | a, .glBlitFramebuffer _ _ _ _ dx0 dy0 dx1 dy1 :: cs =>
    (a, ⟨dx0, dy0, dx1, dy1⟩) :: destinations a cs
  | a, _ :: cs => destinations a cs

end FBOBlitSample
end GLES

/-! ## `GLTransitionExample`: the transition animation -/

namespace GLES

/-- The member variables of `GLTransitionExample` that decide which textures
`Draw` binds and which progress it passes.  The header of the class is not
among the sources: the two counters are taken as `int` (the constructor sets
them to 0, `Draw` applies `++` and `%` to them), `m_TextureIds` as an array of
texture names. -/
structure GLTransitionExample where
  m_ProgramObj : GLuint
  m_TextureIds : List GLuint
  m_frameIndex : Int
  m_loopCount : Int
  deriving DecidableEq, Repr

namespace GLTransitionExample

/-- What a `Draw` that reaches `glDrawElements` binds and passes: the index
into `m_TextureIds` of the texture bound to unit 0 (`u_texture0`), the index
of the texture bound to unit 1 (`u_texture1`), and the value of `u_offset`
(a float in the source, an exact rational here). -/
structure Frame where
  current : Int
  next : Int
  offset : ℚ
  deriving DecidableEq

/-- The member function `GLTransitionExample::Draw`: the sample afterwards and
what the call binds (`none` when it returns at its first test).  The macros
`BF_LOOP_COUNT` and `BF_IMG_NUM` of the missing header are parameters.  The
increments wrap around at the end of the `int` range. -/
def Draw ( BF_LOOP_COUNT BF_IMG_NUM : Int) (s : GLTransitionExample) :
    GLTransitionExample × Option Frame :=
  if s.m_ProgramObj = GL_NONE ∨ (arrayRead s.m_TextureIds 0).getD GL_NONE = GL_NONE then (s, none)
  else
    let s1 : GLTransitionExample := { s with m_frameIndex := wrapInt32 (s.m_frameIndex + 1) }
    let offset : ℚ := ((cRem s1.m_frameIndex BF_LOOP_COUNT : Int) : ℚ) * 1 / (BF_LOOP_COUNT : ℚ)
    let s2 : GLTransitionExample :=
      if cRem s1.m_frameIndex BF_LOOP_COUNT = 0 then
        { s1 with m_loopCount := wrapInt32 (s1.m_loopCount + 1) }
      else s1
    (s2, some
      { current := cRem s2.m_loopCount BF_IMG_NUM
        next := cRem (wrapInt32 (s2.m_loopCount + 1)) BF_IMG_NUM
        offset := offset })

end GLTransitionExample
end GLES

namespace GLES
namespace Machine

/-- At a `DumpNativeImage`: the pixel pointer of the image handed over and the
buffer that is mapped at that address at that moment (`none`: no buffer is
mapped there). -/
def obsDump (m : Machine) : GLCall → Option (Ptr × Option GLuint)
  | .DumpNativeImage image _ => some (image.ppPlane0, m.mappings.lookup image.ppPlane0)
  | _ => none

end Machine
end GLES

namespace GLES
namespace PBOSample

/-- A 65536 x 16384 RGBA image: `width * height * 4` is 2^32. -/
def giantImage : NativeImage :=
  { width := 65536, height := 16384, format := IMAGE_FORMAT_RGBA, ppPlane0 := 4096,
    ppPlane1 := 0, ppPlane2 := 0 }

/-- A frame input in which `rand()` returns 16378. -/
def lateRowFrame : FrameInput := { exampleFrame with randValue := 16378 }

end PBOSample
end GLES

/-! ## Arithmetic of the frame counter -/

namespace GLES

theorem cRem_two_of_nonneg {x : Int} (h : 0 ≤ x) : cRem x 2 = x % 2 :=
  Int.tmod_eq_emod h (by decide)

theorem wrapInt32_of_inRange {x : Int} (h1 : -2147483648 ≤ x) (h2 : x < 2147483648) :
    wrapInt32 x = x := by
  unfold wrapInt32; omega

theorem wrapInt32_lower (x : Int) : -2147483648 ≤ wrapInt32 x := by
  unfold wrapInt32; omega

theorem wrapInt32_upper (x : Int) : wrapInt32 x < 2147483648 := by
  unfold wrapInt32; omega

namespace PBOSample

@[simp] theorem DownloadPixels_frameIndex (f : FrameInput) (s : PBOSample) :
    (DownloadPixels f s).1.m_FrameIndex = s.m_FrameIndex := by
  unfold DownloadPixels
  dsimp only
  split <;> rfl

@[simp] theorem Draw_frameIndex (c : Bool) (f : FrameInput) (s : PBOSample) :
    (Draw c f s).1.m_FrameIndex = wrapInt32 (s.m_FrameIndex + 1) := by
  simp [Draw]

theorem runFrames_frameIndex (c : Bool) (fs : List FrameInput) (s : PBOSample) :
    wrapInt32 (runFrames c fs s).1.m_FrameIndex = wrapInt32 (s.m_FrameIndex + fs.length) := by
  induction fs generalizing s with
  | nil => simp [runFrames]
  | cons f fs ih =>
    simp only [runFrames, List.length_cons]
    rw [ih, Draw_frameIndex, Nat.cast_succ, ← add_assoc]
    unfold wrapInt32; omega

theorem runFrames_inRange (c : Bool) (fs : List FrameInput) (s : PBOSample)
    (h1 : -2147483648 ≤ s.m_FrameIndex) (h2 : s.m_FrameIndex < 2147483648) :
    -2147483648 ≤ (runFrames c fs s).1.m_FrameIndex ∧
      (runFrames c fs s).1.m_FrameIndex < 2147483648 := by
  induction fs generalizing s with
  | nil => exact ⟨h1, h2⟩
  | cons f fs ih =>
    simp only [runFrames]
    apply ih
    · rw [Draw_frameIndex]; exact wrapInt32_lower _
    · rw [Draw_frameIndex]; exact wrapInt32_upper _

theorem runFrames_frameIndex_inRange (c : Bool) (fs : List FrameInput) (s : PBOSample)
    (h1 : -2147483648 ≤ s.m_FrameIndex) (h2 : s.m_FrameIndex < 2147483648) :
    (runFrames c fs s).1.m_FrameIndex = wrapInt32 (s.m_FrameIndex + fs.length) := by
  have h := runFrames_inRange c fs s h1 h2
  rw [← runFrames_frameIndex, wrapInt32_of_inRange h.1 h.2]

/-- After `n` frames on a new sample the counter is `n` wrapped to `int`. -/
theorem runFrames_ctor_frameIndex (c : Bool) (fs : List FrameInput) :
    (runFrames c fs ctor).1.m_FrameIndex = wrapInt32 fs.length := by
  have h := runFrames_frameIndex_inRange c fs ctor (by decide) (by decide)
  simpa [ctor] using h

theorem complementary_of_nonneg {x : Int} (h : 0 ≤ x) :
    Complementary (cRem x 2) (cRem (cRem x 2 + 1) 2) := by
  rw [cRem_two_of_nonneg h]
  rcases Int.emod_two_eq x with e | e <;> rw [e] <;> decide

/-- [C1] counterexample: after 2^31 + 1 `Draw` calls on a new sample the
counter has wrapped to -2147483647, `index` is -1 and `nextIndex` is 0: `index`
is not in `{0, 1}` and `nextIndex` is not `1 - index`. -/
theorem C1_counterexample :
    ¬ Complementary (index (runFrames false (List.replicate 2147483649 exampleFrame) ctor).1)
        (nextIndex (runFrames false (List.replicate 2147483649 exampleFrame) ctor).1) := by
  have h : (runFrames false (List.replicate 2147483649 exampleFrame) ctor).1.m_FrameIndex
      = -2147483647 := by
    rw [runFrames_ctor_frameIndex, List.length_replicate]
    decide
  show ¬ Complementary (cRem _ 2) (cRem (cRem _ 2 + 1) 2)
  rw [h]
  decide

/-- [C1] amended: starting from a new sample, after any number `n ≤ 2^31` of
`Draw` calls (in either upload configuration, whatever the frames receive) the
values `index = m_FrameIndex % 2` and `nextIndex = (index + 1) % 2` are
complementary: both lie in `{0, 1}` and `nextIndex = 1 - index`. -/
theorem C1_index_complementary (c : Bool) (fs : List FrameInput)
    (hn : fs.length ≤ 2147483648) :
    Complementary (index (runFrames c fs ctor).1) (nextIndex (runFrames c fs ctor).1) := by
  have h := runFrames_ctor_frameIndex c fs
  show Complementary (cRem _ 2) (cRem (cRem _ 2 + 1) 2)
  rw [h]
  by_cases hlt : fs.length < 2147483648
  · have h0 : wrapInt32 (fs.length : Int) = fs.length := by
      apply wrapInt32_of_inRange <;> omega
    rw [h0]
    exact complementary_of_nonneg (by omega)
  · have e : fs.length = 2147483648 := by omega
    rw [e]
    decide

/-- [C1] witness: three frames. -/
theorem C1_index_complementary_witness :
    [exampleFrame, exampleFrame, exampleFrame].length ≤ 2147483648 ∧
    Complementary (index (runFrames true [exampleFrame, exampleFrame, exampleFrame] ctor).1)
      (nextIndex (runFrames true [exampleFrame, exampleFrame, exampleFrame] ctor).1) :=
  ⟨by decide, C1_index_complementary true _ (by decide)⟩

/-! ## Lemmas on the modelled OpenGL state -/

end PBOSample

namespace Machine

theorem run_append (m : Machine) (t1 t2 : List GLCall) :
    m.run (t1 ++ t2) = (m.run t1).run t2 := by
  induction t1 generalizing m with
  | nil => rfl
  | cons c cs ih => simp [run, ih]

theorem observe_append {α : Type} (obs : Machine → GLCall → Option α) (m : Machine)
    (t1 t2 : List GLCall) :
    observe obs m (t1 ++ t2) = observe obs m t1 ++ observe obs (m.run t1) t2 := by
  induction t1 generalizing m with
  | nil => rfl
  | cons c cs ih => simp [run, observe, ih]

theorem store_packBinding (m : Machine) (d : Ptr) (o : Int) (b : Bytes) :
    (m.store d o b).packBinding = m.packBinding := by
  unfold store; split <;> rfl

theorem store_unpackBinding (m : Machine) (d : Ptr) (o : Int) (b : Bytes) :
    (m.store d o b).unpackBinding = m.unpackBinding := by
  unfold store; split <;> rfl

/-- Only `glBindBuffer(GL_PIXEL_PACK_BUFFER, b)` changes the pack binding. -/
theorem step_packBinding (m : Machine) (c : GLCall) :
    (m.step c).packBinding =
      (match c with
        | .glBindBuffer .GL_PIXEL_PACK_BUFFER b => b
        | _ => m.packBinding) := by
  cases c <;> simp only [step, store_packBinding]
  case glBindBuffer t b => cases t <;> rfl
  all_goals (first | rfl | (split <;> first | rfl | (split <;> rfl)))

/-- Only `glBindBuffer(GL_PIXEL_UNPACK_BUFFER, b)` changes the unpack binding. -/
theorem step_unpackBinding (m : Machine) (c : GLCall) :
    (m.step c).unpackBinding =
      (match c with
        | .glBindBuffer .GL_PIXEL_UNPACK_BUFFER b => b
        | _ => m.unpackBinding) := by
  cases c <;> simp only [step, store_unpackBinding]
  case glBindBuffer t b => cases t <;> rfl
  all_goals (first | rfl | (split <;> first | rfl | (split <;> rfl)))

end Machine

namespace PBOSample
open Machine

/-! ## Lemmas on the frame functions -/

/-- The only member variable `DownloadPixels` changes is `m_DownloadImages`. -/
theorem DownloadPixels_fst (f : FrameInput) (s : PBOSample) :
    (DownloadPixels f s).1
      = { s with m_DownloadImages := (DownloadPixels f s).1.m_DownloadImages } := by
  unfold DownloadPixels
  dsimp only
  split <;> rfl

/-- The only member variables `Draw` changes are `m_DownloadImages` and
`m_FrameIndex`. -/
theorem Draw_fst (c : Bool) (f : FrameInput) (s : PBOSample) :
    (Draw c f s).1
      = { s with
          m_DownloadImages := (DownloadPixels f s).1.m_DownloadImages
          m_FrameIndex := wrapInt32 (s.m_FrameIndex + 1) } := by
  unfold Draw
  dsimp only
  rw [DownloadPixels_fst]

@[simp] theorem Draw_downloadPboIds (c : Bool) (f : FrameInput) (s : PBOSample) :
    (Draw c f s).1.m_DownloadPboIds = s.m_DownloadPboIds := by
  rw [Draw_fst]

@[simp] theorem Draw_uploadPboIds (c : Bool) (f : FrameInput) (s : PBOSample) :
    (Draw c f s).1.m_UploadPboIds = s.m_UploadPboIds := by
  rw [Draw_fst]

@[simp] theorem Draw_renderImage (c : Bool) (f : FrameInput) (s : PBOSample) :
    (Draw c f s).1.m_RenderImage = s.m_RenderImage := by
  rw [Draw_fst]

theorem runFrames_downloadPboIds (c : Bool) (fs : List FrameInput) (s : PBOSample) :
    (runFrames c fs s).1.m_DownloadPboIds = s.m_DownloadPboIds := by
  induction fs generalizing s with
  | nil => rfl
  | cons f fs ih => simp only [runFrames, ih, Draw_downloadPboIds]

theorem runFrames_uploadPboIds (c : Bool) (fs : List FrameInput) (s : PBOSample) :
    (runFrames c fs s).1.m_UploadPboIds = s.m_UploadPboIds := by
  induction fs generalizing s with
  | nil => rfl
  | cons f fs ih => simp only [runFrames, ih, Draw_uploadPboIds]

theorem runFrames_renderImage (c : Bool) (fs : List FrameInput) (s : PBOSample) :
    (runFrames c fs s).1.m_RenderImage = s.m_RenderImage := by
  induction fs generalizing s with
  | nil => rfl
  | cons f fs ih => simp only [runFrames, ih, Draw_renderImage]

/-- While the counter is non-negative the two slots are 0 and 1 in some order. -/
theorem index_cases_of_nonneg {s : PBOSample} (h : 0 ≤ s.m_FrameIndex) :
    (index s = 0 ∧ nextIndex s = 1) ∨ (index s = 1 ∧ nextIndex s = 0) := by
  have := complementary_of_nonneg h
  unfold Complementary at this
  unfold nextIndex index
  omega

/-- A frame with a counter in `[0, 2^31)` swaps the two slots for the next frame. -/
theorem index_Draw_of_nonneg (c : Bool) (f : FrameInput) {s : PBOSample}
    (h0 : 0 ≤ s.m_FrameIndex) (h1 : s.m_FrameIndex < 2147483648) :
    index (Draw c f s).1 = nextIndex s ∧ nextIndex (Draw c f s).1 = index s := by
  unfold nextIndex index
  rw [Draw_frameIndex, cRem_two_of_nonneg h0]
  by_cases hmax : s.m_FrameIndex = 2147483647
  · rw [hmax]; decide
  · have hw : wrapInt32 (s.m_FrameIndex + 1) = s.m_FrameIndex + 1 :=
      wrapInt32_of_inRange (by omega) (by omega)
    rw [hw, cRem_two_of_nonneg (by omega : (0:Int) ≤ s.m_FrameIndex + 1)]
    rcases Int.emod_two_eq s.m_FrameIndex with e | e
    · have e2 : (s.m_FrameIndex + 1) % 2 = 1 := by omega
      rw [e, e2]; decide
    · have e2 : (s.m_FrameIndex + 1) % 2 = 0 := by omega
      rw [e, e2]; decide

/-! ### The pixel pack side of a frame -/

theorem observe_read_DownloadPixels (m : Machine) (f : FrameInput) (s : PBOSample) :
    observe obsRead m (DownloadPixels f s).2
      = [(m.packBinding, f.pBuffer), (arrayRead s.m_DownloadPboIds (index s), 0)] := by
  unfold DownloadPixels
  dsimp only
  split_ifs <;> simp [observe, obsRead, step_packBinding]

theorem observe_mapPack_DownloadPixels (m : Machine) (f : FrameInput) (s : PBOSample) :
    observe (obsMapAttempt .GL_PIXEL_PACK_BUFFER) m (DownloadPixels f s).2
      = if (downloadImage s (nextIndex s)).ppPlane0 = 0
        then [arrayRead s.m_DownloadPboIds (nextIndex s)] else [] := by
  unfold DownloadPixels
  dsimp only
  split_ifs <;> simp [observe, obsMapAttempt, step_packBinding]

theorem packBinding_run_UploadPixels (m : Machine) (c : Bool) (f : FrameInput) (s : PBOSample) :
    (m.run (UploadPixels c f s)).packBinding = m.packBinding := by
  unfold UploadPixels stripe
  split_ifs <;> simp [run, step_packBinding]

theorem observe_read_UploadPixels (m : Machine) (c : Bool) (f : FrameInput) (s : PBOSample) :
    observe obsRead m (UploadPixels c f s) = [] := by
  unfold UploadPixels stripe
  split_ifs <;> simp [observe, obsRead]

theorem observe_mapPack_UploadPixels (m : Machine) (c : Bool) (f : FrameInput) (s : PBOSample) :
    observe (obsMapAttempt .GL_PIXEL_PACK_BUFFER) m (UploadPixels c f s) = [] := by
  unfold UploadPixels stripe
  split_ifs <;> simp [observe, obsMapAttempt]

/-- The `glReadPixels` calls of a frame: the first, into `pBuffer`, under the
pack binding the frame starts with; the second, with null `pixels`, under
`m_DownloadPboIds[index]`. -/
theorem observe_read_Draw (m : Machine) (c : Bool) (f : FrameInput) (s : PBOSample) :
    observe obsRead m (Draw c f s).2
      = [(m.packBinding, f.pBuffer), (arrayRead s.m_DownloadPboIds (index s), 0)] := by
  simp only [Draw, observe_append, run_append, observe_read_UploadPixels,
    observe_read_DownloadPixels]
  simp [observe, obsRead, offscreenPass, screenPass, run, step_packBinding,
    packBinding_run_UploadPixels]

/-- The mapping of a download buffer in a frame: of `m_DownloadPboIds[nextIndex]`,
when the cached pointer of that slot is null. -/
theorem observe_mapPack_Draw (m : Machine) (c : Bool) (f : FrameInput) (s : PBOSample) :
    observe (obsMapAttempt .GL_PIXEL_PACK_BUFFER) m (Draw c f s).2
      = if (downloadImage s (nextIndex s)).ppPlane0 = 0
        then [arrayRead s.m_DownloadPboIds (nextIndex s)] else [] := by
  simp only [Draw, observe_append, run_append, observe_mapPack_UploadPixels,
    observe_mapPack_DownloadPixels]
  simp [observe, obsMapAttempt, offscreenPass, screenPass]

theorem downloadImage_null_of_all {s : PBOSample}
    (h : ∀ img ∈ s.m_DownloadImages, img.ppPlane0 = 0) (i : Int) :
    (downloadImage s i).ppPlane0 = 0 := by
  unfold downloadImage arrayRead
  split_ifs
  · rfl
  · cases hg : s.m_DownloadImages.get? i.toNat with
    | none => rfl
    | some img => exact h img (List.get?_mem hg)

/-- With no image loaded, a failed mapping leaves every cached pointer null. -/
theorem DownloadPixels_null_of_failed (f : FrameInput) (s : PBOSample)
    (hi : s.m_RenderImage.ppPlane0 = 0) (hf : f.downloadMapResult = 0)
    (h : ∀ img ∈ s.m_DownloadImages, img.ppPlane0 = 0) :
    ∀ img ∈ (DownloadPixels f s).1.m_DownloadImages, img.ppPlane0 = 0 := by
  unfold DownloadPixels
  dsimp only
  rw [if_pos (downloadImage_null_of_all h _)]
  simp only [hf, ne_eq, not_true_eq_false, if_false]
  intro img himg
  unfold arrayWrite at himg
  split_ifs at himg
  · exact h img himg
  · rcases List.mem_or_eq_of_mem_set himg with h1 | h1
    · exact h img h1
    · rw [h1]; exact hi

theorem Draw_null_of_failed (c : Bool) (f : FrameInput) (s : PBOSample)
    (hi : s.m_RenderImage.ppPlane0 = 0) (hf : f.downloadMapResult = 0)
    (h : ∀ img ∈ s.m_DownloadImages, img.ppPlane0 = 0) :
    ∀ img ∈ (Draw c f s).1.m_DownloadImages, img.ppPlane0 = 0 := by
  rw [Draw_fst]; exact DownloadPixels_null_of_failed f s hi hf h

theorem runFrames_null_of_failed (c : Bool) (n : Nat) (f : FrameInput) (s : PBOSample)
    (hi : s.m_RenderImage.ppPlane0 = 0) (hf : f.downloadMapResult = 0)
    (h : ∀ img ∈ s.m_DownloadImages, img.ppPlane0 = 0) :
    ∀ img ∈ (runFrames c (List.replicate n f) s).1.m_DownloadImages, img.ppPlane0 = 0 := by
  induction n generalizing s with
  | zero => exact h
  | succ n ih =>
    simp only [List.replicate_succ, runFrames]
    apply ih
    · rw [Draw_renderImage]; exact hi
    · exact Draw_null_of_failed c f s hi hf h

/-! ## C2 : one-frame latency of the download path -/

/-- [C2] counterexample.  (1) Frame 0 of an initialised sample maps download
buffer 8 (`m_DownloadPboIds[1]`), although in the whole history up to the end
of that frame no `glReadPixels` was issued with that buffer bound: there is no
frame -1.  (2) With no image loaded and every mapping failing, frame
2^31 + 2 maps buffer 8, but the read of frame 2^31 + 1 (counter wrapped to
-2147483647, `index = -1`) was not issued into buffer 8. -/
theorem C2_counterexample :
    (observe (obsMapAttempt .GL_PIXEL_PACK_BUFFER) (Machine.initial exampleMem)
        (exampleSample.2 ++ (Draw false exampleFrame exampleSample.1).2) = [some 8] ∧
      ∀ r ∈ observe obsRead (Machine.initial exampleMem)
        (exampleSample.2 ++ (Draw false exampleFrame exampleSample.1).2), r.1 ≠ some 8) ∧
    (observe (obsMapAttempt .GL_PIXEL_PACK_BUFFER)
        (((Machine.initial exampleMem).run (unloadedSample.2 ++ unloadedLongRun.2)).run
          (Draw false failedMapFrame unloadedLongRun.1).2)
        (Draw false failedMapFrame (Draw false failedMapFrame unloadedLongRun.1).1).2
        = [some 8] ∧
      (some 8, 0) ∉ observe obsRead
        ((Machine.initial exampleMem).run (unloadedSample.2 ++ unloadedLongRun.2))
        (Draw false failedMapFrame unloadedLongRun.1).2) := by
  refine ⟨by decide, ?_⟩
  have hfi : unloadedLongRun.1.m_FrameIndex = -2147483647 := by
    unfold unloadedLongRun
    rw [runFrames_frameIndex_inRange _ _ _ (by decide) (by decide), List.length_replicate]
    decide
  have hids : unloadedLongRun.1.m_DownloadPboIds = [7, 8] := by
    unfold unloadedLongRun
    rw [runFrames_downloadPboIds]; decide
  have hri : unloadedLongRun.1.m_RenderImage.ppPlane0 = 0 := by
    unfold unloadedLongRun
    rw [runFrames_renderImage]; decide
  have hnull : ∀ img ∈ unloadedLongRun.1.m_DownloadImages, img.ppPlane0 = 0 := by
    unfold unloadedLongRun
    exact runFrames_null_of_failed false _ failedMapFrame _ (by decide) (by decide) (by decide)
  have hnull1 := Draw_null_of_failed false failedMapFrame _ hri (by decide) hnull
  have hi0 : index unloadedLongRun.1 = -1 := by
    show cRem _ 2 = -1
    rw [hfi]; decide
  have hn1 : nextIndex (Draw false failedMapFrame unloadedLongRun.1).1 = 1 := by
    show cRem (cRem _ 2 + 1) 2 = 1
    rw [Draw_frameIndex, hfi]; decide
  constructor
  · rw [observe_mapPack_Draw, if_pos (downloadImage_null_of_all hnull1 _), hn1,
      Draw_downloadPboIds, hids]
    decide
  · rw [observe_read_Draw, hi0, hids]
    simp [failedMapFrame, exampleFrame, arrayRead]

/-- [C2] amended: for two consecutive frames N - 1 and N whose counter has not
overflowed (N - 1 in `[0, 2^31)`), every download buffer on which frame N calls
`glMapBufferRange` is the buffer that was bound when frame N - 1 issued its
`glReadPixels` with null `pixels` (the read into `m_DownloadPboIds[index]`),
and it is not the buffer bound at the `glReadPixels` with null `pixels` of
frame N. -/
theorem C2_one_frame_latency (c : Bool) (f f' : FrameInput) (s : PBOSample) (m : Machine)
    (a b : GLuint) (hids : s.m_DownloadPboIds = [a, b]) (hab : a ≠ b)
    (h0 : 0 ≤ s.m_FrameIndex) (h1 : s.m_FrameIndex < 2147483648) (hp : f'.pBuffer ≠ 0) :
    ∀ x ∈ observe (obsMapAttempt .GL_PIXEL_PACK_BUFFER) (m.run (Draw c f s).2)
            (Draw c f' (Draw c f s).1).2,
      (x, 0) ∈ observe obsRead m (Draw c f s).2 ∧
      ∀ r ∈ observe obsRead (m.run (Draw c f s).2) (Draw c f' (Draw c f s).1).2,
        r.2 = 0 → r.1 ≠ x := by
  intro x hx
  obtain ⟨e1, e2⟩ := index_Draw_of_nonneg c f h0 h1
  rw [observe_mapPack_Draw, e2, Draw_downloadPboIds, hids] at hx
  rw [observe_read_Draw, observe_read_Draw, e1, Draw_downloadPboIds, hids]
  split_ifs at hx
  · simp only [List.mem_singleton] at hx
    subst hx
    refine ⟨by simp, ?_⟩
    intro r hr hr0
    simp only [List.mem_cons, List.mem_singleton, List.not_mem_nil, or_false] at hr
    rcases hr with rfl | rfl
    · exact absurd hr0 hp
    · rcases index_cases_of_nonneg h0 with ⟨i0, i1⟩ | ⟨i0, i1⟩ <;> rw [i0, i1] <;>
        simp [arrayRead, hab, Ne.symm hab]
  · simp at hx

/-- [C2] witness: frames 0 and 1 of the initialised example sample; frame 1
maps buffer 7, the target of the read of frame 0. -/
theorem C2_one_frame_latency_witness :
    exampleSample.1.m_DownloadPboIds = [7, 8] ∧ (7 : GLuint) ≠ 8 ∧
    0 ≤ exampleSample.1.m_FrameIndex ∧ exampleSample.1.m_FrameIndex < 2147483648 ∧
    exampleFrame.pBuffer ≠ 0 ∧
    observe (obsMapAttempt .GL_PIXEL_PACK_BUFFER)
      (((Machine.initial exampleMem).run exampleSample.2).run
        (Draw false exampleFrame exampleSample.1).2)
      (Draw false exampleFrame (Draw false exampleFrame exampleSample.1).1).2 = [some 7] ∧
    (∀ x ∈ observe (obsMapAttempt .GL_PIXEL_PACK_BUFFER)
        (((Machine.initial exampleMem).run exampleSample.2).run
          (Draw false exampleFrame exampleSample.1).2)
        (Draw false exampleFrame (Draw false exampleFrame exampleSample.1).1).2,
      (x, 0) ∈ observe obsRead ((Machine.initial exampleMem).run exampleSample.2)
        (Draw false exampleFrame exampleSample.1).2 ∧
      ∀ r ∈ observe obsRead
          (((Machine.initial exampleMem).run exampleSample.2).run
            (Draw false exampleFrame exampleSample.1).2)
          (Draw false exampleFrame (Draw false exampleFrame exampleSample.1).1).2,
        r.2 = 0 → r.1 ≠ x) :=
  ⟨by decide, by decide, by decide, by decide, by decide, by decide,
    C2_one_frame_latency false exampleFrame exampleFrame exampleSample.1
      ((Machine.initial exampleMem).run exampleSample.2) 7 8
      (by decide) (by decide) (by decide) (by decide) (by decide)⟩

/-! ### The pixel unpack side of a frame -/

theorem observe_texSource_UploadPixels (m : Machine) (c : Bool) (f : FrameInput)
    (s : PBOSample) :
    observe obsTexSource m (UploadPixels c f s)
      = [if c then arrayRead s.m_UploadPboIds (index s) else m.unpackBinding] := by
  unfold UploadPixels stripe
  split_ifs <;> simp_all [observe, obsTexSource, step_unpackBinding]

theorem observe_texSource_DownloadPixels (m : Machine) (f : FrameInput) (s : PBOSample) :
    observe obsTexSource m (DownloadPixels f s).2 = [] := by
  unfold DownloadPixels
  dsimp only
  split_ifs <;> simp [observe, obsTexSource]

theorem observe_texSource_Draw (m : Machine) (c : Bool) (f : FrameInput) (s : PBOSample) :
    observe obsTexSource m (Draw c f s).2
      = [if c then arrayRead s.m_UploadPboIds (index s) else m.unpackBinding] := by
  simp only [Draw, observe_append, run_append, observe_texSource_UploadPixels,
    observe_texSource_DownloadPixels]
  simp [observe, obsTexSource, offscreenPass, screenPass, run, step_unpackBinding]

theorem observe_mapUnpack_UploadPixels (m : Machine) (c : Bool) (f : FrameInput)
    (s : PBOSample) :
    observe (obsMapAttempt .GL_PIXEL_UNPACK_BUFFER) m (UploadPixels c f s)
      = if c then [arrayRead s.m_UploadPboIds (nextIndex s)] else [] := by
  unfold UploadPixels stripe
  split_ifs <;> simp_all [observe, obsMapAttempt, step_unpackBinding]

theorem observe_mapUnpack_DownloadPixels (m : Machine) (f : FrameInput) (s : PBOSample) :
    observe (obsMapAttempt .GL_PIXEL_UNPACK_BUFFER) m (DownloadPixels f s).2 = [] := by
  unfold DownloadPixels
  dsimp only
  split_ifs <;> simp [observe, obsMapAttempt]

theorem observe_mapUnpack_Draw (m : Machine) (c : Bool) (f : FrameInput) (s : PBOSample) :
    observe (obsMapAttempt .GL_PIXEL_UNPACK_BUFFER) m (Draw c f s).2
      = if c then [arrayRead s.m_UploadPboIds (nextIndex s)] else [] := by
  simp only [Draw, observe_append, run_append, observe_mapUnpack_UploadPixels,
    observe_mapUnpack_DownloadPixels]
  simp [observe, obsMapAttempt, offscreenPass, screenPass]

theorem observe_fullWrite_DownloadPixels (m : Machine) (f : FrameInput) (s : PBOSample) :
    observe obsFullWrite m (DownloadPixels f s).2 = [] := by
  unfold DownloadPixels
  dsimp only
  split_ifs <;> simp [observe, obsFullWrite]

theorem observe_fullWrite_UploadPixels (m : Machine) (f : FrameInput) (s : PBOSample)
    (b : GLuint) (hb : b ≠ 0) (hs : arrayRead s.m_UploadPboIds (nextIndex s) = some b)
    (hmap : f.uploadMapResult ≠ 0) :
    observe obsFullWrite m (UploadPixels true f s) = [(b, dataSize s)] := by
  unfold UploadPixels stripe
  simp [observe, obsFullWrite, hmap, hs, step, bound, hb, store]

/-- In a frame with PBO upload whose mapping succeeds, exactly one buffer is
written completely by `memcpy`: `m_UploadPboIds[nextIndex]`, with `dataSize`
bytes. -/
theorem observe_fullWrite_Draw (m : Machine) (f : FrameInput) (s : PBOSample)
    (b : GLuint) (hb : b ≠ 0) (hs : arrayRead s.m_UploadPboIds (nextIndex s) = some b)
    (hmap : f.uploadMapResult ≠ 0) :
    observe obsFullWrite m (Draw true f s).2 = [(b, dataSize s)] := by
  simp only [Draw, observe_append, run_append, observe_fullWrite_DownloadPixels,
    observe_fullWrite_UploadPixels _ f s b hb hs hmap]
  simp [observe, obsFullWrite, offscreenPass, screenPass]

theorem uploadLongRun_frameIndex : uploadLongRun.1.m_FrameIndex = -2147483648 := by
  unfold uploadLongRun
  rw [runFrames_frameIndex_inRange _ _ _ (by decide) (by decide), List.length_replicate]
  decide

theorem uploadLongRun_uploadPboIds : uploadLongRun.1.m_UploadPboIds = [5, 6] := by
  unfold uploadLongRun
  rw [runFrames_uploadPboIds]; decide

theorem uploadLongRun_renderImage :
    uploadLongRun.1.m_RenderImage = exampleSample.1.m_RenderImage := by
  unfold uploadLongRun
  rw [runFrames_renderImage]

/-! ## C3 : the source buffer of the texture update -/

/-- [C3] counterexample, PBO upload path.  (1) The first call after `Init`
sources the texture update from buffer 5 (`m_UploadPboIds[0]`): there is no
preceding `UploadPixels` call, nothing was copied into any buffer before, and
the bytes of buffer 5 are all unspecified.  (2) After a frame whose mapping
failed, the next call sources from buffer 6, into which that frame copied
nothing.  (3) Frame 2^31 (counter wrapped to -2^31) writes buffer 6
completely, but the source of frame 2^31 + 1 (`index = -1`) is not buffer 6. -/
theorem C3_counterexample :
    (observe obsTexSource ((Machine.initial exampleMem).run exampleSample.2)
        (Draw true exampleFrame exampleSample.1).2 = [some 5] ∧
      observe obsFullWrite (Machine.initial exampleMem) exampleSample.2 = [] ∧
      (((Machine.initial exampleMem).run exampleSample.2).buffers 5).data = unspecified 28) ∧
    (observe obsTexSource
        (((Machine.initial exampleMem).run exampleSample.2).run
          (Draw true failedMapFrame exampleSample.1).2)
        (Draw true exampleFrame (Draw true failedMapFrame exampleSample.1).1).2 = [some 6] ∧
      observe obsFullWrite ((Machine.initial exampleMem).run exampleSample.2)
        (Draw true failedMapFrame exampleSample.1).2 = []) ∧
    (observe obsFullWrite
        ((Machine.initial exampleMem).run (exampleSample.2 ++ uploadLongRun.2))
        (Draw true exampleFrame uploadLongRun.1).2 = [(6, 28)] ∧
      observe obsTexSource
        (((Machine.initial exampleMem).run (exampleSample.2 ++ uploadLongRun.2)).run
          (Draw true exampleFrame uploadLongRun.1).2)
        (Draw true exampleFrame (Draw true exampleFrame uploadLongRun.1).1).2 = [none]) := by
  refine ⟨by decide, by decide, ?_, ?_⟩
  · have hn : nextIndex uploadLongRun.1 = 1 := by
      show cRem (cRem _ 2 + 1) 2 = 1
      rw [uploadLongRun_frameIndex]; decide
    have hd : dataSize uploadLongRun.1 = 28 := by
      unfold dataSize; rw [uploadLongRun_renderImage]; decide
    rw [observe_fullWrite_Draw _ _ _ 6 (by decide)
      (by rw [hn, uploadLongRun_uploadPboIds]; decide) (by decide), hd]
  · have hi : index (Draw true exampleFrame uploadLongRun.1).1 = -1 := by
      show cRem _ 2 = -1
      rw [Draw_frameIndex, uploadLongRun_frameIndex]; decide
    rw [observe_texSource_Draw, hi, Draw_uploadPboIds, uploadLongRun_uploadPboIds]
    decide

/-- [C3] amended: in the PBO upload path, for two consecutive `UploadPixels`
calls (frames N - 1 and N, the counter of frame N - 1 in `[0, 2^31)`, buffer
names non-zero) such that `glMapBufferRange` succeeded in the first, the
buffer `m_UploadPboIds[index]` that the second call uses as source of the
texture sub-update is the one buffer that the first call mapped and wrote
completely: a `memcpy` of `dataSize` bytes, the size of its data store, to the
start of the mapping. -/
theorem C3_source_written_in_previous_call (f f' : FrameInput) (s : PBOSample) (m : Machine)
    (a b : GLuint) (hids : s.m_UploadPboIds = [a, b]) (ha : a ≠ 0) (hb : b ≠ 0)
    (h0 : 0 ≤ s.m_FrameIndex) (h1 : s.m_FrameIndex < 2147483648)
    (hmap : f.uploadMapResult ≠ 0) :
    ∃ x, observe obsFullWrite m (Draw true f s).2 = [(x, dataSize s)] ∧
      observe obsTexSource (m.run (Draw true f s).2) (Draw true f' (Draw true f s).1).2
        = [some x] := by
  obtain ⟨e1, _⟩ := index_Draw_of_nonneg true f h0 h1
  rw [observe_texSource_Draw, e1, Draw_uploadPboIds, hids]
  rcases index_cases_of_nonneg h0 with ⟨_, i1⟩ | ⟨_, i1⟩
  · refine ⟨b, ?_, ?_⟩
    · exact observe_fullWrite_Draw m f s b hb (by rw [i1, hids]; rfl) hmap
    · rw [i1]; rfl
  · refine ⟨a, ?_, ?_⟩
    · exact observe_fullWrite_Draw m f s a ha (by rw [i1, hids]; rfl) hmap
    · rw [i1]; rfl

/-- [C3] witness: frames 0 and 1 of the initialised example sample. -/
theorem C3_source_written_in_previous_call_witness :
    exampleSample.1.m_UploadPboIds = [5, 6] ∧ (5 : GLuint) ≠ 0 ∧ (6 : GLuint) ≠ 0 ∧
    0 ≤ exampleSample.1.m_FrameIndex ∧ exampleSample.1.m_FrameIndex < 2147483648 ∧
    exampleFrame.uploadMapResult ≠ 0 ∧
    ∃ x, observe obsFullWrite ((Machine.initial exampleMem).run exampleSample.2)
          (Draw true exampleFrame exampleSample.1).2 = [(x, dataSize exampleSample.1)] ∧
      observe obsTexSource
        (((Machine.initial exampleMem).run exampleSample.2).run
          (Draw true exampleFrame exampleSample.1).2)
        (Draw true exampleFrame (Draw true exampleFrame exampleSample.1).1).2 = [some x] :=
  ⟨by decide, by decide, by decide, by decide, by decide, by decide,
    C3_source_written_in_previous_call exampleFrame exampleFrame exampleSample.1
      ((Machine.initial exampleMem).run exampleSample.2) 5 6
      (by decide) (by decide) (by decide) (by decide) (by decide) (by decide)⟩

/-! ## C4 : the CPU and the GPU never use the same staging buffer in a frame -/

/-- [C4] counterexample, PBO upload path: in frame 2^31 (counter wrapped to
-2^31, `nextIndex = 1`) the CPU maps upload buffer 6, but in frame 2^31 + 1 the
slot used by the GPU is `index = -1`, outside the array: the source of the
texture update is an indeterminate name, not buffer 6. -/
theorem C4_counterexample :
    observe (obsMapAttempt .GL_PIXEL_UNPACK_BUFFER)
      ((Machine.initial exampleMem).run (exampleSample.2 ++ uploadLongRun.2))
      (Draw true exampleFrame uploadLongRun.1).2 = [some 6] ∧
    nextIndex uploadLongRun.1 = 1 ∧
    index (Draw true exampleFrame uploadLongRun.1).1 = -1 ∧
    observe obsTexSource
      (((Machine.initial exampleMem).run (exampleSample.2 ++ uploadLongRun.2)).run
        (Draw true exampleFrame uploadLongRun.1).2)
      (Draw true exampleFrame (Draw true exampleFrame uploadLongRun.1).1).2 ≠ [some 6] := by
  have hn : nextIndex uploadLongRun.1 = 1 := by
    show cRem (cRem _ 2 + 1) 2 = 1
    rw [uploadLongRun_frameIndex]; decide
  have hi : index (Draw true exampleFrame uploadLongRun.1).1 = -1 := by
    show cRem _ 2 = -1
    rw [Draw_frameIndex, uploadLongRun_frameIndex]; decide
  refine ⟨?_, hn, hi, ?_⟩
  · rw [observe_mapUnpack_Draw, hn, uploadLongRun_uploadPboIds]; decide
  · rw [observe_texSource_Draw, hi, Draw_uploadPboIds, uploadLongRun_uploadPboIds]
    decide

/-- [C4] amended: in every frame N whose counter has not overflowed (N in
`[0, 2^31)`), with the two names of each PBO pair distinct: the buffer bound
at a `glMapBufferRange` of the frame (slot `nextIndex`) differs from the
buffer its GPU transfer uses (slot `index`), both for the upload path
(unpack buffer at `glTexSubImage2D`) and for the download path (pack buffer at
the `glReadPixels` with null `pixels`); `index` of frame N + 1 is `nextIndex`
of frame N, and the buffer the GPU transfer of frame N + 1 uses is the buffer
bound at the mapping of frame N. -/
theorem C4_no_same_frame_aliasing (c : Bool) (f f' : FrameInput) (s : PBOSample) (m : Machine)
    (a b d e : GLuint) (hu : s.m_UploadPboIds = [a, b]) (hd : s.m_DownloadPboIds = [d, e])
    (hab : a ≠ b) (hde : d ≠ e)
    (h0 : 0 ≤ s.m_FrameIndex) (h1 : s.m_FrameIndex < 2147483648)
    (hp : f.pBuffer ≠ 0) (hp' : f'.pBuffer ≠ 0) :
    (∀ x ∈ observe (obsMapAttempt .GL_PIXEL_UNPACK_BUFFER) m (Draw c f s).2,
      ∀ y ∈ observe obsTexSource m (Draw c f s).2, x ≠ y) ∧
    (∀ x ∈ observe (obsMapAttempt .GL_PIXEL_PACK_BUFFER) m (Draw c f s).2,
      ∀ r ∈ observe obsRead m (Draw c f s).2, r.2 = 0 → r.1 ≠ x) ∧
    index s ≠ nextIndex s ∧
    index (Draw c f s).1 = nextIndex s ∧
    (∀ x ∈ observe (obsMapAttempt .GL_PIXEL_UNPACK_BUFFER) m (Draw c f s).2,
      observe obsTexSource (m.run (Draw c f s).2) (Draw c f' (Draw c f s).1).2 = [x]) ∧
    (∀ x ∈ observe (obsMapAttempt .GL_PIXEL_PACK_BUFFER) m (Draw c f s).2,
      ∀ r ∈ observe obsRead (m.run (Draw c f s).2) (Draw c f' (Draw c f s).1).2,
        r.2 = 0 → r.1 = x) := by
  obtain ⟨e1, _⟩ := index_Draw_of_nonneg c f h0 h1
  have hidx := index_cases_of_nonneg h0
  refine ⟨?_, ?_, ?_, e1, ?_, ?_⟩
  · rw [observe_mapUnpack_Draw, observe_texSource_Draw, hu]
    rcases hidx with ⟨i0, i1⟩ | ⟨i0, i1⟩ <;> rw [i0, i1] <;> cases c <;>
      simp [arrayRead, hab, Ne.symm hab]
  · rw [observe_mapPack_Draw, observe_read_Draw, hd]
    intro x hx r hr hr0
    have hx' : x = arrayRead [d, e] (nextIndex s) := by
      split_ifs at hx
      · simpa using hx
      · simp at hx
    simp only [List.mem_cons, List.mem_singleton, List.not_mem_nil, or_false] at hr
    rcases hr with rfl | rfl
    · exact absurd hr0 hp
    · rw [hx']
      rcases hidx with ⟨i0, i1⟩ | ⟨i0, i1⟩ <;> rw [i0, i1] <;>
        simp [arrayRead, hde, Ne.symm hde]
  · rcases hidx with ⟨i0, i1⟩ | ⟨i0, i1⟩ <;> rw [i0, i1] <;> decide
  · rw [observe_mapUnpack_Draw, observe_texSource_Draw, e1, Draw_uploadPboIds]
    cases c <;> simp
  · rw [observe_mapPack_Draw, observe_read_Draw, e1, Draw_downloadPboIds]
    intro x hx r hr hr0
    have hx' : x = arrayRead s.m_DownloadPboIds (nextIndex s) := by
      split_ifs at hx
      · simpa using hx
      · simp at hx
    simp only [List.mem_cons, List.mem_singleton, List.not_mem_nil, or_false] at hr
    rcases hr with rfl | rfl
    · exact absurd hr0 hp'
    · rw [hx']

/-- [C4] witness: frames 0 and 1 of the initialised example sample, PBO upload. -/
theorem C4_no_same_frame_aliasing_witness :
    exampleSample.1.m_UploadPboIds = [5, 6] ∧ exampleSample.1.m_DownloadPboIds = [7, 8] ∧
    (5 : GLuint) ≠ 6 ∧ (7 : GLuint) ≠ 8 ∧
    0 ≤ exampleSample.1.m_FrameIndex ∧ exampleSample.1.m_FrameIndex < 2147483648 ∧
    exampleFrame.pBuffer ≠ 0 ∧
    observe (obsMapAttempt .GL_PIXEL_UNPACK_BUFFER) ((Machine.initial exampleMem).run exampleSample.2)
      (Draw true exampleFrame exampleSample.1).2 = [some 6] ∧
    observe obsTexSource
      (((Machine.initial exampleMem).run exampleSample.2).run
        (Draw true exampleFrame exampleSample.1).2)
      (Draw true exampleFrame (Draw true exampleFrame exampleSample.1).1).2 = [some 6] ∧
    index (Draw true exampleFrame exampleSample.1).1 = nextIndex exampleSample.1 :=
  ⟨by decide, by decide, by decide, by decide, by decide, by decide, by decide, by decide,
    (C4_no_same_frame_aliasing true exampleFrame exampleFrame exampleSample.1
      ((Machine.initial exampleMem).run exampleSample.2) 5 6 7 8
      (by decide) (by decide) (by decide) (by decide) (by decide) (by decide)
      (by decide) (by decide)).2.2.2.2.1 (some 6) (by decide),
    (C4_no_same_frame_aliasing true exampleFrame exampleFrame exampleSample.1
      ((Machine.initial exampleMem).run exampleSample.2) 5 6 7 8
      (by decide) (by decide) (by decide) (by decide) (by decide) (by decide)
      (by decide) (by decide)).2.2.2.1⟩

/-! ## C5 : a failed mapping in the download path -/

/-- [C5] the code at the failing input: an image is loaded, and in frame 0
`glMapBufferRange` returns null for slot 1.  Afterwards
`m_DownloadImages[1].ppPlane[0]` is the plane 8192 of `m_RenderImage` (copied
by the struct assignment), not null; `DumpNativeImage` is called with it; and in
frame 2, the next frame in which slot 1 is `nextIndex`, no mapping is
attempted. -/
theorem C5_failed_map_keeps_source_plane :
    failedMapFrame.downloadMapResult = 0 ∧
    nextIndex exampleSample.1 = 1 ∧
    (downloadImage (Draw false failedMapFrame exampleSample.1).1 1).ppPlane0 = 8192 ∧
    GLCall.DumpNativeImage
        { width := 1, height := 7, format := IMAGE_FORMAT_RGBA, ppPlane0 := 8192, ppPlane1 := 0,
          ppPlane2 := 0 } 1
      ∈ (Draw false failedMapFrame exampleSample.1).2 ∧
    nextIndex (runFrames false [failedMapFrame, exampleFrame] exampleSample.1).1 = 1 ∧
    observe (obsMapAttempt .GL_PIXEL_PACK_BUFFER)
      ((Machine.initial exampleMem).run
        (exampleSample.2 ++ (runFrames false [failedMapFrame, exampleFrame] exampleSample.1).2))
      (Draw false exampleFrame
        (runFrames false [failedMapFrame, exampleFrame] exampleSample.1).1).2 = [] := by
  decide

/-! ## C6 : a failed mapping in the upload path -/

end PBOSample

theorem get?_unspecified_join (n : Int) (k : Nat) : ((unspecified n).get? k).join = none := by
  unfold unspecified
  rw [List.get?_eq_getElem?, List.getElem?_replicate]
  split <;> rfl

theorem readBytes_unspecified (d : Int) (offset n : Int) :
    readBytes (unspecified d) offset n = unspecified n := by
  unfold readBytes
  split
  · rfl
  · simp only [get?_unspecified_join]
    unfold unspecified
    simp [List.eq_replicate_iff]

theorem writeBytes_unspecified (d : Int) (offset n : Int) :
    writeBytes (unspecified d) offset (unspecified n) = unspecified d := by
  unfold writeBytes
  split
  · rfl
  · simp only [get?_unspecified_join, ite_self]
    unfold unspecified
    simp [List.eq_replicate_iff]

namespace Machine

theorem step_unwritten (m : Machine) (c : GLCall) (x : GLuint) (n : Int)
    (h : m.Unwritten x n) (h1 : c.isMemWrite = false) (h2 : c.isBufferData = false) :
    (m.step c).Unwritten x n := by
  unfold Unwritten at *
  cases c <;> simp only [GLCall.isMemWrite, GLCall.isBufferData] at h1 h2 <;>
    try (first | exact h | (cases h1; done) | (cases h2; done))
  case glBindBuffer t b => cases t <;> exact h
  case glMapBufferRange t o l a r =>
    simp only [step]
    split
    · split
      · exact h
      · rename_i b _ _
        dsimp only
        split
        · by_cases hb : x = b
          · subst hb; simp [h]
          · rw [Function.update_noteq hb]; exact h
        · exact h
    · exact h
  case glUnmapBuffer t =>
    simp only [step]
    split <;> exact h
  case glReadPixels w hh p =>
    simp only [step]
    split
    · exact h
    · exact h
    · rename_i b _ _
      dsimp only
      by_cases hb : x = b
      · subst hb; simp [h, writeBytes_unspecified]
      · rw [Function.update_noteq hb]; exact h

theorem run_unwritten (t : List GLCall) (m : Machine) (x : GLuint) (n : Int)
    (h : m.Unwritten x n) (ht : ∀ c ∈ t, c.isMemWrite = false ∧ c.isBufferData = false) :
    (m.run t).Unwritten x n := by
  induction t generalizing m with
  | nil => exact h
  | cons c cs ih =>
    simp only [run]
    apply ih
    · exact step_unwritten m c x n h (ht c (by simp)).1 (ht c (by simp)).2
    · intro c' hc'; exact ht c' (by simp [hc'])

theorem store_textures (m : Machine) (d : Ptr) (o : Int) (b : Bytes) :
    (m.store d o b).textures = m.textures := by
  unfold store; split <;> rfl

theorem step_textures (m : Machine) (c : GLCall) (h : c.isTexImage = false) :
    (m.step c).textures = m.textures := by
  cases c <;> simp only [GLCall.isTexImage] at h <;> simp only [step, store_textures]
  case glBindBuffer t b => cases t <;> rfl
  all_goals (first | rfl | (cases h; done) | (split <;> first | rfl | (split <;> rfl)))

theorem run_textures (t : List GLCall) (m : Machine)
    (ht : ∀ c ∈ t, c.isTexImage = false) : (m.run t).textures = m.textures := by
  induction t generalizing m with
  | nil => rfl
  | cons c cs ih =>
    simp only [run]
    rw [ih _ (fun c' hc' => ht c' (by simp [hc'])), step_textures m c (ht c (by simp))]

end Machine

namespace PBOSample
open Machine

theorem DownloadPixels_no_store_write (f : FrameInput) (s : PBOSample) :
    ∀ c ∈ (DownloadPixels f s).2, c.isMemWrite = false ∧ c.isBufferData = false := by
  unfold DownloadPixels
  dsimp only
  split_ifs <;> simp [GLCall.isMemWrite, GLCall.isBufferData]

/-- The operations of a frame with PBO upload whose upload mapping fails. -/
theorem Draw_trace_upload_failed (f : FrameInput) (s : PBOSample) (hmap : f.uploadMapResult = 0) :
    (Draw true f s).2 =
      [ GLCall.glViewport 0 0 s.m_RenderImage.width s.m_RenderImage.height,
        GLCall.glBindTexture s.m_ImageTextureId,
        GLCall.glBindBuffer .GL_PIXEL_UNPACK_BUFFER (arrayRead s.m_UploadPboIds (index s)),
        GLCall.glTexSubImage2D s.m_RenderImage.width s.m_RenderImage.height 0,
        GLCall.glBindBuffer .GL_PIXEL_UNPACK_BUFFER (arrayRead s.m_UploadPboIds (nextIndex s)),
        GLCall.glBufferData .GL_PIXEL_UNPACK_BUFFER (dataSize s) false ]
      ++ ([ GLCall.glMapBufferRange .GL_PIXEL_UNPACK_BUFFER 0 (dataSize s) .writeInvalidate 0,
            GLCall.glBindBuffer .GL_PIXEL_UNPACK_BUFFER (some 0) ]
          ++ offscreenPass s ++ (DownloadPixels f s).2 ++ screenPass f (DownloadPixels f s).1) := by
  simp [Draw, UploadPixels, hmap]

/-- After a frame with PBO upload whose upload mapping fails, the data store of
`m_UploadPboIds[nextIndex]` has no specified byte. -/
theorem unwritten_after_failed_frame (m : Machine) (f : FrameInput) (s : PBOSample)
    (x : GLuint) (hx : x ≠ 0) (hs : arrayRead s.m_UploadPboIds (nextIndex s) = some x)
    (hmap : f.uploadMapResult = 0) :
    (m.run (Draw true f s).2).Unwritten x (dataSize s) := by
  rw [Draw_trace_upload_failed f s hmap, run_append]
  apply run_unwritten
  · simp [run, step, bound, hs, hx, Unwritten]
  · intro c hc
    simp only [List.mem_append, List.mem_cons, List.mem_singleton, List.not_mem_nil,
      or_false] at hc
    rcases hc with ((hc | hc) | hc) | hc
    · rcases hc with rfl | rfl <;> exact ⟨rfl, rfl⟩
    · simp only [offscreenPass, List.mem_cons, List.mem_singleton, List.not_mem_nil,
        or_false] at hc
      rcases hc with rfl | rfl | rfl | rfl | rfl | rfl | rfl | rfl | rfl <;> exact ⟨rfl, rfl⟩
    · exact DownloadPixels_no_store_write f s c hc
    · simp only [screenPass, List.mem_cons, List.mem_singleton, List.not_mem_nil,
        or_false] at hc
      rcases hc with rfl | rfl | rfl | rfl | rfl | rfl | rfl | rfl | rfl | rfl | rfl <;>
        exact ⟨rfl, rfl⟩

/-- A texture update of `UploadPixels` with PBO upload from a data store
without specified bytes leaves `m_ImageTextureId` without specified texels. -/
theorem textures_after_UploadPixels_unwritten (m : Machine) (f : FrameInput) (s : PBOSample)
    (x : GLuint) (n : Int) (hx : x ≠ 0) (hs : arrayRead s.m_UploadPboIds (index s) = some x)
    (hu : m.Unwritten x n)
    (hw : (m.textures s.m_ImageTextureId).width = s.m_RenderImage.width)
    (hh : (m.textures s.m_ImageTextureId).height = s.m_RenderImage.height) :
    ((m.run (UploadPixels true f s)).textures s.m_ImageTextureId).data
      = unspecified (s.m_RenderImage.width * s.m_RenderImage.height * 4) := by
  have hsplit : UploadPixels true f s =
      [ GLCall.glBindTexture s.m_ImageTextureId,
        GLCall.glBindBuffer .GL_PIXEL_UNPACK_BUFFER (some x),
        GLCall.glTexSubImage2D s.m_RenderImage.width s.m_RenderImage.height 0 ]
      ++ ([ GLCall.glBindBuffer .GL_PIXEL_UNPACK_BUFFER (arrayRead s.m_UploadPboIds (nextIndex s)),
            GLCall.glBufferData .GL_PIXEL_UNPACK_BUFFER (dataSize s) false,
            GLCall.glMapBufferRange .GL_PIXEL_UNPACK_BUFFER 0 (dataSize s) .writeInvalidate
              f.uploadMapResult ]
          ++ (if f.uploadMapResult ≠ 0 then
                [ GLCall.memcpy f.uploadMapResult s.m_RenderImage.ppPlane0 (dataSize s),
                  stripe s f.uploadMapResult f.randValue,
                  GLCall.glUnmapBuffer .GL_PIXEL_UNPACK_BUFFER ]
              else [])
          ++ [ GLCall.glBindBuffer .GL_PIXEL_UNPACK_BUFFER (some 0) ]) := by
    simp [UploadPixels, hs]
  rw [hsplit, run_append, run_textures]
  · obtain ⟨k, rfl⟩ := Nat.exists_eq_succ_of_ne_zero hx
    unfold Unwritten at hu
    simp [run, step, unpackSource, hw, hh, hu, readBytes_unspecified]
  · intro c hc
    simp only [List.mem_append, List.mem_cons, List.mem_singleton, List.not_mem_nil,
      or_false] at hc
    rcases hc with (hc | hc) | hc
    · rcases hc with rfl | rfl | rfl <;> rfl
    · split_ifs at hc
      · simp only [List.mem_cons, List.mem_singleton, List.not_mem_nil, or_false] at hc
        rcases hc with rfl | rfl | rfl <;> rfl
      · simp at hc
    · rw [hc]; rfl

/-- [C6] counterexample, PBO upload path: the mapping of frame 0 succeeds, the
mapping of frame 1 (of buffer 5) fails, and frame 2 sources its texture update
from buffer 5.  Before frame 2 every texel byte of the image texture is
specified (the image with its stripe, uploaded in frame 1); after frame 2 none
is: the update replaced the contents of the texture. -/
theorem C6_counterexample :
    observe (obsMapAttempt .GL_PIXEL_UNPACK_BUFFER)
      ((Machine.initial exampleMem).run
        (exampleSample.2 ++ (runFrames true [exampleFrame] exampleSample.1).2))
      (Draw true failedMapFrame (runFrames true [exampleFrame] exampleSample.1).1).2
      = [some 5] ∧
    observe obsTexSource
      ((Machine.initial exampleMem).run
        (exampleSample.2 ++ (runFrames true [exampleFrame, failedMapFrame] exampleSample.1).2))
      (Draw true exampleFrame
        (runFrames true [exampleFrame, failedMapFrame] exampleSample.1).1).2
      = [some 5] ∧
    ((((Machine.initial exampleMem).run
        (exampleSample.2 ++ (runFrames true [exampleFrame, failedMapFrame] exampleSample.1).2)
        ).textures 1).data.all Option.isSome) = true ∧
    (((Machine.initial exampleMem).run
        (exampleSample.2 ++
          (runFrames true [exampleFrame, failedMapFrame, exampleFrame] exampleSample.1).2)
        ).textures 1).data = unspecified 28 ∧
    (((Machine.initial exampleMem).run
        (exampleSample.2 ++
          (runFrames true [exampleFrame, failedMapFrame, exampleFrame] exampleSample.1).2)
        ).textures 1).data ≠
      (((Machine.initial exampleMem).run
        (exampleSample.2 ++ (runFrames true [exampleFrame, failedMapFrame] exampleSample.1).2)
        ).textures 1).data := by
  have h3 : ((((Machine.initial exampleMem).run
        (exampleSample.2 ++ (runFrames true [exampleFrame, failedMapFrame] exampleSample.1).2)
        ).textures 1).data.all Option.isSome) = true := by decide!
  have h4 : (((Machine.initial exampleMem).run
        (exampleSample.2 ++
          (runFrames true [exampleFrame, failedMapFrame, exampleFrame] exampleSample.1).2)
        ).textures 1).data = unspecified 28 := by decide!
  refine ⟨by decide, by decide, h3, h4, ?_⟩
  intro h
  rw [← h, h4] at h3
  exact absurd h3 (by decide)

/-- [C6] amended: in the PBO upload path, in a frame whose counter has not
overflowed, if `glMapBufferRange` returns null then `UploadPixels` performs no
`memcpy` and no `memset`; the buffer `m_UploadPboIds[nextIndex]` bound for the
mapping, whose data store `glBufferData` created anew just before, holds no
specified byte at the end of the frame; the `UploadPixels` call of the
following frame sources its texture sub-update from that same buffer, and
after it the image texture (of the image's size) holds no specified texel:
the previous contents are not kept. -/
theorem C6_failed_upload_map (f f' : FrameInput) (s : PBOSample) (m : Machine)
    (a b : GLuint) (hids : s.m_UploadPboIds = [a, b]) (ha : a ≠ 0) (hb : b ≠ 0)
    (h0 : 0 ≤ s.m_FrameIndex) (h1 : s.m_FrameIndex < 2147483648)
    (hmap : f.uploadMapResult = 0)
    (hw : ((m.run (Draw true f s).2).textures s.m_ImageTextureId).width
      = s.m_RenderImage.width)
    (hh : ((m.run (Draw true f s).2).textures s.m_ImageTextureId).height
      = s.m_RenderImage.height) :
    (∀ c ∈ UploadPixels true f s, c.isMemWrite = false) ∧
    (∃ x, observe (obsMapAttempt .GL_PIXEL_UNPACK_BUFFER) m (Draw true f s).2 = [some x] ∧
      ((m.run (Draw true f s).2).buffers x).data = unspecified (dataSize s) ∧
      observe obsTexSource (m.run (Draw true f s).2)
        (UploadPixels true f' (Draw true f s).1) = [some x]) ∧
    (((m.run (Draw true f s).2).run (UploadPixels true f' (Draw true f s).1)).textures
        s.m_ImageTextureId).data
      = unspecified (s.m_RenderImage.width * s.m_RenderImage.height * 4) := by
  obtain ⟨e1, _⟩ := index_Draw_of_nonneg true f h0 h1
  have hx : ∃ x, x ≠ 0 ∧ arrayRead s.m_UploadPboIds (nextIndex s) = some x := by
    rw [hids]
    rcases index_cases_of_nonneg h0 with ⟨_, i1⟩ | ⟨_, i1⟩ <;> rw [i1]
    · exact ⟨b, hb, rfl⟩
    · exact ⟨a, ha, rfl⟩
  obtain ⟨x, hx0, hxs⟩ := hx
  have hun := unwritten_after_failed_frame m f s x hx0 hxs hmap
  have hsrc : arrayRead (Draw true f s).1.m_UploadPboIds (index (Draw true f s).1) = some x := by
    rw [e1, Draw_uploadPboIds, hxs]
  refine ⟨?_, ⟨x, ?_, ?_, ?_⟩, ?_⟩
  · intro c hc
    simp only [UploadPixels, hmap, stripe, if_true, ne_eq, not_true_eq_false, if_false,
      List.append_nil, List.mem_append, List.mem_cons, List.mem_singleton,
      List.not_mem_nil, or_false] at hc
    rcases hc with (rfl | rfl | rfl | rfl | rfl | rfl) | rfl <;> rfl
  · rw [observe_mapUnpack_Draw, hxs]; rfl
  · unfold Unwritten at hun
    rw [hun]
  · rw [observe_texSource_UploadPixels, hsrc]; rfl
  · have h := textures_after_UploadPixels_unwritten (m.run (Draw true f s).2) f'
      (Draw true f s).1 x (dataSize s) hx0 hsrc hun
    rw [Draw_fst] at h ⊢
    exact h hw hh

/-- [C6] witness: frame 0 of the initialised example sample with a failing
mapping, followed by frame 1. -/
theorem C6_failed_upload_map_witness :
    exampleSample.1.m_UploadPboIds = [5, 6] ∧ (5 : GLuint) ≠ 0 ∧ (6 : GLuint) ≠ 0 ∧
    0 ≤ exampleSample.1.m_FrameIndex ∧ exampleSample.1.m_FrameIndex < 2147483648 ∧
    failedMapFrame.uploadMapResult = 0 ∧
    (((((Machine.initial exampleMem).run exampleSample.2).run
        (Draw true failedMapFrame exampleSample.1).2).run
      (UploadPixels true exampleFrame (Draw true failedMapFrame exampleSample.1).1)).textures
        exampleSample.1.m_ImageTextureId).data
      = unspecified
          (exampleSample.1.m_RenderImage.width * exampleSample.1.m_RenderImage.height * 4) :=
  ⟨by decide, by decide, by decide, by decide, by decide, by decide,
    (C6_failed_upload_map failedMapFrame exampleFrame exampleSample.1
      ((Machine.initial exampleMem).run exampleSample.2) 5 6
      (by decide) (by decide) (by decide) (by decide) (by decide) (by decide)
      (by decide) (by decide)).2.2⟩

/-! ## C7 : framebuffer completeness and the download path -/

/-- [C7] counterexample: `Init` with a framebuffer that is not complete
(`glCheckFramebufferStatus` fails, `CreateFrameBufferObj` returns false), then
one `Draw`: the frame issues both `glReadPixels` calls and maps download
buffer 8. -/
theorem C7_counterexample :
    GLCall.glCheckFramebufferStatus false ∈ incompleteSample.2 ∧
    (CreateFrameBufferObj incompleteInit loadedSample).1.2 = false ∧
    observe obsRead ((Machine.initial exampleMem).run incompleteSample.2)
      (Draw false exampleFrame incompleteSample.1).2 = [(some 0, 36864), (some 7, 0)] ∧
    observe (obsMapAttempt .GL_PIXEL_PACK_BUFFER)
      ((Machine.initial exampleMem).run incompleteSample.2)
      (Draw false exampleFrame incompleteSample.1).2 = [some 8] := by
  decide

/-- [C7] amended: the framebuffer status is tested only by
`CreateFrameBufferObj` during `Init`, which returns false exactly when the
status is not complete; `Init` then leaves the member variables as after a
successful `Init`, so nothing records the failure.  No operation of `Draw` is a
framebuffer status check, and whatever the status `DownloadPixels` issues both
`glReadPixels` calls and, when the cached pointer of slot `nextIndex` is null,
calls `glMapBufferRange` on the download buffer. -/
theorem C7_download_ignores_framebuffer_status (c : Bool) (i : InitInput) (s0 s : PBOSample)
    (f : FrameInput) :
    (CreateFrameBufferObj i s0).1.2 = i.framebufferComplete ∧
    (Init { i with framebufferComplete := false } s0).1
      = (Init { i with framebufferComplete := true } s0).1 ∧
    (∀ b, GLCall.glCheckFramebufferStatus b ∉ (Draw c f s).2) ∧
    GLCall.glReadPixels s.m_RenderImage.width s.m_RenderImage.height f.pBuffer
      ∈ (DownloadPixels f s).2 ∧
    GLCall.glReadPixels s.m_RenderImage.width s.m_RenderImage.height 0
      ∈ (DownloadPixels f s).2 ∧
    ((downloadImage s (nextIndex s)).ppPlane0 = 0 →
      GLCall.glMapBufferRange .GL_PIXEL_PACK_BUFFER 0 (dataSize s) .read f.downloadMapResult
        ∈ (DownloadPixels f s).2) := by
  refine ⟨?_, ?_, ?_, ?_, ?_, ?_⟩
  · unfold CreateFrameBufferObj
    dsimp only
    split <;> simp_all
  · unfold Init CreateFrameBufferObj
    dsimp only
    split_ifs <;> rfl
  · intro b
    unfold Draw UploadPixels DownloadPixels stripe offscreenPass screenPass
    dsimp only
    split_ifs <;> simp
  · unfold DownloadPixels
    simp
  · unfold DownloadPixels
    simp
  · intro h
    unfold DownloadPixels
    simp [h]

/-- [C7] witness: frame 0 of the sample whose `Init` found the framebuffer
not complete; the cached pointer of slot 1 is null. -/
theorem C7_download_ignores_framebuffer_status_witness :
    (downloadImage incompleteSample.1 (nextIndex incompleteSample.1)).ppPlane0 = 0 ∧
    GLCall.glMapBufferRange .GL_PIXEL_PACK_BUFFER 0 (dataSize incompleteSample.1) .read
        exampleFrame.downloadMapResult
      ∈ (DownloadPixels exampleFrame incompleteSample.1).2 :=
  ⟨by decide,
    (C7_download_ignores_framebuffer_status false incompleteInit loadedSample incompleteSample.1
      exampleFrame).2.2.2.2.2 (by decide)⟩

/-! ## C8 : calling `Destroy` twice -/

/-- [C8] the code at the failing input: after a successful `Init`, the first
`Destroy` resets only `m_ProgramObj` and `m_FboProgramObj`; the other seven
handles it tests keep their values, and the second `Destroy` repeats the seven
delete calls on the same names. -/
theorem C8_second_Destroy_deletes_again :
    (Destroy exampleSample.1).2 =
      [ GLCall.glDeleteProgram 1, GLCall.glDeleteProgram 2,
        GLCall.glDeleteTextures [1], GLCall.glDeleteTextures [2],
        GLCall.glDeleteBuffers [1, 2, 3, 4], GLCall.glDeleteVertexArrays [1, 2],
        GLCall.glDeleteFramebuffers [1], GLCall.glDeleteBuffers [7, 8],
        GLCall.glDeleteBuffers [5, 6] ] ∧
    (Destroy exampleSample.1).1 =
      { exampleSample.1 with m_ProgramObj := 0, m_FboProgramObj := 0 } ∧
    (Destroy (Destroy exampleSample.1).1).2 =
      [ GLCall.glDeleteTextures [1], GLCall.glDeleteTextures [2],
        GLCall.glDeleteBuffers [1, 2, 3, 4], GLCall.glDeleteVertexArrays [1, 2],
        GLCall.glDeleteFramebuffers [1], GLCall.glDeleteBuffers [7, 8],
        GLCall.glDeleteBuffers [5, 6] ] := by
  decide

/-! ## C9 : the frame counter -/

theorem call_frameIndex (c : Bool) (k : Call) (s : PBOSample) :
    (call c k s).m_FrameIndex =
      (match k with
        | .Draw _ => wrapInt32 (s.m_FrameIndex + 1)
        | _ => s.m_FrameIndex) := by
  cases k <;> simp [call]

theorem runCalls_frameIndex (c : Bool) (cs : List Call) (s : PBOSample)
    (h0 : 0 ≤ s.m_FrameIndex) (h : s.m_FrameIndex + countDraws cs < 2147483648) :
    (runCalls c cs s).m_FrameIndex = s.m_FrameIndex + countDraws cs := by
  induction cs generalizing s with
  | nil => simp [runCalls, countDraws]
  | cons k cs ih =>
    cases k with
    | Draw f =>
      simp only [countDraws, Nat.cast_add, Nat.cast_one] at h
      have hw : wrapInt32 (s.m_FrameIndex + 1) = s.m_FrameIndex + 1 :=
        wrapInt32_of_inRange (by omega) (by omega)
      have hk : (call c (Call.Draw f) s).m_FrameIndex = s.m_FrameIndex + 1 := by
        rw [call_frameIndex]; exact hw
      simp only [runCalls, countDraws, Nat.cast_add, Nat.cast_one]
      rw [ih _ (by omega) (by omega), hk]; omega
    | UploadPixels f =>
      simp only [countDraws] at h
      have hk : (call c (Call.UploadPixels f) s).m_FrameIndex = s.m_FrameIndex := by
        rw [call_frameIndex]
      simp only [runCalls, countDraws]
      rw [ih _ (by omega) (by omega), hk]
    | DownloadPixels f =>
      simp only [countDraws] at h
      have hk : (call c (Call.DownloadPixels f) s).m_FrameIndex = s.m_FrameIndex := by
        rw [call_frameIndex]
      simp only [runCalls, countDraws]
      rw [ih _ (by omega) (by omega), hk]

/-- [C9] counterexample: after 2^31 - 1 `Draw` calls on a new sample the counter
is 2147483647 and one more `Draw` makes it -2147483648, not 2147483648: the
call does not increase the counter by 1, and after n = 2^31 calls the counter
is not n. -/
theorem C9_counterexample :
    (runFrames false (List.replicate 2147483647 exampleFrame) ctor).1.m_FrameIndex
      = 2147483647 ∧
    (Draw false exampleFrame
        (runFrames false (List.replicate 2147483647 exampleFrame) ctor).1).1.m_FrameIndex
      = -2147483648 ∧
    (runFrames false (List.replicate 2147483648 exampleFrame) ctor).1.m_FrameIndex
      ≠ ((List.replicate 2147483648 exampleFrame).length : Int) := by
  have h1 : (runFrames false (List.replicate 2147483647 exampleFrame) ctor).1.m_FrameIndex
      = 2147483647 := by
    rw [runFrames_ctor_frameIndex, List.length_replicate]; decide
  refine ⟨h1, ?_, ?_⟩
  · rw [Draw_frameIndex, h1]; decide
  · rw [runFrames_ctor_frameIndex, List.length_replicate]; decide

/-- [C9] amended: a `Draw` call increases `m_FrameIndex` by exactly 1 as long
as the counter is below 2^31 - 1 (the largest `int`); `DownloadPixels` leaves
`m_FrameIndex` unchanged (`UploadPixels` changes no member variable at all); so
after any sequence of `Draw`, `UploadPixels` and `DownloadPixels` calls on a
new sample that contains n < 2^31 `Draw` calls, the counter equals n. -/
theorem C9_counter_counts_draws (c : Bool) :
    (∀ (f : FrameInput) (s : PBOSample), -2147483648 ≤ s.m_FrameIndex →
      s.m_FrameIndex < 2147483647 → (Draw c f s).1.m_FrameIndex = s.m_FrameIndex + 1) ∧
    (∀ (f : FrameInput) (s : PBOSample), (DownloadPixels f s).1.m_FrameIndex = s.m_FrameIndex) ∧
    (∀ cs : List Call, countDraws cs < 2147483648 →
      (runCalls c cs ctor).m_FrameIndex = countDraws cs) := by
  refine ⟨?_, DownloadPixels_frameIndex, ?_⟩
  · intro f s h0 h1
    rw [Draw_frameIndex]
    exact wrapInt32_of_inRange (by omega) (by omega)
  · intro cs h
    have := runCalls_frameIndex c cs ctor (by decide) (by simpa [ctor] using h)
    simpa [ctor] using this

/-- [C9] witness: a `Draw`, an extra `DownloadPixels`, an extra `UploadPixels`
and a second `Draw` on a new sample leave the counter at 2. -/
theorem C9_counter_counts_draws_witness :
    countDraws [Call.Draw exampleFrame, Call.DownloadPixels exampleFrame,
      Call.UploadPixels exampleFrame, Call.Draw exampleFrame] < 2147483648 ∧
    (runCalls true [Call.Draw exampleFrame, Call.DownloadPixels exampleFrame,
      Call.UploadPixels exampleFrame, Call.Draw exampleFrame] ctor).m_FrameIndex = 2 :=
  ⟨by decide, (C9_counter_counts_draws true).2.2 _ (by decide)⟩

/-! ## C10 : the order of operations in `Draw` -/

end PBOSample

namespace Machine

theorem store_framebufferBinding (m : Machine) (d : Ptr) (o : Int) (b : Bytes) :
    (m.store d o b).framebufferBinding = m.framebufferBinding := by
  unfold store; split <;> rfl

/-- Only `glBindFramebuffer` changes the framebuffer binding. -/
theorem step_framebufferBinding (m : Machine) (c : GLCall) :
    (m.step c).framebufferBinding =
      (match c with
        | .glBindFramebuffer fb => fb
        | _ => m.framebufferBinding) := by
  cases c <;> simp only [step, store_framebufferBinding]
  case glBindBuffer t b => cases t <;> rfl
  all_goals (first | rfl | (split <;> first | rfl | (split <;> rfl)))

theorem store_textureBinding (m : Machine) (d : Ptr) (o : Int) (b : Bytes) :
    (m.store d o b).textureBinding = m.textureBinding := by
  unfold store; split <;> rfl

/-- Only `glBindTexture` changes the texture binding. -/
theorem step_textureBinding (m : Machine) (c : GLCall) :
    (m.step c).textureBinding =
      (match c with
        | .glBindTexture t => t
        | _ => m.textureBinding) := by
  cases c <;> simp only [step, store_textureBinding]
  case glBindBuffer t b => cases t <;> rfl
  all_goals (first | rfl | (split <;> first | rfl | (split <;> rfl)))

end Machine

namespace PBOSample
open Machine

theorem observe_draw_UploadPixels (m : Machine) (c : Bool) (f : FrameInput) (s : PBOSample) :
    observe obsDraw m (UploadPixels c f s) = [] := by
  unfold UploadPixels stripe
  split_ifs <;> simp [observe, obsDraw]

theorem observe_draw_DownloadPixels (m : Machine) (f : FrameInput) (s : PBOSample) :
    observe obsDraw m (DownloadPixels f s).2 = [] := by
  unfold DownloadPixels
  dsimp only
  split_ifs <;> simp [observe, obsDraw]

theorem observe_readFramebuffer_DownloadPixels (m : Machine) (f : FrameInput) (s : PBOSample) :
    observe obsReadFramebuffer m (DownloadPixels f s).2
      = [m.framebufferBinding, m.framebufferBinding] := by
  unfold DownloadPixels
  dsimp only
  split_ifs <;> simp [observe, obsReadFramebuffer, step_framebufferBinding]

theorem framebufferBinding_run_DownloadPixels (m : Machine) (f : FrameInput) (s : PBOSample) :
    (m.run (DownloadPixels f s).2).framebufferBinding = m.framebufferBinding := by
  unfold DownloadPixels
  dsimp only
  split_ifs <;> simp [run, step_framebufferBinding]

/-- [C10] in every `Draw` call (either upload configuration, any state of the
OpenGL objects): the operations are, in order, the viewport call, those of
`UploadPixels`, the off-screen pass, those of `DownloadPixels`, and the screen
pass, the two helpers running on the sample as it is before the counter is
incremented; no draw call happens before or during `UploadPixels`; the draw
call of the off-screen pass draws into `m_FboId` and samples
`m_ImageTextureId`; `DownloadPixels` draws nothing, issues its two
`glReadPixels` with `m_FboId` as the bound framebuffer and returns with
`m_FboId` still bound; it leaves the counter unchanged, and the counter of the
sample after `Draw` is the incremented one. -/
theorem C10_draw_order (c : Bool) (f : FrameInput) (s : PBOSample) (m : Machine) :
    (Draw c f s).2 =
      [GLCall.glViewport 0 0 s.m_RenderImage.width s.m_RenderImage.height]
        ++ UploadPixels c f s ++ offscreenPass s ++ (DownloadPixels f s).2
        ++ screenPass f (DownloadPixels f s).1 ∧
    observe obsDraw m
      ([GLCall.glViewport 0 0 s.m_RenderImage.width s.m_RenderImage.height]
        ++ UploadPixels c f s) = [] ∧
    observe obsDraw
      (m.run ([GLCall.glViewport 0 0 s.m_RenderImage.width s.m_RenderImage.height]
        ++ UploadPixels c f s))
      (offscreenPass s) = [(s.m_FboId, s.m_ImageTextureId)] ∧
    observe obsDraw
      (m.run ([GLCall.glViewport 0 0 s.m_RenderImage.width s.m_RenderImage.height]
        ++ UploadPixels c f s ++ offscreenPass s))
      (DownloadPixels f s).2 = [] ∧
    observe obsReadFramebuffer
      (m.run ([GLCall.glViewport 0 0 s.m_RenderImage.width s.m_RenderImage.height]
        ++ UploadPixels c f s ++ offscreenPass s))
      (DownloadPixels f s).2 = [s.m_FboId, s.m_FboId] ∧
    (m.run ([GLCall.glViewport 0 0 s.m_RenderImage.width s.m_RenderImage.height]
        ++ UploadPixels c f s ++ offscreenPass s ++ (DownloadPixels f s).2)).framebufferBinding
      = s.m_FboId ∧
    (DownloadPixels f s).1.m_FrameIndex = s.m_FrameIndex ∧
    (Draw c f s).1.m_FrameIndex = wrapInt32 (s.m_FrameIndex + 1) := by
  have hfb : ∀ m' : Machine, (m'.run (offscreenPass s)).framebufferBinding = s.m_FboId := by
    intro m'
    simp [offscreenPass, run, step_framebufferBinding]
  refine ⟨rfl, ?_, ?_, ?_, ?_, ?_, DownloadPixels_frameIndex f s, Draw_frameIndex c f s⟩
  · rw [observe_append, observe_draw_UploadPixels]; rfl
  · simp [offscreenPass, observe, obsDraw, step_framebufferBinding, step_textureBinding]
  · exact observe_draw_DownloadPixels _ f s
  · rw [observe_readFramebuffer_DownloadPixels, run_append, hfb]
  · rw [run_append, framebufferBinding_run_DownloadPixels, run_append, hfb]

end PBOSample
end GLES

/-! ## C11 : which frames map a download buffer -/

namespace GLES

theorem cRem_two_cases (x : Int) : cRem x 2 = 0 ∨ cRem x 2 = 1 ∨ cRem x 2 = -1 := by
  cases x with
  | ofNat n =>
    have h : cRem (Int.ofNat n) 2 = ((n % 2 : Nat) : Int) := rfl
    rw [h]; omega
  | negSucc n =>
    have h : cRem (Int.negSucc n) 2 = -(((n + 1) % 2 : Nat) : Int) := rfl
    rw [h]; omega

namespace PBOSample
open Machine

/-- Whatever the counter, `nextIndex` is a slot of the two-element arrays. -/
theorem nextIndex_mem (s : PBOSample) : nextIndex s = 0 ∨ nextIndex s = 1 := by
  unfold nextIndex index
  rcases cRem_two_cases s.m_FrameIndex with h | h | h <;> rw [h] <;> decide

theorem Init_downloadImages (i : InitInput) (s : PBOSample) :
    (Init i s).1.m_DownloadImages = s.m_DownloadImages := by
  unfold Init CreateFrameBufferObj
  dsimp only
  split_ifs <;> rfl

theorem Init_frameIndex (i : InitInput) (s : PBOSample) :
    (Init i s).1.m_FrameIndex = s.m_FrameIndex := by
  unfold Init CreateFrameBufferObj
  dsimp only
  split_ifs <;> rfl

/-- Once both slots hold a cached pointer, `DownloadPixels` changes nothing. -/
theorem DownloadPixels_fst_of_cached (f : FrameInput) (s : PBOSample)
    (h0 : (downloadImage s 0).ppPlane0 ≠ 0) (h1 : (downloadImage s 1).ppPlane0 ≠ 0) :
    (DownloadPixels f s).1 = s := by
  unfold DownloadPixels
  dsimp only
  rcases nextIndex_mem s with h | h <;> rw [h] <;> simp [h0, h1]

theorem downloadImage_congr {s t : PBOSample} (h : t.m_DownloadImages = s.m_DownloadImages)
    (k : Int) : downloadImage t k = downloadImage s k := by
  unfold downloadImage; rw [h]

theorem Draw_downloadImages_of_cached (c : Bool) (f : FrameInput) (s : PBOSample)
    (h0 : (downloadImage s 0).ppPlane0 ≠ 0) (h1 : (downloadImage s 1).ppPlane0 ≠ 0) :
    (Draw c f s).1.m_DownloadImages = s.m_DownloadImages := by
  rw [Draw_fst, DownloadPixels_fst_of_cached f s h0 h1]

theorem runFrames_downloadImages_of_cached (c : Bool) (fs : List FrameInput) (s : PBOSample)
    (h0 : (downloadImage s 0).ppPlane0 ≠ 0) (h1 : (downloadImage s 1).ppPlane0 ≠ 0) :
    (runFrames c fs s).1.m_DownloadImages = s.m_DownloadImages := by
  induction fs generalizing s with
  | nil => rfl
  | cons f fs ih =>
    have hd := Draw_downloadImages_of_cached c f s h0 h1
    simp only [runFrames]
    rw [ih _ (by rw [downloadImage_congr hd]; exact h0) (by rw [downloadImage_congr hd]; exact h1),
      hd]

/-- The `DumpNativeImage` call of a frame whose slot `nextIndex` is cached. -/
theorem dump_mem_Draw (c : Bool) (f : FrameInput) (s : PBOSample)
    (h : (downloadImage s (nextIndex s)).ppPlane0 ≠ 0) :
    GLCall.DumpNativeImage (downloadImage s (nextIndex s)) (nextIndex s) ∈ (Draw c f s).2 := by
  unfold Draw DownloadPixels
  simp [h]

end PBOSample
end GLES

namespace GLES
namespace PBOSample
open Machine

/-- A successful mapping stores the returned pointer in slot `nextIndex`. -/
theorem DownloadPixels_images_of_null (f : FrameInput) (s : PBOSample)
    (hn : (downloadImage s (nextIndex s)).ppPlane0 = 0) (hm : f.downloadMapResult ≠ 0) :
    (DownloadPixels f s).1.m_DownloadImages =
      arrayWrite s.m_DownloadImages (nextIndex s)
        { s.m_RenderImage with format := IMAGE_FORMAT_RGBA, ppPlane0 := f.downloadMapResult } := by
  unfold DownloadPixels
  simp [hn, hm]

/-- [C11] in a run that starts with a new sample, `LoadImage` and `Init`, and
in which the mappings of frames 0 and 1 succeed (either upload
configuration): frame 0 calls `glMapBufferRange` once on the download side,
for slot 1 (`m_DownloadPboIds[1]`); frame 1 once, for slot 0; and every later
frame, whatever came in between, performs no mapping on the download side
and hands `DumpNativeImage` the image of slot `nextIndex`, whose plane is the
pointer cached in frame 0 (slot 1) or frame 1 (slot 0). -/
theorem C11_download_mapping_schedule (c : Bool) (i : InitInput) (img : NativeImage)
    (plane : Ptr) (f0 f1 f : FrameInput) (rest : List FrameInput) (m : Machine)
    (h0 : f0.downloadMapResult ≠ 0) (h1 : f1.downloadMapResult ≠ 0) :
    (nextIndex (Init i (LoadImage img plane ctor)).1 = 1 ∧
      observe (obsMapAttempt .GL_PIXEL_PACK_BUFFER) m
        (Draw c f0 (Init i (LoadImage img plane ctor)).1).2
        = [arrayRead (Init i (LoadImage img plane ctor)).1.m_DownloadPboIds 1]) ∧
    (nextIndex (Draw c f0 (Init i (LoadImage img plane ctor)).1).1 = 0 ∧
      observe (obsMapAttempt .GL_PIXEL_PACK_BUFFER) m
        (Draw c f1 (Draw c f0 (Init i (LoadImage img plane ctor)).1).1).2
        = [arrayRead (Init i (LoadImage img plane ctor)).1.m_DownloadPboIds 0]) ∧
    (observe (obsMapAttempt .GL_PIXEL_PACK_BUFFER) m
        (Draw c f (runFrames c (f0 :: f1 :: rest) (Init i (LoadImage img plane ctor)).1).1).2
        = [] ∧
      GLCall.DumpNativeImage
          (downloadImage (runFrames c (f0 :: f1 :: rest) (Init i (LoadImage img plane ctor)).1).1
            (nextIndex (runFrames c (f0 :: f1 :: rest) (Init i (LoadImage img plane ctor)).1).1))
          (nextIndex (runFrames c (f0 :: f1 :: rest) (Init i (LoadImage img plane ctor)).1).1)
        ∈ (Draw c f (runFrames c (f0 :: f1 :: rest) (Init i (LoadImage img plane ctor)).1).1).2 ∧
      (downloadImage (runFrames c (f0 :: f1 :: rest) (Init i (LoadImage img plane ctor)).1).1
          (nextIndex (runFrames c (f0 :: f1 :: rest) (Init i (LoadImage img plane ctor)).1).1)
        ).ppPlane0
        = if nextIndex (runFrames c (f0 :: f1 :: rest) (Init i (LoadImage img plane ctor)).1).1 = 1
          then f0.downloadMapResult else f1.downloadMapResult) := by
  generalize hs0 : (Init i (LoadImage img plane ctor)).1 = s0
  have himg : s0.m_DownloadImages = [NativeImage.empty, NativeImage.empty] := by
    rw [← hs0, Init_downloadImages]; rfl
  have hfi : s0.m_FrameIndex = 0 := by
    rw [← hs0, Init_frameIndex]; rfl
  have hn0 : nextIndex s0 = 1 := by
    show cRem (cRem _ 2 + 1) 2 = 1
    rw [hfi]; decide
  have hnull0 : (downloadImage s0 (nextIndex s0)).ppPlane0 = 0 := by
    rw [hn0]; unfold downloadImage; rw [himg]; rfl
  -- frame 0
  have himg1 : (Draw c f0 s0).1.m_DownloadImages =
      [NativeImage.empty,
        { s0.m_RenderImage with format := IMAGE_FORMAT_RGBA, ppPlane0 := f0.downloadMapResult }] := by
    rw [Draw_fst]
    show (DownloadPixels f0 s0).1.m_DownloadImages = _
    rw [DownloadPixels_images_of_null f0 s0 hnull0 h0, hn0, himg]; rfl
  have hn1 : nextIndex (Draw c f0 s0).1 = 0 := by
    show cRem (cRem _ 2 + 1) 2 = 0
    rw [Draw_frameIndex, hfi]; decide
  have hnull1 : (downloadImage (Draw c f0 s0).1 (nextIndex (Draw c f0 s0).1)).ppPlane0 = 0 := by
    rw [hn1]; unfold downloadImage; rw [himg1]; rfl
  -- frame 1
  have himg2 : (Draw c f1 (Draw c f0 s0).1).1.m_DownloadImages =
      [{ s0.m_RenderImage with format := IMAGE_FORMAT_RGBA, ppPlane0 := f1.downloadMapResult },
        { s0.m_RenderImage with format := IMAGE_FORMAT_RGBA, ppPlane0 := f0.downloadMapResult }] := by
    rw [Draw_fst]
    show (DownloadPixels f1 (Draw c f0 s0).1).1.m_DownloadImages = _
    rw [DownloadPixels_images_of_null f1 _ hnull1 h1, hn1, himg1, Draw_renderImage]; rfl
  have hc0 : (downloadImage (Draw c f1 (Draw c f0 s0).1).1 0).ppPlane0 = f1.downloadMapResult := by
    unfold downloadImage; rw [himg2]; rfl
  have hc1 : (downloadImage (Draw c f1 (Draw c f0 s0).1).1 1).ppPlane0 = f0.downloadMapResult := by
    unfold downloadImage; rw [himg2]; rfl
  -- later frames
  have hrun : (runFrames c (f0 :: f1 :: rest) s0).1
      = (runFrames c rest (Draw c f1 (Draw c f0 s0).1).1).1 := rfl
  have himgN := runFrames_downloadImages_of_cached c rest (Draw c f1 (Draw c f0 s0).1).1
    (by rw [hc0]; exact h1) (by rw [hc1]; exact h0)
  have hd0 : (downloadImage (runFrames c (f0 :: f1 :: rest) s0).1 0).ppPlane0
      = f1.downloadMapResult := by
    rw [hrun, downloadImage_congr himgN, hc0]
  have hd1 : (downloadImage (runFrames c (f0 :: f1 :: rest) s0).1 1).ppPlane0
      = f0.downloadMapResult := by
    rw [hrun, downloadImage_congr himgN, hc1]
  have hcached : (downloadImage (runFrames c (f0 :: f1 :: rest) s0).1
      (nextIndex (runFrames c (f0 :: f1 :: rest) s0).1)).ppPlane0
        = if nextIndex (runFrames c (f0 :: f1 :: rest) s0).1 = 1
          then f0.downloadMapResult else f1.downloadMapResult := by
    rcases nextIndex_mem (runFrames c (f0 :: f1 :: rest) s0).1 with h | h <;> rw [h]
    · rw [hd0]; rfl
    · rw [hd1]; rfl
  have hne : (downloadImage (runFrames c (f0 :: f1 :: rest) s0).1
      (nextIndex (runFrames c (f0 :: f1 :: rest) s0).1)).ppPlane0 ≠ 0 := by
    rw [hcached]; split_ifs
    · exact h0
    · exact h1
  refine ⟨⟨hn0, ?_⟩, ⟨hn1, ?_⟩, ?_, dump_mem_Draw c f _ hne, hcached⟩
  · rw [observe_mapPack_Draw, if_pos hnull0, hn0]
  · rw [observe_mapPack_Draw, if_pos hnull1, hn1, Draw_downloadPboIds]
  · rw [observe_mapPack_Draw, if_neg hne]

/-- [C11] witness: the example image and `Init`, four frames with every
mapping succeeding; the fifth frame maps nothing. -/
theorem C11_download_mapping_schedule_witness :
    exampleFrame.downloadMapResult ≠ 0 ∧
    observe (obsMapAttempt .GL_PIXEL_PACK_BUFFER) (Machine.initial exampleMem)
        (Draw false exampleFrame
          (runFrames false (exampleFrame :: exampleFrame :: [exampleFrame, exampleFrame])
            (Init exampleInit (LoadImage exampleImage 8192 ctor)).1).1).2 = [] :=
  ⟨by decide,
    (C11_download_mapping_schedule false exampleInit exampleImage 8192 exampleFrame exampleFrame
      exampleFrame [exampleFrame, exampleFrame] (Machine.initial exampleMem)
      (by decide) (by decide)).2.2.1⟩

end PBOSample
end GLES

/-! ## C12 : the four data stores created by `Init` -/

namespace GLES

/-- The byte size computed with `int` arithmetic is the mathematical
`w * h * 4` when that product fits an `int`. -/
theorem imul_imul_four {w h : Int} (h0 : 0 ≤ w * h * 4) (h1 : w * h * 4 < 2147483648) :
    imul (imul w h) 4 = w * h * 4 := by
  unfold imul wrapInt32
  generalize w * h = p at *
  omega

namespace PBOSample
open Machine

theorem Init_renderImage (i : InitInput) (s : PBOSample) :
    (Init i s).1.m_RenderImage = s.m_RenderImage := by
  unfold Init CreateFrameBufferObj
  dsimp only
  split_ifs <;> rfl

/-- The data stores `Init` creates on the pixel buffer targets. -/
theorem observe_bufferData_Init (m : Machine) (i : InitInput) (s : PBOSample)
    (hp : s.m_ProgramObj = 0) (hpo : i.programObj ≠ 0) (hfo : i.fboProgramObj ≠ 0) :
    observe obsBufferData m (Init i s).2 =
      [ (.GL_PIXEL_UNPACK_BUFFER, arrayRead i.uploadPboIds 0,
          imul (imul s.m_RenderImage.width s.m_RenderImage.height) 4),
        (.GL_PIXEL_UNPACK_BUFFER, arrayRead i.uploadPboIds 1,
          imul (imul s.m_RenderImage.width s.m_RenderImage.height) 4),
        (.GL_PIXEL_PACK_BUFFER, arrayRead i.downloadPboIds 0,
          imul (imul s.m_RenderImage.width s.m_RenderImage.height) 4),
        (.GL_PIXEL_PACK_BUFFER, arrayRead i.downloadPboIds 1,
          imul (imul s.m_RenderImage.width s.m_RenderImage.height) 4) ] := by
  unfold Init CreateFrameBufferObj initVao
  simp only [hp, ne_eq, not_true_eq_false, if_false, GL_NONE, hpo, hfo, or_self]
  split_ifs <;>
    simp [observe, obsBufferData, step_unpackBinding, step_packBinding]

end PBOSample
end GLES

namespace GLES
namespace Machine

theorem store_buffers_size (m : Machine) (d : Ptr) (o : Int) (b : Bytes) (x : GLuint) :
    ((m.store d o b).buffers x).size = (m.buffers x).size := by
  unfold store
  split
  · rename_i y _
    dsimp only
    by_cases h : x = y
    · subst h; simp
    · rw [Function.update_noteq h]
  · rfl

/-- An operation that is not a `glBufferData` on a pixel buffer target leaves
the size of every data store as it is. -/
theorem step_size_of_none (m : Machine) (c : GLCall) (x : GLuint)
    (h : c.pixelStoreSize = none) : ((m.step c).buffers x).size = (m.buffers x).size := by
  cases c <;> simp only [step, store_buffers_size] <;> try rfl
  case glBindBuffer t b => cases t <;> rfl
  case glBufferData t n d =>
    cases t <;> simp only [GLCall.pixelStoreSize] at h <;> try (cases h; done)
    all_goals rfl
  case glMapBufferRange t o l a r =>
    split
    · split
      · rfl
      · rename_i y _ _
        dsimp only
        split
        · by_cases hy : x = y
          · subst hy; simp
          · rw [Function.update_noteq hy]
        · rfl
    · rfl
  case glUnmapBuffer t => split <;> rfl
  case glReadPixels w hh p =>
    split
    · rfl
    · rfl
    · rename_i y _ _
      dsimp only
      by_cases hy : x = y
      · subst hy; simp
      · rw [Function.update_noteq hy]

theorem run_size_of_none (t : List GLCall) (m : Machine) (x : GLuint)
    (h : ∀ c ∈ t, c.pixelStoreSize = none) :
    ((m.run t).buffers x).size = (m.buffers x).size := by
  induction t generalizing m with
  | nil => rfl
  | cons c cs ih =>
    simp only [run]
    rw [ih _ (fun c' hc' => h c' (by simp [hc'])), step_size_of_none m c x (h c (by simp))]

/-- A data store of size `sz` keeps that size under operations whose
`glBufferData` calls on pixel buffer targets all have size `sz`. -/
theorem step_size_inv (m : Machine) (c : GLCall) (x : GLuint) (sz : Int)
    (hx : (m.buffers x).size = sz) (hc : ∀ n, c.pixelStoreSize = some n → n = sz) :
    ((m.step c).buffers x).size = sz := by
  cases hp : c.pixelStoreSize with
  | none => rw [step_size_of_none m c x hp]; exact hx
  | some n =>
    have hn := hc n hp
    subst hn
    cases c <;> simp only [GLCall.pixelStoreSize] at hp <;> try (cases hp)
    case glBufferData t k d =>
      have hk : k = n := by
        cases t <;> simp only [GLCall.pixelStoreSize] at hp <;> cases hp <;> rfl
      subst hk
      simp only [step]
      split
      · rename_i y _
        dsimp only
        by_cases hy : x = y
        · subst hy; simp
        · rw [Function.update_noteq hy]; exact hx
      · exact hx

theorem run_size_inv (t : List GLCall) (m : Machine) (x : GLuint) (sz : Int)
    (hx : (m.buffers x).size = sz) (h : ∀ c ∈ t, ∀ n, c.pixelStoreSize = some n → n = sz) :
    ((m.run t).buffers x).size = sz := by
  induction t generalizing m with
  | nil => exact hx
  | cons c cs ih =>
    simp only [run]
    exact ih _ (step_size_inv m c x sz hx (h c (by simp))) (fun c' hc' => h c' (by simp [hc']))

/-- A buffer that is bound at one of the `glBufferData` calls of size `sz` on a
pixel buffer target has a data store of size `sz` afterwards, when no such
call has another size. -/
theorem size_of_observed (t : List GLCall) (m : Machine) (x : GLuint) (sz : Int) (hx : x ≠ 0)
    (hall : ∀ c ∈ t, ∀ n, c.pixelStoreSize = some n → n = sz)
    (hobs : ∃ tgt, (tgt, some x, sz) ∈ observe obsBufferData m t) :
    ((m.run t).buffers x).size = sz := by
  induction t generalizing m with
  | nil => obtain ⟨_, h⟩ := hobs; simp [observe] at h
  | cons c cs ih =>
    obtain ⟨tgt, h⟩ := hobs
    simp only [observe, List.mem_append] at h
    simp only [run]
    rcases h with h | h
    · apply run_size_inv _ _ _ _ _ (fun c' hc' => hall c' (by simp [hc']))
      cases c <;> simp only [obsBufferData, Option.toList, List.not_mem_nil] at h
      case glBufferData t k d =>
        cases t <;> simp only [obsBufferData, Option.toList, List.not_mem_nil,
          List.mem_singleton, Prod.mk.injEq] at h
        · obtain ⟨_, hb, hk⟩ := h
          simp [step, bound, ← hb, hx, hk]
        · obtain ⟨_, hb, hk⟩ := h
          simp [step, bound, ← hb, hx, hk]
    · exact ih _ (fun c' hc' => hall c' (by simp [hc'])) ⟨tgt, h⟩

end Machine
end GLES

namespace GLES
namespace PBOSample
open Machine

theorem pixelStoreSize_Init (i : InitInput) (s : PBOSample) :
    ∀ c ∈ (Init i s).2, ∀ n, c.pixelStoreSize = some n →
      n = imul (imul s.m_RenderImage.width s.m_RenderImage.height) 4 := by
  unfold Init CreateFrameBufferObj initVao
  dsimp only
  split_ifs <;> simp [GLCall.pixelStoreSize]

theorem runFrames_dataSize (c : Bool) (fs : List FrameInput) (s : PBOSample) :
    dataSize (runFrames c fs s).1 = dataSize s := by
  unfold dataSize; rw [runFrames_renderImage]

/-- The byte size `dataSize` over a sequence of `LoadImage` and `Draw` calls
in which every image loaded has the byte size `d`. -/
theorem runActions_dataSize (c : Bool) (acts : List Action) (s : PBOSample) (d : Int)
    (hs : dataSize s = d)
    (hl : ∀ a ∈ acts, ∀ img p, a = Action.LoadImage img p →
      imul (imul img.width img.height) 4 = d) :
    dataSize (runActions c acts s).1 = d := by
  induction acts generalizing s with
  | nil => exact hs
  | cons a rest ih =>
    cases a with
    | LoadImage img p =>
      exact ih _ (hl _ (by simp) img p rfl) (fun a ha => hl a (by simp [ha]))
    | Draw f =>
      simp only [runActions]
      exact ih _ (by simpa [dataSize] using hs) (fun a ha => hl a (by simp [ha]))

/-- [C12] counterexample.  (1) For a loaded image of 32768 x 16384 pixels
(`w * h * 4 = 2^31`), `Init` calls `glBufferData` four times on the pixel
buffer targets with size -2147483648, the `int` product wrapped, not
`w * h * 4`.  (2) On the example sample (1 x 7 image, stores of 28 bytes), a
`LoadImage` of a 2 x 7 image after `Init` makes `dataSize` 56: the next
`DownloadPixels` maps buffer 8, whose store has 28 bytes, with mapping length
56. -/
theorem C12_counterexample :
    (observe obsBufferData (Machine.initial exampleMem) hugeSample.2 =
      [ (.GL_PIXEL_UNPACK_BUFFER, some 5, -2147483648),
        (.GL_PIXEL_UNPACK_BUFFER, some 6, -2147483648),
        (.GL_PIXEL_PACK_BUFFER, some 7, -2147483648),
        (.GL_PIXEL_PACK_BUFFER, some 8, -2147483648) ] ∧
      hugeSample.1.m_RenderImage.width * hugeSample.1.m_RenderImage.height * 4 = 2147483648) ∧
    (((Machine.initial exampleMem).run exampleSample.2).buffers 8).size = 28 ∧
    dataSize (runActions false [Action.LoadImage widerImage 4096] exampleSample.1).1 = 56 ∧
    GLCall.glMapBufferRange .GL_PIXEL_PACK_BUFFER 0 56 .read exampleFrame.downloadMapResult
      ∈ (runActions false [Action.LoadImage widerImage 4096, Action.Draw exampleFrame]
          exampleSample.1).2 ∧
    observe (obsMapAttempt .GL_PIXEL_PACK_BUFFER)
      ((Machine.initial exampleMem).run exampleSample.2)
      (runActions false [Action.LoadImage widerImage 4096, Action.Draw exampleFrame]
          exampleSample.1).2 = [some 8] := by
  decide

/-- [C12] amended: when `Init` runs through the creation of the buffers
(programs created) with a loaded image of width `w` and height `h` such that
`0 <= w * h * 4 < 2^31` (the `int` product does not overflow), it calls
`glBufferData` on the pixel buffer targets exactly four times, for the two
upload and the two download names delivered by `glGenBuffers`, each time with
size `w * h * 4`; afterwards the data store of each of the four buffers
(names non-zero) has that size, and it is the value `dataSize` that
`UploadPixels` and `DownloadPixels` use as mapping length, also after any
number of frames, and after any sequence of `LoadImage` and `Draw` calls in
which every image loaded has the byte size `w * h * 4`. -/
theorem C12_four_stores_of_image_size (m : Machine) (i : InitInput) (s : PBOSample)
    (a b d e : GLuint) (hp : s.m_ProgramObj = 0) (hpo : i.programObj ≠ 0)
    (hfo : i.fboProgramObj ≠ 0) (hu : i.uploadPboIds = [a, b]) (hd : i.downloadPboIds = [d, e])
    (h0 : 0 ≤ s.m_RenderImage.width * s.m_RenderImage.height * 4)
    (h1 : s.m_RenderImage.width * s.m_RenderImage.height * 4 < 2147483648) :
    observe obsBufferData m (Init i s).2 =
      [ (.GL_PIXEL_UNPACK_BUFFER, some a, s.m_RenderImage.width * s.m_RenderImage.height * 4),
        (.GL_PIXEL_UNPACK_BUFFER, some b, s.m_RenderImage.width * s.m_RenderImage.height * 4),
        (.GL_PIXEL_PACK_BUFFER, some d, s.m_RenderImage.width * s.m_RenderImage.height * 4),
        (.GL_PIXEL_PACK_BUFFER, some e, s.m_RenderImage.width * s.m_RenderImage.height * 4) ] ∧
    (∀ x ∈ [a, b, d, e], x ≠ 0 →
      ((m.run (Init i s).2).buffers x).size
        = s.m_RenderImage.width * s.m_RenderImage.height * 4) ∧
    (∀ (c : Bool) (fs : List FrameInput),
      dataSize (runFrames c fs (Init i s).1).1
        = s.m_RenderImage.width * s.m_RenderImage.height * 4) ∧
    (∀ (c : Bool) (acts : List Action),
      (∀ act ∈ acts, ∀ img p, act = Action.LoadImage img p →
        imul (imul img.width img.height) 4
          = s.m_RenderImage.width * s.m_RenderImage.height * 4) →
      dataSize (runActions c acts (Init i s).1).1
        = s.m_RenderImage.width * s.m_RenderImage.height * 4) := by
  have hobs := observe_bufferData_Init m i s hp hpo hfo
  rw [imul_imul_four h0 h1, hu, hd] at hobs
  have hall := pixelStoreSize_Init i s
  rw [imul_imul_four h0 h1] at hall
  have hds : dataSize (Init i s).1 = s.m_RenderImage.width * s.m_RenderImage.height * 4 := by
    unfold dataSize
    rw [Init_renderImage, imul_imul_four h0 h1]
  refine ⟨hobs, ?_, ?_, fun c acts hl => runActions_dataSize c acts _ _ hds hl⟩
  · intro x hx hx0
    apply size_of_observed _ _ _ _ hx0 hall
    rw [hobs]
    simp only [List.mem_cons, List.mem_singleton, List.not_mem_nil, or_false] at hx
    rcases hx with rfl | rfl | rfl | rfl
    · exact ⟨.GL_PIXEL_UNPACK_BUFFER, by simp [arrayRead]⟩
    · exact ⟨.GL_PIXEL_UNPACK_BUFFER, by simp [arrayRead]⟩
    · exact ⟨.GL_PIXEL_PACK_BUFFER, by simp [arrayRead]⟩
    · exact ⟨.GL_PIXEL_PACK_BUFFER, by simp [arrayRead]⟩
  · intro c fs
    rw [runFrames_dataSize]
    unfold dataSize
    rw [Init_renderImage, imul_imul_four h0 h1]

/-- [C12] witness: the 1 x 7 example image; the four stores have 28 bytes. -/
theorem C12_four_stores_of_image_size_witness :
    loadedSample.m_ProgramObj = 0 ∧ exampleInit.programObj ≠ 0 ∧ exampleInit.fboProgramObj ≠ 0 ∧
    exampleInit.uploadPboIds = [5, 6] ∧ exampleInit.downloadPboIds = [7, 8] ∧
    0 ≤ loadedSample.m_RenderImage.width * loadedSample.m_RenderImage.height * 4 ∧
    loadedSample.m_RenderImage.width * loadedSample.m_RenderImage.height * 4 < 2147483648 ∧
    observe obsBufferData (Machine.initial exampleMem) (Init exampleInit loadedSample).2 =
      [ (.GL_PIXEL_UNPACK_BUFFER, some 5, 28), (.GL_PIXEL_UNPACK_BUFFER, some 6, 28),
        (.GL_PIXEL_PACK_BUFFER, some 7, 28), (.GL_PIXEL_PACK_BUFFER, some 8, 28) ] ∧
    dataSize (runActions false
      [Action.Draw exampleFrame, Action.LoadImage exampleImage 8192, Action.Draw exampleFrame]
      (Init exampleInit loadedSample).1).1 = 28 :=
  ⟨by decide, by decide, by decide, by decide, by decide, by decide, by decide,
    (C12_four_stores_of_image_size (Machine.initial exampleMem) exampleInit loadedSample 5 6 7 8
      (by decide) (by decide) (by decide) (by decide) (by decide) (by decide) (by decide)).1,
    (C12_four_stores_of_image_size (Machine.initial exampleMem) exampleInit loadedSample 5 6 7 8
      (by decide) (by decide) (by decide) (by decide) (by decide) (by decide)
      (by decide)).2.2.2 false _ (by
        intro act hact img p hp
        subst hp
        simp only [List.mem_cons, List.mem_singleton, List.not_mem_nil, or_false] at hact
        rcases hact with h | h | h
        · cases h
        · cases h; decide
        · cases h)⟩

end PBOSample
end GLES

/-! ## C13 : failure of the creation of the staging buffers -/

namespace GLES
namespace PBOSample
open Machine

/-- [C13] counterexample: `glGenBuffers` delivers no name for the staging
buffers.  `Init` still runs to its end (`CreateFrameBufferObj` is called, the
programs stay set), and the following `Draw` with PBO upload performs its
texture update from the pixel unpack binding, its mapping for upload, its
`glReadPixels` with null `pixels` and its mapping for download, all with
buffer name 0. -/
theorem C13_counterexample :
    failedAllocSample.1.m_UploadPboIds = [0, 0] ∧
    failedAllocSample.1.m_DownloadPboIds = [0, 0] ∧
    GLCall.glCheckFramebufferStatus true ∈ failedAllocSample.2 ∧
    failedAllocSample.1.m_ProgramObj = 1 ∧
    observe obsTexSource ((Machine.initial exampleMem).run failedAllocSample.2)
      (Draw true exampleFrame failedAllocSample.1).2 = [some 0] ∧
    observe (obsMapAttempt .GL_PIXEL_UNPACK_BUFFER)
      ((Machine.initial exampleMem).run failedAllocSample.2)
      (Draw true exampleFrame failedAllocSample.1).2 = [some 0] ∧
    observe obsRead ((Machine.initial exampleMem).run failedAllocSample.2)
      (Draw true exampleFrame failedAllocSample.1).2 = [(some 0, 36864), (some 0, 0)] ∧
    observe (obsMapAttempt .GL_PIXEL_PACK_BUFFER)
      ((Machine.initial exampleMem).run failedAllocSample.2)
      (Draw true exampleFrame failedAllocSample.1).2 = [some 0] := by
  decide

/-- [C13] amended: `Init` does not test the outcome of the creation or
allocation of the staging buffers.  Whatever names `glGenBuffers` delivers
(also 0), `Init` stores them, goes on to `CreateFrameBufferObj` and leaves the
sample as after any other `Init`; and `Draw` has no guard: in every state it
issues the `glReadPixels` of the download path with
`m_DownloadPboIds[index]` bound and, with PBO upload, the `glMapBufferRange`
of the upload path. -/
theorem C13_no_allocation_check (c : Bool) (i : InitInput) (s0 s : PBOSample)
    (u d : List GLuint) (f : FrameInput) :
    (Init { i with uploadPboIds := u, downloadPboIds := d } s0).1
      = { (Init i s0).1 with
          m_UploadPboIds := (Init { i with uploadPboIds := u, downloadPboIds := d } s0).1.m_UploadPboIds
          m_DownloadPboIds :=
            (Init { i with uploadPboIds := u, downloadPboIds := d } s0).1.m_DownloadPboIds } ∧
    ((Init { i with uploadPboIds := u, downloadPboIds := d } s0).2.length = (Init i s0).2.length) ∧
    (GLCall.glCheckFramebufferStatus i.framebufferComplete ∈ (Init i s0).2 ↔
      GLCall.glCheckFramebufferStatus i.framebufferComplete
        ∈ (Init { i with uploadPboIds := u, downloadPboIds := d } s0).2) ∧
    GLCall.glBindBuffer .GL_PIXEL_PACK_BUFFER (arrayRead s.m_DownloadPboIds (index s))
      ∈ (Draw c f s).2 ∧
    GLCall.glReadPixels s.m_RenderImage.width s.m_RenderImage.height 0 ∈ (Draw c f s).2 ∧
    GLCall.glMapBufferRange .GL_PIXEL_UNPACK_BUFFER 0 (dataSize s) .writeInvalidate
        f.uploadMapResult ∈ (Draw true f s).2 := by
  refine ⟨?_, ?_, ?_, ?_, ?_, ?_⟩
  · unfold Init CreateFrameBufferObj
    dsimp only
    split_ifs <;> rfl
  · unfold Init CreateFrameBufferObj initVao
    dsimp only
    split_ifs <;> simp
  · unfold Init CreateFrameBufferObj initVao
    dsimp only
    split_ifs <;> simp
  · unfold Draw DownloadPixels
    simp
  · unfold Draw DownloadPixels
    simp
  · unfold Draw UploadPixels
    simp

end PBOSample
end GLES

/-! ## C14 : sizes of the data stores over LoadImage and Draw -/

namespace GLES
namespace PBOSample
open Machine

theorem pixelStoreSize_DownloadPixels (f : FrameInput) (s : PBOSample) :
    ∀ c ∈ (DownloadPixels f s).2, c.pixelStoreSize = none := by
  unfold DownloadPixels
  dsimp only
  split_ifs <;> simp [GLCall.pixelStoreSize]

/-- Without PBO upload a frame creates no data store. -/
theorem pixelStoreSize_Draw_false (f : FrameInput) (s : PBOSample) :
    ∀ c ∈ (Draw false f s).2, c.pixelStoreSize = none := by
  intro c hc
  simp only [Draw, List.mem_append] at hc
  rcases hc with (((hc | hc) | hc) | hc) | hc
  · simp only [List.mem_singleton] at hc; rw [hc]; rfl
  · simp only [UploadPixels, stripe, Bool.false_eq_true, if_false, List.mem_cons,
      List.mem_singleton, List.not_mem_nil, or_false] at hc
    rcases hc with rfl | rfl | rfl | rfl | rfl | rfl <;> rfl
  · simp only [offscreenPass, List.mem_cons, List.mem_singleton, List.not_mem_nil,
      or_false] at hc
    rcases hc with rfl | rfl | rfl | rfl | rfl | rfl | rfl | rfl | rfl <;> rfl
  · exact pixelStoreSize_DownloadPixels f s c hc
  · simp only [screenPass, List.mem_cons, List.mem_singleton, List.not_mem_nil,
      or_false] at hc
    rcases hc with rfl | rfl | rfl | rfl | rfl | rfl | rfl | rfl | rfl | rfl | rfl <;> rfl

/-- With PBO upload the one data store a frame creates has size `dataSize`. -/
theorem pixelStoreSize_Draw (c : Bool) (f : FrameInput) (s : PBOSample) :
    ∀ k ∈ (Draw c f s).2, ∀ n, k.pixelStoreSize = some n → n = dataSize s := by
  intro k hk
  simp only [Draw, List.mem_append] at hk
  rcases hk with (((hk | hk) | hk) | hk) | hk
  · simp only [List.mem_singleton] at hk; rw [hk]; intro n hn; cases hn
  · revert k
    unfold UploadPixels stripe
    split_ifs <;> simp [GLCall.pixelStoreSize]
  · simp only [offscreenPass, List.mem_cons, List.mem_singleton, List.not_mem_nil,
      or_false] at hk
    rcases hk with rfl | rfl | rfl | rfl | rfl | rfl | rfl | rfl | rfl <;>
      (intro n hn; cases hn)
  · intro n hn; rw [pixelStoreSize_DownloadPixels f s k hk] at hn; cases hn
  · simp only [screenPass, List.mem_cons, List.mem_singleton, List.not_mem_nil,
      or_false] at hk
    rcases hk with rfl | rfl | rfl | rfl | rfl | rfl | rfl | rfl | rfl | rfl | rfl <;>
      (intro n hn; cases hn)

end PBOSample
end GLES
namespace GLES
namespace Machine

/-- A trace none of whose `glBufferData` calls on a pixel buffer target finds
`x` bound leaves the size of the data store of `x` as it is. -/
theorem run_size_of_unobserved (t : List GLCall) (m : Machine) (x : GLuint)
    (h : ∀ e ∈ observe obsBufferData m t, e.2.1 ≠ some x) :
    ((m.run t).buffers x).size = (m.buffers x).size := by
  induction t generalizing m with
  | nil => rfl
  | cons c cs ih =>
    simp only [run]
    rw [ih _ (fun e he => h e (by simp [observe, he]))]
    cases hp : c.pixelStoreSize with
    | none => exact step_size_of_none m c x hp
    | some n =>
      cases c <;> simp only [GLCall.pixelStoreSize] at hp <;> try (cases hp)
      case glBufferData t k d =>
        cases t <;> simp only [GLCall.pixelStoreSize] at hp <;> try (cases hp)
        · have hb := h (.GL_PIXEL_UNPACK_BUFFER, m.unpackBinding, n)
            (by simp [observe, obsBufferData])
          simp only [step, bound]
          cases hu : m.unpackBinding with
          | none => rfl
          | some b =>
            simp only [Option.some_bind]
            split_ifs with hz
            · rfl
            · dsimp only
              have : x ≠ b := by
                intro hxb; apply hb; dsimp only; rw [hu, hxb]
              rw [Function.update_noteq this]
        · have hb := h (.GL_PIXEL_PACK_BUFFER, m.packBinding, n)
            (by simp [observe, obsBufferData])
          simp only [step, bound]
          cases hu : m.packBinding with
          | none => rfl
          | some b =>
            simp only [Option.some_bind]
            split_ifs with hz
            · rfl
            · dsimp only
              have : x ≠ b := by
                intro hxb; apply hb; dsimp only; rw [hu, hxb]
              rw [Function.update_noteq this]

end Machine

namespace PBOSample
open Machine

theorem arrayRead_mem {α : Type} (a : List α) (i : Int) (y : α)
    (h : arrayRead a i = some y) : y ∈ a := by
  unfold arrayRead at h
  split_ifs at h
  exact List.get?_mem h

theorem observe_bufferData_DownloadPixels (m : Machine) (f : FrameInput) (s : PBOSample) :
    observe obsBufferData m (DownloadPixels f s).2 = [] := by
  unfold DownloadPixels
  dsimp only
  split_ifs <;> simp [observe, obsBufferData]

theorem observe_bufferData_UploadPixels (m : Machine) (c : Bool) (f : FrameInput)
    (s : PBOSample) :
    observe obsBufferData m (UploadPixels c f s)
      = if c then [(.GL_PIXEL_UNPACK_BUFFER, arrayRead s.m_UploadPboIds (nextIndex s),
          dataSize s)] else [] := by
  unfold UploadPixels stripe
  split_ifs <;> simp_all [observe, obsBufferData, step_unpackBinding]

/-- The one data store a frame creates: with PBO upload, that of
`m_UploadPboIds[nextIndex]`, of `dataSize` bytes. -/
theorem observe_bufferData_Draw (m : Machine) (c : Bool) (f : FrameInput) (s : PBOSample) :
    observe obsBufferData m (Draw c f s).2
      = if c then [(.GL_PIXEL_UNPACK_BUFFER, arrayRead s.m_UploadPboIds (nextIndex s),
          dataSize s)] else [] := by
  simp only [Draw, observe_append, run_append, observe_bufferData_UploadPixels,
    observe_bufferData_DownloadPixels]
  simp [observe, obsBufferData, offscreenPass, screenPass]

theorem runActions_size_false (acts : List Action) (s : PBOSample) (m : Machine) (x : GLuint) :
    ((m.run (runActions false acts s).2).buffers x).size = (m.buffers x).size := by
  induction acts generalizing s m with
  | nil => rfl
  | cons a rest ih =>
    cases a with
    | LoadImage img p => exact ih _ _
    | Draw f =>
      simp only [runActions, run_append]
      rw [ih, run_size_of_none _ _ _ (pixelStoreSize_Draw_false f s)]

theorem runActions_size_of_not_upload (acts : List Action) (s : PBOSample) (m : Machine)
    (x : GLuint) (hx : x ∉ s.m_UploadPboIds) :
    ((m.run (runActions true acts s).2).buffers x).size = (m.buffers x).size := by
  induction acts generalizing s m with
  | nil => rfl
  | cons a rest ih =>
    cases a with
    | LoadImage img p => exact ih _ _ hx
    | Draw f =>
      simp only [runActions, run_append]
      rw [ih _ _ (by simpa using hx)]
      apply run_size_of_unobserved
      intro e he
      rw [observe_bufferData_Draw] at he
      simp only [if_true, List.mem_singleton] at he
      subst he
      intro hr
      exact hx (arrayRead_mem _ _ _ hr)

theorem runActions_size_inv (acts : List Action) (s : PBOSample) (m : Machine) (x : GLuint)
    (d : Int) (hs : dataSize s = d)
    (hl : ∀ a ∈ acts, ∀ img p, a = Action.LoadImage img p →
      imul (imul img.width img.height) 4 = d)
    (hx : (m.buffers x).size = d) :
    ((m.run (runActions true acts s).2).buffers x).size = d := by
  induction acts generalizing s m with
  | nil => exact hx
  | cons a rest ih =>
    cases a with
    | LoadImage img p =>
      exact ih _ _ (hl _ (by simp) img p rfl) (fun a ha => hl a (by simp [ha])) hx
    | Draw f =>
      simp only [runActions, run_append]
      apply ih _ _ (by simpa [dataSize] using hs) (fun a ha => hl a (by simp [ha]))
      apply run_size_inv _ _ _ _ hx
      intro k hk n hn
      rw [← hs]
      exact pixelStoreSize_Draw true f s k hk n hn

end PBOSample
end GLES
namespace GLES
namespace PBOSample
open Machine

/-- C14, counterexample: with PBO upload, a `LoadImage` of a 2 x 7 image
followed by one `Draw` gives the staging buffer 6, which `Init` created with
28 bytes, a data store of 56 bytes. -/
theorem C14_counterexample :
    (((Machine.initial exampleMem).run exampleSample.2).buffers 6).size = 28 ∧
    (((Machine.initial exampleMem).run
        (exampleSample.2 ++
          (runActions true [Action.LoadImage widerImage 4096, Action.Draw exampleFrame]
            exampleSample.1).2)).buffers 6).size = 56 := by
  decide

/-- C14, amended: over every interleaving of `LoadImage` and `Draw` calls the
size of a data store stays as it was (1) for every buffer when PBO upload is
off, (2) with PBO upload for every buffer that is not one of the two upload
buffers, hence for the download buffers when the four names are distinct, and
(3) with PBO upload for every buffer whose store has `dataSize` bytes when
every loaded image has that same byte size. -/
theorem C14_store_sizes (acts : List Action) (s : PBOSample) (m : Machine) (x : GLuint) :
    ((m.run (runActions false acts s).2).buffers x).size = (m.buffers x).size ∧
    (x ∉ s.m_UploadPboIds →
      ((m.run (runActions true acts s).2).buffers x).size = (m.buffers x).size) ∧
    ((∀ a ∈ acts, ∀ img p, a = Action.LoadImage img p →
        imul (imul img.width img.height) 4 = dataSize s) →
      (m.buffers x).size = dataSize s →
      ((m.run (runActions true acts s).2).buffers x).size = (m.buffers x).size) :=
  ⟨runActions_size_false acts s m x, runActions_size_of_not_upload acts s m x,
    fun hl hx => by rw [hx]; exact runActions_size_inv acts s m x _ rfl hl hx⟩

/-- C14, witness: the example sample, a reload of the same image between two
frames, and the upload buffer 6 and download buffer 7 after `Init`. -/
theorem C14_store_sizes_witness :
    (7 : GLuint) ∉ exampleSample.1.m_UploadPboIds ∧
    (∀ a ∈ [Action.Draw exampleFrame, Action.LoadImage exampleImage 8192,
          Action.Draw exampleFrame],
        ∀ img p, a = Action.LoadImage img p →
          imul (imul img.width img.height) 4 = dataSize exampleSample.1) ∧
    (((Machine.initial exampleMem).run exampleSample.2).buffers 6).size
      = dataSize exampleSample.1 ∧
    ((((Machine.initial exampleMem).run exampleSample.2).run
        (runActions true [Action.Draw exampleFrame, Action.LoadImage exampleImage 8192,
          Action.Draw exampleFrame] exampleSample.1).2).buffers 7).size = 28 ∧
    ((((Machine.initial exampleMem).run exampleSample.2).run
        (runActions true [Action.Draw exampleFrame, Action.LoadImage exampleImage 8192,
          Action.Draw exampleFrame] exampleSample.1).2).buffers 6).size = 28 :=
  have h1 : (7 : GLuint) ∉ exampleSample.1.m_UploadPboIds := by decide
  have h2 : ∀ a ∈ [Action.Draw exampleFrame, Action.LoadImage exampleImage 8192,
          Action.Draw exampleFrame],
        ∀ img p, a = Action.LoadImage img p →
          imul (imul img.width img.height) 4 = dataSize exampleSample.1 := by
    intro a ha img p hp
    subst hp
    simp only [List.mem_cons, List.mem_singleton, List.not_mem_nil, or_false] at ha
    rcases ha with ha | ha | ha
    · cases ha
    · cases ha; decide
    · cases ha
  have h3 : (((Machine.initial exampleMem).run exampleSample.2).buffers 6).size
      = dataSize exampleSample.1 := by decide
  have h4 : (((Machine.initial exampleMem).run exampleSample.2).buffers 7).size = 28 := by
    decide
  have h5 : (((Machine.initial exampleMem).run exampleSample.2).buffers 6).size = 28 := by
    decide
  ⟨h1, h2, h3,
    ((C14_store_sizes _ exampleSample.1 ((Machine.initial exampleMem).run exampleSample.2)
      7).2.1 h1).trans h4,
    ((C14_store_sizes _ exampleSample.1 ((Machine.initial exampleMem).run exampleSample.2)
      6).2.2 h2 h3).trans h5⟩

end PBOSample
end GLES

/-! ## C15 : the destination of the stripe -/

namespace GLES
namespace Machine

theorem store_mem_of_ne (m : Machine) (d p : Ptr) (o : Int) (b : Bytes) (h : d ≠ p) :
    (m.store d o b).mem p = m.mem p := by
  unfold store
  split
  · rfl
  · dsimp only
    rw [Function.update_noteq (Ne.symm h)]

/-- An operation that does not store through the address `p` leaves the client
memory at `p` as it is. -/
theorem step_mem_of_ne (m : Machine) (c : GLCall) (p : Ptr) (h : c.clientDst ≠ some p) :
    (m.step c).mem p = m.mem p := by
  cases c <;> simp only [GLCall.clientDst, ne_eq, Option.some.injEq] at h <;>
    simp only [step] <;> try rfl
  case glBindBuffer t b => cases t <;> rfl
  case glBufferData t n d => split <;> rfl
  case glMapBufferRange t o l a r =>
    split
    · split <;> rfl
    · rfl
  case glUnmapBuffer t => split <;> rfl
  case memcpy d src n => exact store_mem_of_ne _ _ _ _ _ h
  case memset d o v n => exact store_mem_of_ne _ _ _ _ _ h
  case glReadPixels w hh q =>
    split
    · rfl
    · dsimp only
      rw [Function.update_noteq (Ne.symm h)]
    · rfl

theorem run_mem_of_ne (t : List GLCall) (m : Machine) (p : Ptr)
    (h : ∀ c ∈ t, c.clientDst ≠ some p) : (m.run t).mem p = m.mem p := by
  induction t generalizing m with
  | nil => rfl
  | cons c cs ih =>
    simp only [run]
    rw [ih _ (fun c' hc' => h c' (by simp [hc'])), step_mem_of_ne m c p (h c (by simp))]

end Machine

namespace PBOSample
open Machine

/-- C15, counterexample: without PBO upload (the configuration of the file as
shipped) one `UploadPixels` on the example sample turns the bytes 4..23 of the
pixel buffer `m_RenderImage.ppPlane[0]` (address 8192) into 188. -/
theorem C15_counterexample :
    exampleSample.1.m_RenderImage.ppPlane0 = 8192 ∧
    ((Machine.initial exampleMem).run exampleSample.2).mem 8192
      = (List.range 28).map some ∧
    (((Machine.initial exampleMem).run exampleSample.2).run
        (UploadPixels false exampleFrame exampleSample.1)).mem 8192
      = [some 0, some 1, some 2, some 3] ++ List.replicate 20 (some 188)
          ++ [some 24, some 25, some 26, some 27] := by
  decide

/-- C15, amended: with PBO upload `UploadPixels` leaves the bytes of
`m_RenderImage.ppPlane[0]` unchanged (the address a successful mapping
returns being another one than that of the pixel buffer); without PBO upload
it stores the stripe of 188 into the pixel buffer itself. -/
theorem C15_stripe_destination (m : Machine) (f : FrameInput) (s : PBOSample) :
    ((f.uploadMapResult ≠ 0 → f.uploadMapResult ≠ s.m_RenderImage.ppPlane0) →
      (m.run (UploadPixels true f s)).mem s.m_RenderImage.ppPlane0
        = m.mem s.m_RenderImage.ppPlane0) ∧
    (m.mappings.lookup s.m_RenderImage.ppPlane0 = none →
      (m.run (UploadPixels false f s)).mem s.m_RenderImage.ppPlane0
        = writeBytes (m.mem s.m_RenderImage.ppPlane0)
            (imul (imul (randomRow s f.randValue) s.m_RenderImage.width) 4)
            (List.replicate (imul (imul s.m_RenderImage.width 4) 5).toNat (some 188))) := by
  constructor
  · intro h
    apply run_mem_of_ne
    intro c hc
    unfold UploadPixels stripe at hc
    by_cases hmap : f.uploadMapResult = 0
    · simp [hmap] at hc
      rcases hc with rfl | rfl | rfl | rfl | rfl | rfl | rfl <;> simp [GLCall.clientDst]
    · have hne := h hmap
      simp [hmap] at hc
      rcases hc with rfl | rfl | rfl | rfl | rfl | rfl | rfl | rfl | rfl | rfl <;>
        simp [GLCall.clientDst, hne]
  · intro h
    simp [UploadPixels, stripe, run, step, store, h]

/-- C15, witness: the example sample after `Init`, with the mapping at address
28672 and the pixel buffer at 8192. -/
theorem C15_stripe_destination_witness :
    (exampleFrame.uploadMapResult ≠ 0 →
      exampleFrame.uploadMapResult ≠ exampleSample.1.m_RenderImage.ppPlane0) ∧
    ((Machine.initial exampleMem).run exampleSample.2).mappings.lookup
      exampleSample.1.m_RenderImage.ppPlane0 = none ∧
    (((Machine.initial exampleMem).run exampleSample.2).run
        (UploadPixels true exampleFrame exampleSample.1)).mem
          exampleSample.1.m_RenderImage.ppPlane0
      = ((Machine.initial exampleMem).run exampleSample.2).mem
          exampleSample.1.m_RenderImage.ppPlane0 ∧
    (((Machine.initial exampleMem).run exampleSample.2).run
        (UploadPixels false exampleFrame exampleSample.1)).mem
          exampleSample.1.m_RenderImage.ppPlane0
      = writeBytes (((Machine.initial exampleMem).run exampleSample.2).mem
            exampleSample.1.m_RenderImage.ppPlane0)
          (imul (imul (randomRow exampleSample.1 exampleFrame.randValue)
            exampleSample.1.m_RenderImage.width) 4)
          (List.replicate (imul (imul exampleSample.1.m_RenderImage.width 4) 5).toNat
            (some 188)) :=
  have h1 : exampleFrame.uploadMapResult ≠ 0 →
      exampleFrame.uploadMapResult ≠ exampleSample.1.m_RenderImage.ppPlane0 := by decide
  have h2 : ((Machine.initial exampleMem).run exampleSample.2).mappings.lookup
      exampleSample.1.m_RenderImage.ppPlane0 = none := by decide
  ⟨h1, h2,
    (C15_stripe_destination ((Machine.initial exampleMem).run exampleSample.2) exampleFrame
      exampleSample.1).1 h1,
    (C15_stripe_destination ((Machine.initial exampleMem).run exampleSample.2) exampleFrame
      exampleSample.1).2 h2⟩

end PBOSample
end GLES

/-! ## C16 : the texels of the image texture one frame after the copy -/

namespace GLES

theorem readBytes_stripe (P : Bytes) (ds off n : Int) (h0 : 0 ≤ off) :
    readBytes (writeBytes (writeBytes (unspecified ds) 0 (readBytes P 0 ds)) off
        (List.replicate n.toNat (some 188))) 0 ds
      = (List.range ds.toNat).map fun k =>
          if off.toNat ≤ k ∧ k < off.toNat + n.toNat then some 188 else (P.get? k).join := by
  unfold readBytes writeBytes unspecified
  simp only [lt_irrefl, if_false, not_lt.mpr h0, List.length_map, List.length_range,
    List.length_replicate, Int.toNat_zero, zero_add, Nat.zero_le, true_and, Nat.sub_zero]
  apply List.map_congr_left
  intro k hk
  rw [List.mem_range] at hk
  simp only [List.get?_eq_getElem?, List.getElem?_map, List.getElem?_range hk, Option.map_some']
  simp only [Option.join, Option.bind_eq_bind, Option.some_bind, id, hk, if_true]
  split_ifs with h
  · rw [List.getElem?_replicate, if_pos (by omega)]
    rfl
  · rfl

end GLES
namespace GLES
namespace Machine

/-- An operation that stores through no pointer, creates no data store and
maps no buffer with invalidation leaves every data store as it is. -/
theorem step_buffers_of_inert (m : Machine) (c : GLCall) (h1 : c.clientDst = none)
    (h2 : c.isBufferData = false)
    (h3 : ∀ t o l r, c ≠ GLCall.glMapBufferRange t o l .writeInvalidate r) :
    (m.step c).buffers = m.buffers := by
  cases c <;> simp only [GLCall.clientDst, GLCall.isBufferData] at h1 h2 <;>
    try (first | rfl | (cases h1; done) | (cases h2; done))
  case glBindBuffer t b => cases t <;> rfl
  case glMapBufferRange t o l a r =>
    simp only [step]
    split
    · split
      · rfl
      · dsimp only
        split
        · rename_i ha
          exact absurd (by rw [ha]) (h3 t o l r)
        · rfl
    · rfl
  case glUnmapBuffer t =>
    simp only [step]
    split <;> rfl

theorem run_buffers_of_inert (t : List GLCall) (m : Machine)
    (h : ∀ c ∈ t, c.clientDst = none ∧ c.isBufferData = false ∧
      ∀ t o l r, c ≠ GLCall.glMapBufferRange t o l .writeInvalidate r) :
    (m.run t).buffers = m.buffers := by
  induction t generalizing m with
  | nil => rfl
  | cons c cs ih =>
    simp only [run]
    rw [ih _ (fun c' hc' => h c' (by simp [hc']))]
    exact step_buffers_of_inert m c (h c (by simp)).1 (h c (by simp)).2.1 (h c (by simp)).2.2

/-- A `glReadPixels` leaves the data store of a buffer that is not bound to
the pixel pack target as it is. -/
theorem step_glReadPixels_buffers (m : Machine) (w h : Int) (p : Ptr) (b : GLuint)
    (hp : m.packBinding ≠ some b) :
    (m.step (.glReadPixels w h p)).buffers b = m.buffers b := by
  simp only [step]
  split
  · rfl
  · rfl
  · rename_i y _ hy
    dsimp only
    rw [Function.update_noteq]
    intro hby
    apply hp
    rw [hy, hby]

/-- Only `glTexImage2D` changes the dimensions of a texture image. -/
theorem step_tex_dims (m : Machine) (c : GLCall) (x : GLuint)
    (h : ∀ w hh p, c ≠ GLCall.glTexImage2D w hh p) :
    ((m.step c).textures x).width = (m.textures x).width ∧
    ((m.step c).textures x).height = (m.textures x).height := by
  cases c <;> simp only [step, store_textures] <;>
    try (first | exact ⟨rfl, rfl⟩ | exact ⟨trivial, trivial⟩)
  case glBindBuffer t b => cases t <;> exact ⟨rfl, rfl⟩
  case glBufferData t n d => split <;> exact ⟨rfl, rfl⟩
  case glMapBufferRange t o l a r =>
    split
    · split <;> exact ⟨rfl, rfl⟩
    · exact ⟨rfl, rfl⟩
  case glUnmapBuffer t => split <;> exact ⟨rfl, rfl⟩
  case glTexImage2D w hh p => exact absurd rfl (h w hh p)
  case glTexSubImage2D w hh p =>
    by_cases hx : x = m.textureBinding
    · subst hx; simp
    · rw [Function.update_noteq hx]; exact ⟨rfl, rfl⟩
  case glReadPixels w hh p => split <;> exact ⟨rfl, rfl⟩

theorem run_tex_dims (t : List GLCall) (m : Machine) (x : GLuint)
    (h : ∀ c ∈ t, ∀ w hh p, c ≠ GLCall.glTexImage2D w hh p) :
    ((m.run t).textures x).width = (m.textures x).width ∧
    ((m.run t).textures x).height = (m.textures x).height := by
  induction t generalizing m with
  | nil => exact ⟨rfl, rfl⟩
  | cons c cs ih =>
    simp only [run]
    have h1 := ih (m.step c) (fun c' hc' => h c' (by simp [hc']))
    have h2 := step_tex_dims m c x (h c (by simp))
    exact ⟨h1.1.trans h2.1, h1.2.trans h2.2⟩

end Machine
end GLES
namespace GLES
namespace PBOSample
open Machine

/-- After an `UploadPixels` with PBO upload whose mapping succeeds, the data
store of `m_UploadPboIds[nextIndex]` holds the copy of the pixel buffer with
the stripe stored over it. -/
theorem buffers_after_UploadPixels (m : Machine) (f : FrameInput) (s : PBOSample) (b : GLuint)
    (hb0 : b ≠ 0) (hb : arrayRead s.m_UploadPboIds (nextIndex s) = some b)
    (hmap : f.uploadMapResult ≠ 0) :
    ((m.run (UploadPixels true f s)).buffers b).data
      = writeBytes
          (writeBytes (unspecified (dataSize s)) 0
            (readBytes (m.mem s.m_RenderImage.ppPlane0) 0 (dataSize s)))
          (imul (imul (randomRow s f.randValue) s.m_RenderImage.width) 4)
          (List.replicate (imul (imul s.m_RenderImage.width 4) 5).toNat (some 188)) := by
  unfold UploadPixels stripe
  simp [run, step, bound, hb, hb0, hmap, store]

theorem offscreenPass_inert (s : PBOSample) :
    ∀ c ∈ offscreenPass s, c.clientDst = none ∧ c.isBufferData = false ∧
      ∀ t o l r, c ≠ GLCall.glMapBufferRange t o l .writeInvalidate r := by
  intro c hc
  simp only [offscreenPass, List.mem_cons, List.mem_singleton, List.not_mem_nil,
    or_false] at hc
  rcases hc with rfl | rfl | rfl | rfl | rfl | rfl | rfl | rfl | rfl <;>
    exact ⟨rfl, rfl, fun _ _ _ _ h => by cases h⟩

theorem screenPass_inert (f : FrameInput) (s : PBOSample) :
    ∀ c ∈ screenPass f s, c.clientDst = none ∧ c.isBufferData = false ∧
      ∀ t o l r, c ≠ GLCall.glMapBufferRange t o l .writeInvalidate r := by
  intro c hc
  simp only [screenPass, List.mem_cons, List.mem_singleton, List.not_mem_nil,
    or_false] at hc
  rcases hc with rfl | rfl | rfl | rfl | rfl | rfl | rfl | rfl | rfl | rfl | rfl <;>
    exact ⟨rfl, rfl, fun _ _ _ _ h => by cases h⟩

theorem packBinding_run_offscreenPass (m : Machine) (s : PBOSample) :
    (m.run (offscreenPass s)).packBinding = m.packBinding := rfl

/-- The two `glReadPixels` of `DownloadPixels` leave the data store of a buffer
as it is when that buffer is neither bound to the pack target on entry nor
the buffer `m_DownloadPboIds[index]`. -/
theorem buffers_after_DownloadPixels (m : Machine) (f : FrameInput) (s : PBOSample)
    (b : GLuint) (hp : m.packBinding ≠ some b)
    (hd : arrayRead s.m_DownloadPboIds (index s) ≠ some b) :
    (m.run (DownloadPixels f s).2).buffers b = m.buffers b := by
  have hhead : ∀ rest : List GLCall,
      (∀ c ∈ rest, c.clientDst = none ∧ c.isBufferData = false ∧
        ∀ t o l r, c ≠ GLCall.glMapBufferRange t o l .writeInvalidate r) →
      (m.run ([ GLCall.newArray (dataSize s) f.pBuffer,
        GLCall.glReadPixels s.m_RenderImage.width s.m_RenderImage.height f.pBuffer,
        GLCall.deleteArray f.pBuffer,
        GLCall.glBindBuffer .GL_PIXEL_PACK_BUFFER (arrayRead s.m_DownloadPboIds (index s)),
        GLCall.glReadPixels s.m_RenderImage.width s.m_RenderImage.height 0 ] ++ rest)).buffers b
        = m.buffers b := by
    intro rest hrest
    rw [run_append, run_buffers_of_inert _ _ hrest]
    simp only [run]
    rw [step_glReadPixels_buffers _ _ _ _ _ (by
      rw [step_packBinding]; exact hd)]
    show ((m.step (GLCall.newArray (dataSize s) f.pBuffer)).step
      (GLCall.glReadPixels s.m_RenderImage.width s.m_RenderImage.height f.pBuffer)).buffers b
        = m.buffers b
    rw [step_glReadPixels_buffers _ _ _ _ _ (by exact hp)]
    rfl
  unfold DownloadPixels
  dsimp only
  split_ifs <;> simp only [List.append_assoc] <;> apply hhead <;> intro c hc <;>
    simp only [List.mem_append, List.mem_cons, List.mem_singleton, List.not_mem_nil,
      or_false, List.append_nil] at hc
  all_goals
    first
    | (rcases hc with (rfl | rfl | rfl | rfl) | rfl <;>
        exact ⟨rfl, rfl, fun _ _ _ _ h => by cases h⟩)
    | (rcases hc with rfl | rfl | rfl | rfl <;>
        exact ⟨rfl, rfl, fun _ _ _ _ h => by cases h⟩)

end PBOSample
end GLES
namespace GLES
namespace PBOSample
open Machine

/-- After a frame with PBO upload whose mapping succeeds, the data store of
`m_UploadPboIds[nextIndex]` holds the copy of the pixel buffer with the stripe
stored over it. -/
theorem buffers_after_Draw (m : Machine) (f : FrameInput) (s : PBOSample) (b : GLuint)
    (hb0 : b ≠ 0) (hb : arrayRead s.m_UploadPboIds (nextIndex s) = some b)
    (hmap : f.uploadMapResult ≠ 0) (hp : m.packBinding ≠ some b)
    (hd : arrayRead s.m_DownloadPboIds (index s) ≠ some b) :
    ((m.run (Draw true f s).2).buffers b).data
      = writeBytes
          (writeBytes (unspecified (dataSize s)) 0
            (readBytes (m.mem s.m_RenderImage.ppPlane0) 0 (dataSize s)))
          (imul (imul (randomRow s f.randValue) s.m_RenderImage.width) 4)
          (List.replicate (imul (imul s.m_RenderImage.width 4) 5).toNat (some 188)) := by
  simp only [Draw, run_append]
  rw [run_buffers_of_inert _ _ (screenPass_inert f _), buffers_after_DownloadPixels _ _ _ _ _ hd,
    run_buffers_of_inert _ _ (offscreenPass_inert s)]
  · exact buffers_after_UploadPixels _ f s b hb0 hb hmap
  · rw [packBinding_run_offscreenPass, packBinding_run_UploadPixels]
    exact hp

theorem Draw_no_glTexImage2D (c : Bool) (f : FrameInput) (s : PBOSample) :
    ∀ k ∈ (Draw c f s).2, ∀ w hh p, k ≠ GLCall.glTexImage2D w hh p := by
  intro k hk w hh p hkp
  subst hkp
  simp only [Draw, List.mem_append] at hk
  rcases hk with (((hk | hk) | hk) | hk) | hk
  · simp at hk
  · revert hk
    unfold UploadPixels stripe
    split_ifs <;> simp
  · simp [offscreenPass] at hk
  · revert hk
    unfold DownloadPixels
    dsimp only
    split_ifs <;> simp
  · simp [screenPass] at hk

/-- The texture update of a frame with PBO upload gives the image texture the
bytes of the data store of `m_UploadPboIds[index]`. -/
theorem textures_after_Draw (m : Machine) (f : FrameInput) (s : PBOSample) (x : GLuint)
    (hx : x ≠ 0) (hs : arrayRead s.m_UploadPboIds (index s) = some x)
    (hw : (m.textures s.m_ImageTextureId).width = s.m_RenderImage.width)
    (hh : (m.textures s.m_ImageTextureId).height = s.m_RenderImage.height) :
    ((m.run (Draw true f s).2).textures s.m_ImageTextureId).data
      = readBytes (m.buffers x).data 0
          (s.m_RenderImage.width * s.m_RenderImage.height * 4) := by
  have hsplit : (Draw true f s).2 =
      [ GLCall.glViewport 0 0 s.m_RenderImage.width s.m_RenderImage.height,
        GLCall.glBindTexture s.m_ImageTextureId,
        GLCall.glBindBuffer .GL_PIXEL_UNPACK_BUFFER (some x),
        GLCall.glTexSubImage2D s.m_RenderImage.width s.m_RenderImage.height 0 ]
      ++ ([ GLCall.glBindBuffer .GL_PIXEL_UNPACK_BUFFER (arrayRead s.m_UploadPboIds (nextIndex s)),
            GLCall.glBufferData .GL_PIXEL_UNPACK_BUFFER (dataSize s) false,
            GLCall.glMapBufferRange .GL_PIXEL_UNPACK_BUFFER 0 (dataSize s) .writeInvalidate
              f.uploadMapResult ]
          ++ (if f.uploadMapResult ≠ 0 then
                [ GLCall.memcpy f.uploadMapResult s.m_RenderImage.ppPlane0 (dataSize s),
                  stripe s f.uploadMapResult f.randValue,
                  GLCall.glUnmapBuffer .GL_PIXEL_UNPACK_BUFFER ]
              else [])
          ++ [ GLCall.glBindBuffer .GL_PIXEL_UNPACK_BUFFER (some 0) ]
          ++ offscreenPass s ++ (DownloadPixels f s).2 ++ screenPass f (DownloadPixels f s).1) := by
    simp [Draw, UploadPixels, hs]
  rw [hsplit, run_append, run_textures]
  · obtain ⟨k, rfl⟩ := Nat.exists_eq_succ_of_ne_zero hx
    simp [run, step, unpackSource, hw, hh]
  · intro c hc
    simp only [List.mem_append, List.mem_cons, List.mem_singleton, List.not_mem_nil,
      or_false] at hc
    rcases hc with (((((hc | hc) | hc) | hc) | hc) | hc)
    · rcases hc with rfl | rfl | rfl <;> rfl
    · split_ifs at hc
      · simp only [List.mem_cons, List.mem_singleton, List.not_mem_nil, or_false] at hc
        rcases hc with rfl | rfl | rfl <;> rfl
      · simp at hc
    · rw [hc]; rfl
    · simp only [offscreenPass, List.mem_cons, List.mem_singleton, List.not_mem_nil,
        or_false] at hc
      rcases hc with rfl | rfl | rfl | rfl | rfl | rfl | rfl | rfl | rfl <;> rfl
    · revert hc
      unfold DownloadPixels
      dsimp only
      split_ifs <;> simp <;> (intro hc; rcases hc with rfl | rfl | rfl | rfl | rfl | rfl | rfl | rfl | rfl | rfl <;> rfl)
    · simp only [screenPass, List.mem_cons, List.mem_singleton, List.not_mem_nil,
        or_false] at hc
      rcases hc with rfl | rfl | rfl | rfl | rfl | rfl | rfl | rfl | rfl | rfl | rfl <;> rfl

end PBOSample
end GLES
namespace GLES
namespace PBOSample
open Machine

/-- The stripe arithmetic without overflow: for an image of `w` x `h` pixels
with `0 ≤ w`, `5 < h < 2^31`, `w * h * 4 < 2^31` and a non-negative random
value, the random row is `rv % (h - 5)` and the byte size, the offset and the
length of the stripe are the exact products. -/
theorem stripe_arith (w h rv : Int) (hw : 0 ≤ w) (hh5 : 5 < h) (hhr : h < 2147483648)
    (hsz : w * h * 4 < 2147483648) (hrand : 0 ≤ rv) :
    cRem rv (isub h 5) = rv % (h - 5) ∧
    0 ≤ rv % (h - 5) ∧
    rv % (h - 5) + 5 < h ∧
    imul (imul w h) 4 = w * h * 4 ∧
    imul (imul (rv % (h - 5)) w) 4 = rv % (h - 5) * (w * 4) ∧
    imul (imul w 4) 5 = 5 * (w * 4) := by
  have hr : cRem rv (isub h 5) = rv % (h - 5) := by
    unfold isub cRem
    rw [wrapInt32_of_inRange (by omega) (by omega)]
    exact Int.tmod_eq_emod hrand (by omega)
  have hr0 : 0 ≤ rv % (h - 5) := Int.emod_nonneg _ (by omega)
  have hr1 : rv % (h - 5) < h - 5 := Int.emod_lt_of_pos _ (by omega)
  have hwh : 0 ≤ w * h := mul_nonneg hw (by omega)
  have hds : imul (imul w h) 4 = w * h * 4 := imul_imul_four (by omega) hsz
  generalize rv % (h - 5) = r at *
  have hrw : r * w ≤ w * h := by
    rw [mul_comm w h]
    exact mul_le_mul_of_nonneg_right (by omega) hw
  have hrw0 : 0 ≤ r * w := mul_nonneg hr0 hw
  have h5w : 5 * w ≤ w * h := by
    rw [mul_comm w h]
    exact mul_le_mul_of_nonneg_right (by omega) hw
  refine ⟨hr, hr0, by omega, hds, ?_, ?_⟩
  · have e1 : wrapInt32 (r * w) = r * w := wrapInt32_of_inRange (by omega) (by omega)
    unfold imul
    rw [e1, wrapInt32_of_inRange (by omega) (by omega)]
    ring
  · have e1 : wrapInt32 (w * 4) = w * 4 := wrapInt32_of_inRange (by omega) (by omega)
    unfold imul
    rw [e1, wrapInt32_of_inRange (by omega) (by omega)]
    ring

/-- The bytes of the staging buffer after the copy and the stripe, read as
texels, are the bytes the claim describes. -/
theorem readBytes_stripe_expected (P : Bytes) (w h r : Int) (hw : 0 ≤ w) (hr : 0 ≤ r) :
    readBytes (writeBytes (writeBytes (unspecified (w * h * 4)) 0 (readBytes P 0 (w * h * 4)))
        (r * (w * 4)) (List.replicate (5 * (w * 4)).toNat (some 188))) 0 (w * h * 4)
      = expectedTexture P w h r := by
  have hoff : 0 ≤ r * (w * 4) := mul_nonneg hr (by omega)
  rw [readBytes_stripe P _ _ _ hoff]
  unfold expectedTexture
  apply List.map_congr_left
  intro k _
  have e : (r + 5) * (w * 4) = r * (w * 4) + 5 * (w * 4) := by ring
  rw [e]
  generalize r * (w * 4) = A at *
  have : (A.toNat ≤ k ∧ k < A.toNat + (5 * (w * 4)).toNat) ↔
      (A ≤ (k : Int) ∧ (k : Int) < A + 5 * (w * 4)) := by omega
  simp only [this]

end PBOSample
end GLES
namespace GLES
namespace PBOSample
open Machine

theorem runFrames_imageTextureId (c : Bool) (fs : List FrameInput) (s : PBOSample) :
    (runFrames c fs s).1.m_ImageTextureId = s.m_ImageTextureId := by
  induction fs generalizing s with
  | nil => rfl
  | cons f fs ih =>
    simp only [runFrames]
    rw [ih, Draw_fst]

theorem Draw_imageTextureId (c : Bool) (f : FrameInput) (s : PBOSample) :
    (Draw c f s).1.m_ImageTextureId = s.m_ImageTextureId := by
  rw [Draw_fst]

/-- A texture update of a frame with PBO upload whose `index` lies outside
`m_UploadPboIds` leaves the image texture without any specified byte. -/
theorem textures_after_Draw_of_indeterminate (m : Machine) (f : FrameInput) (s : PBOSample)
    (hs : arrayRead s.m_UploadPboIds (index s) = none) :
    ∀ y ∈ ((m.run (Draw true f s).2).textures s.m_ImageTextureId).data, y = none := by
  have hsplit : (Draw true f s).2 =
      [ GLCall.glViewport 0 0 s.m_RenderImage.width s.m_RenderImage.height,
        GLCall.glBindTexture s.m_ImageTextureId,
        GLCall.glBindBuffer .GL_PIXEL_UNPACK_BUFFER none,
        GLCall.glTexSubImage2D s.m_RenderImage.width s.m_RenderImage.height 0 ]
      ++ ([ GLCall.glBindBuffer .GL_PIXEL_UNPACK_BUFFER (arrayRead s.m_UploadPboIds (nextIndex s)),
            GLCall.glBufferData .GL_PIXEL_UNPACK_BUFFER (dataSize s) false,
            GLCall.glMapBufferRange .GL_PIXEL_UNPACK_BUFFER 0 (dataSize s) .writeInvalidate
              f.uploadMapResult ]
          ++ (if f.uploadMapResult ≠ 0 then
                [ GLCall.memcpy f.uploadMapResult s.m_RenderImage.ppPlane0 (dataSize s),
                  stripe s f.uploadMapResult f.randValue,
                  GLCall.glUnmapBuffer .GL_PIXEL_UNPACK_BUFFER ]
              else [])
          ++ [ GLCall.glBindBuffer .GL_PIXEL_UNPACK_BUFFER (some 0) ]
          ++ offscreenPass s ++ (DownloadPixels f s).2 ++ screenPass f (DownloadPixels f s).1) := by
    simp [Draw, UploadPixels, hs]
  rw [hsplit, run_append, run_textures]
  · simp only [run, step, unpackSource, Function.update_same]
    intro y hy
    split_ifs at hy <;> exact List.eq_of_mem_replicate hy
  · intro c hc
    simp only [List.mem_append, List.mem_cons, List.mem_singleton, List.not_mem_nil,
      or_false] at hc
    rcases hc with (((((hc | hc) | hc) | hc) | hc) | hc)
    · rcases hc with rfl | rfl | rfl <;> rfl
    · split_ifs at hc
      · simp only [List.mem_cons, List.mem_singleton, List.not_mem_nil, or_false] at hc
        rcases hc with rfl | rfl | rfl <;> rfl
      · simp at hc
    · rw [hc]; rfl
    · simp only [offscreenPass, List.mem_cons, List.mem_singleton, List.not_mem_nil,
        or_false] at hc
      rcases hc with rfl | rfl | rfl | rfl | rfl | rfl | rfl | rfl | rfl <;> rfl
    · revert hc
      unfold DownloadPixels
      dsimp only
      split_ifs <;> simp <;> (intro hc; rcases hc with rfl | rfl | rfl | rfl | rfl | rfl | rfl | rfl | rfl | rfl <;> rfl)
    · simp only [screenPass, List.mem_cons, List.mem_singleton, List.not_mem_nil,
        or_false] at hc
      rcases hc with rfl | rfl | rfl | rfl | rfl | rfl | rfl | rfl | rfl | rfl | rfl <;> rfl

/-- C16, counterexample: frame 2^31 of the example sample (1 x 7 image, counter
wrapped to -2^31) maps buffer 6 successfully and stores the image with its
stripe there, but the sub-update of frame 2^31 + 1 (`index = -1`) has an
indeterminate source: the image texture 1 receives no specified byte, whereas
rows 1..5 of the contents the claim describes are 188. -/
theorem C16_counterexample :
    exampleFrame.uploadMapResult ≠ 0 ∧
    uploadLongRun.1.m_RenderImage.width = 1 ∧
    uploadLongRun.1.m_RenderImage.height = 7 ∧
    uploadLongRun.1.m_ImageTextureId = 1 ∧
    observe (obsMapAttempt .GL_PIXEL_UNPACK_BUFFER)
      ((Machine.initial exampleMem).run (exampleSample.2 ++ uploadLongRun.2))
      (Draw true exampleFrame uploadLongRun.1).2 = [some 6] ∧
    ∀ P : Bytes,
      ((((Machine.initial exampleMem).run (exampleSample.2 ++ uploadLongRun.2)).run
        ((Draw true exampleFrame uploadLongRun.1).2
          ++ (Draw true exampleFrame (Draw true exampleFrame uploadLongRun.1).1).2)).textures
            1).data
        ≠ expectedTexture P 1 7 (exampleFrame.randValue % (7 - 5)) := by
  have hn : nextIndex uploadLongRun.1 = 1 := by
    show cRem (cRem _ 2 + 1) 2 = 1
    rw [uploadLongRun_frameIndex]; decide
  have hi : index (Draw true exampleFrame uploadLongRun.1).1 = -1 := by
    show cRem _ 2 = -1
    rw [Draw_frameIndex, uploadLongRun_frameIndex]; decide
  have ht : uploadLongRun.1.m_ImageTextureId = 1 := by
    unfold uploadLongRun
    rw [runFrames_imageTextureId]; decide
  refine ⟨by decide, by rw [uploadLongRun_renderImage]; decide,
    by rw [uploadLongRun_renderImage]; decide, ht, ?_, ?_⟩
  · rw [observe_mapUnpack_Draw, hn, uploadLongRun_uploadPboIds]; decide
  · intro P hP
    have hnone := textures_after_Draw_of_indeterminate
      (((Machine.initial exampleMem).run (exampleSample.2 ++ uploadLongRun.2)).run
        (Draw true exampleFrame uploadLongRun.1).2)
      exampleFrame (Draw true exampleFrame uploadLongRun.1).1
      (by rw [hi, Draw_uploadPboIds, uploadLongRun_uploadPboIds]; decide)
    rw [Draw_imageTextureId, ht, ← run_append, hP] at hnone
    have h188 : some 188 ∈ expectedTexture P 1 7 (exampleFrame.randValue % (7 - 5)) := by
      unfold expectedTexture
      rw [List.mem_map]
      exact ⟨4, by decide, if_pos (by decide)⟩
    exact absurd (hnone _ h188) (by decide)

end PBOSample
end GLES
namespace GLES
namespace PBOSample
open Machine

/-- C16, amended: in the PBO upload path, for a frame N with counter in
`[0, 2^31)` whose mapping succeeds, an image of `w` x `h` pixels with `0 ≤ w`,
`5 < h < 2^31` and `w * h * 4 < 2^31`, a non-negative `rand()` value, a
non-zero buffer `m_UploadPboIds[nextIndex]` that is neither bound to the pack
target nor the download buffer of the frame, and an image texture of the size
of the image: the contents the image texture has after the sub-update of frame
N + 1 are the pixel bytes with the five rows from row `rand() % (h - 5)` on
set to 188, and these rows lie inside the image. -/
theorem C16_texture_of_next_frame (m : Machine) (f f' : FrameInput) (s : PBOSample)
    (b : GLuint)
    (hc0 : 0 ≤ s.m_FrameIndex) (hc1 : s.m_FrameIndex < 2147483648)
    (hw : 0 ≤ s.m_RenderImage.width) (hh5 : 5 < s.m_RenderImage.height)
    (hhr : s.m_RenderImage.height < 2147483648)
    (hsz : s.m_RenderImage.width * s.m_RenderImage.height * 4 < 2147483648)
    (hrand : 0 ≤ f.randValue)
    (hb : arrayRead s.m_UploadPboIds (nextIndex s) = some b) (hb0 : b ≠ 0)
    (hmap : f.uploadMapResult ≠ 0)
    (hp : m.packBinding ≠ some b)
    (hd : arrayRead s.m_DownloadPboIds (index s) ≠ some b)
    (htw : (m.textures s.m_ImageTextureId).width = s.m_RenderImage.width)
    (hth : (m.textures s.m_ImageTextureId).height = s.m_RenderImage.height) :
    ((m.run ((Draw true f s).2 ++ (Draw true f' (Draw true f s).1).2)).textures
        s.m_ImageTextureId).data
      = expectedTexture (m.mem s.m_RenderImage.ppPlane0) s.m_RenderImage.width
          s.m_RenderImage.height (f.randValue % (s.m_RenderImage.height - 5)) ∧
    0 ≤ f.randValue % (s.m_RenderImage.height - 5) ∧
    f.randValue % (s.m_RenderImage.height - 5) + 5 < s.m_RenderImage.height := by
  obtain ⟨a1, a2, a3, a4, a5, a6⟩ :=
    stripe_arith s.m_RenderImage.width s.m_RenderImage.height f.randValue hw hh5 hhr hsz hrand
  refine ⟨?_, a2, a3⟩
  have hidx := (index_Draw_of_nonneg true f hc0 hc1).1
  have hdims := run_tex_dims (Draw true f s).2 m s.m_ImageTextureId (Draw_no_glTexImage2D true f s)
  have ht := textures_after_Draw (m.run (Draw true f s).2) f' (Draw true f s).1 b hb0
    (by rw [Draw_uploadPboIds, hidx]; exact hb)
    (by rw [Draw_imageTextureId, Draw_renderImage, hdims.1]; exact htw)
    (by rw [Draw_imageTextureId, Draw_renderImage, hdims.2]; exact hth)
  rw [Draw_imageTextureId, Draw_renderImage] at ht
  rw [run_append, ht, buffers_after_Draw m f s b hb0 hb hmap hp hd]
  unfold randomRow dataSize
  rw [a1, a4, a5, a6]
  exact readBytes_stripe_expected _ _ _ _ hw a2

/-- C16, witness: frames 0 and 1 of the example sample (1 x 7 image,
`rand()` = 7, row 1), the staging buffer 6. -/
theorem C16_texture_of_next_frame_witness :
    (0 ≤ exampleSample.1.m_FrameIndex ∧ exampleSample.1.m_FrameIndex < 2147483648 ∧
      0 ≤ exampleSample.1.m_RenderImage.width ∧ 5 < exampleSample.1.m_RenderImage.height ∧
      exampleSample.1.m_RenderImage.height < 2147483648 ∧
      exampleSample.1.m_RenderImage.width * exampleSample.1.m_RenderImage.height * 4
        < 2147483648 ∧
      0 ≤ exampleFrame.randValue ∧
      arrayRead exampleSample.1.m_UploadPboIds (nextIndex exampleSample.1) = some 6 ∧
      (6 : GLuint) ≠ 0 ∧ exampleFrame.uploadMapResult ≠ 0 ∧
      ((Machine.initial exampleMem).run exampleSample.2).packBinding ≠ some 6 ∧
      arrayRead exampleSample.1.m_DownloadPboIds (index exampleSample.1) ≠ some 6 ∧
      (((Machine.initial exampleMem).run exampleSample.2).textures
        exampleSample.1.m_ImageTextureId).width = exampleSample.1.m_RenderImage.width ∧
      (((Machine.initial exampleMem).run exampleSample.2).textures
        exampleSample.1.m_ImageTextureId).height = exampleSample.1.m_RenderImage.height) ∧
    ((((Machine.initial exampleMem).run exampleSample.2).run
        ((Draw true exampleFrame exampleSample.1).2
          ++ (Draw true exampleFrame (Draw true exampleFrame exampleSample.1).1).2)).textures
        exampleSample.1.m_ImageTextureId).data
      = expectedTexture
          (((Machine.initial exampleMem).run exampleSample.2).mem
            exampleSample.1.m_RenderImage.ppPlane0)
          exampleSample.1.m_RenderImage.width exampleSample.1.m_RenderImage.height
          (exampleFrame.randValue % (exampleSample.1.m_RenderImage.height - 5)) ∧
    0 ≤ exampleFrame.randValue % (exampleSample.1.m_RenderImage.height - 5) ∧
    exampleFrame.randValue % (exampleSample.1.m_RenderImage.height - 5) + 5
      < exampleSample.1.m_RenderImage.height :=
  ⟨by decide,
    C16_texture_of_next_frame ((Machine.initial exampleMem).run exampleSample.2) exampleFrame
      exampleFrame exampleSample.1 6 (by decide) (by decide) (by decide) (by decide) (by decide)
      (by decide) (by decide) (by decide) (by decide) (by decide) (by decide) (by decide)
      (by decide) (by decide)⟩

end PBOSample
end GLES

/-! ## C17 : the download path after Destroy and Init -/

namespace GLES
namespace PBOSample
open Machine

theorem Destroy_downloadImages (s : PBOSample) :
    (Destroy s).1.m_DownloadImages = s.m_DownloadImages := by
  unfold Destroy
  dsimp only
  split_ifs <;> rfl

theorem Destroy_frameIndex (s : PBOSample) :
    (Destroy s).1.m_FrameIndex = s.m_FrameIndex := by
  unfold Destroy
  dsimp only
  split_ifs <;> rfl

/-- C17: `Destroy` followed by `Init` keeps `m_DownloadImages` and
`m_FrameIndex` of any sample.  For the example sample after two frames:
`Destroy` deletes the download buffers 7 and 8 and `Init` creates the buffers
17 and 18, but both slots still hold the pointer 32768 cached before
`Destroy`; in the next two frames, in which each slot is `nextIndex` once,
`DownloadPixels` maps no buffer and passes the image with the old pointer to
`DumpNativeImage`, whereas on a sample initialised for the first time with
the same results the two frames map the buffers 18 and 17. -/
theorem C17_reinit_reuses_cached_pointers :
    (∀ (i : InitInput) (s : PBOSample),
      (Init i (Destroy s).1).1.m_DownloadImages = s.m_DownloadImages ∧
      (Init i (Destroy s).1).1.m_FrameIndex = s.m_FrameIndex) ∧
    GLCall.glDeleteBuffers [7, 8] ∈ reinitSample.2 ∧
    GLCall.glGenBuffers [17, 18] ∈ reinitSample.2 ∧
    reinitSample.1.m_DownloadPboIds = [17, 18] ∧
    reinitSample.1.m_DownloadImages.map (fun img => img.ppPlane0) = [32768, 32768] ∧
    [nextIndex reinitSample.1, nextIndex (Draw false exampleFrame reinitSample.1).1] = [1, 0] ∧
    observe (obsMapAttempt .GL_PIXEL_PACK_BUFFER)
      ((Machine.initial exampleMem).run (exampleSample.2 ++ usedSample.2 ++ reinitSample.2))
      (runFrames false [exampleFrame, exampleFrame] reinitSample.1).2 = [] ∧
    GLCall.DumpNativeImage { exampleImage with ppPlane0 := 32768 } 1
      ∈ (Draw false exampleFrame reinitSample.1).2 ∧
    observe (obsMapAttempt .GL_PIXEL_PACK_BUFFER) (Machine.initial exampleMem)
      ((Init reinitInput loadedSample).2
        ++ (runFrames false [exampleFrame, exampleFrame] (Init reinitInput loadedSample).1).2)
      = [some 18, some 17] := by
  refine ⟨fun i s => ⟨?_, ?_⟩, by decide, by decide, by decide, by decide, by decide,
    by decide!, by decide, by decide!⟩
  · rw [Init_downloadImages, Destroy_downloadImages]
  · rw [Init_frameIndex, Destroy_frameIndex]

end PBOSample
end GLES

/-! ## C18 : accesses to m_RenderImage and m_Lock in BigEyesSample -/

namespace GLES
namespace BigEyesSample

/-- C18: `LoadImage` and the texture-creation branch of `Draw` access
`m_RenderImage` only while `m_Lock` is held, but the rendering branch of
`Draw` (program and texture present) reads `m_RenderImage.width` and
`m_RenderImage.height` for the uniform `u_ImgSize` without ever acquiring
`m_Lock`: its operations contain the two reads and no acquisition. -/
theorem C18_unlocked_read_in_Draw :
    (∀ (img : NativeImage) (plane : Ptr) (s : BigEyesSample),
      accessesUnderLock false (LoadImage (some img) plane s).2 = true) ∧
    (∀ (w h : Int) (g : GLuint) (s : BigEyesSample),
      s.m_TextureId = GL_NONE → accessesUnderLock false (Draw w h g s).2 = true) ∧
    (∀ (w h : Int) (g : GLuint) (s : BigEyesSample),
      s.m_ProgramObj ≠ GL_NONE → s.m_TextureId ≠ GL_NONE →
        accessesUnderLock false (Draw w h g s).2 = false ∧
        EyesOp.acquire ∉ (Draw w h g s).2 ∧
        EyesOp.read .width ∈ (Draw w h g s).2 ∧
        EyesOp.read .height ∈ (Draw w h g s).2) ∧
    renderingSample.m_ProgramObj ≠ GL_NONE ∧ renderingSample.m_TextureId ≠ GL_NONE ∧
    accessesUnderLock false (Draw 1080 1920 9 renderingSample).2 = false := by
  refine ⟨fun img plane s => rfl, ?_, ?_, by decide, by decide, by decide⟩
  · intro w h g s ht
    unfold Draw
    split_ifs <;> rfl
  · intro w h g s hp ht
    unfold Draw
    rw [if_neg hp, if_neg ht]
    exact ⟨rfl, by simp, by simp, by simp⟩

end BigEyesSample
end GLES

/-! ## C19 : the angles UpdateMVPMatrix converts to radians -/

namespace GLES
namespace CoordSystemSample

/-- C19: for the angles -90 and -450, which `UpdateTransformMatrix` produces
from a negative rotation, the values `UpdateMVPMatrix` converts to radians
are -90 and -90, outside `[0, 360)`: `%` keeps the sign of the dividend.  For
every `int` the value lies strictly between -360 and 360, it is in
`[0, 360)` exactly when the angle is non-negative or a multiple of 360, and
the function of the same name in `BigEyesSample` computes the same values. -/
theorem C19_negative_angle_stays_negative :
    UpdateMVPMatrix (-90) (-450) = (-90, -90) ∧
    ¬ (0 ≤ (UpdateMVPMatrix (-90) (-450)).1 ∧ (UpdateMVPMatrix (-90) (-450)).1 < 360) ∧
    (∀ angleX angleY : Int,
      -360 < (UpdateMVPMatrix angleX angleY).1 ∧ (UpdateMVPMatrix angleX angleY).1 < 360 ∧
      -360 < (UpdateMVPMatrix angleX angleY).2 ∧ (UpdateMVPMatrix angleX angleY).2 < 360) ∧
    (∀ angleX angleY : Int,
      (0 ≤ (UpdateMVPMatrix angleX angleY).1 ↔ (0 ≤ angleX ∨ angleX % 360 = 0))) ∧
    (∀ angleX angleY : Int,
      BigEyesSample.UpdateMVPMatrix angleX angleY = UpdateMVPMatrix angleX angleY) := by
  have key : ∀ a : Int, -360 < cRem a 360 ∧ cRem a 360 < 360 ∧
      (0 ≤ cRem a 360 ↔ (0 ≤ a ∨ a % 360 = 0)) := by
    intro a
    unfold cRem
    rcases le_or_lt 0 a with h | h
    · rw [Int.tmod_eq_emod h (by decide)]
      omega
    · have hd : a.tdiv 360 = -((-a) / 360) := by
        rw [← Int.tdiv_eq_ediv (by omega) (by decide), Int.neg_tdiv, neg_neg]
      have h1 : Int.tmod a 360 = a + 360 * ((-a) / 360) := by
        rw [Int.tmod_def, hd]; ring
      rw [h1]
      omega
  refine ⟨by decide, by decide, fun x y => ?_, fun x y => ?_, fun x y => rfl⟩
  · exact ⟨(key x).1, (key x).2.1, (key y).1, (key y).2.1⟩
  · exact (key x).2.2

end CoordSystemSample
end GLES

/-! ## C20 : the value passed as u_ScaleRatio -/

namespace GLES
namespace BigEyesSample

/-- In the rendering branch `Draw` passes `scaleRatio` of the incremented
counter as `u_ScaleRatio`, once. -/
theorem floatsSet_Draw (w h : Int) (g : GLuint) (s : BigEyesSample)
    (hp : s.m_ProgramObj ≠ GL_NONE) (ht : s.m_TextureId ≠ GL_NONE) :
    floatsSet .u_ScaleRatio (Draw w h g s).2 = [scaleRatio (wrapInt32 (s.m_FrameIndex + 1))] := by
  unfold Draw
  rw [if_neg hp, if_neg ht]
  rfl

/-- A rendering frame changes nothing but the counter. -/
theorem Draw_fst_rendering (w h : Int) (g : GLuint) (s : BigEyesSample)
    (hp : s.m_ProgramObj ≠ GL_NONE) (ht : s.m_TextureId ≠ GL_NONE) :
    (Draw w h g s).1 = { s with m_FrameIndex := wrapInt32 (s.m_FrameIndex + 1) } := by
  unfold Draw
  rw [if_neg hp, if_neg ht]

/-- The counter after `n` rendering frames, as long as it stays in the `int`
range. -/
theorem iterate_Draw_rendering (w h : Int) (g : GLuint) (n : Nat) (s : BigEyesSample)
    (hp : s.m_ProgramObj ≠ GL_NONE) (ht : s.m_TextureId ≠ GL_NONE)
    (h0 : -2147483648 ≤ s.m_FrameIndex) (h1 : s.m_FrameIndex + n < 2147483648) :
    Nat.iterate (fun s => (Draw w h g s).1) n s
      = { s with m_FrameIndex := s.m_FrameIndex + n } := by
  induction n generalizing s with
  | zero => simp
  | succ n ih =>
    rw [Function.iterate_succ_apply, Draw_fst_rendering w h g s hp ht,
      wrapInt32_of_inRange (by omega) (by push_cast at h1; omega)]
    have h2 : s.m_FrameIndex + 1 + (n : Int) < 2147483648 := by push_cast at h1; omega
    rw [ih { s with m_FrameIndex := s.m_FrameIndex + 1 } hp ht (by show _ ≤ s.m_FrameIndex + 1; omega) h2]
    have e : s.m_FrameIndex + 1 + (n : Int) = s.m_FrameIndex + ((n + 1 : Nat) : Int) := by
      push_cast; ring
    rw [e]

/-- The values of `offset` on the first two hundred counters: the counter over
100 on the way up, and 2 minus that on the way down. -/
theorem offset_first_cycle (k : Int) (h0 : 0 ≤ k) (h1 : k < 200) :
    offset k = if k < 100 then (k : ℚ) / 100 else 2 - (k : ℚ) / 100 := by
  unfold offset cRem cDiv
  rw [Int.tmod_eq_emod h0 (by decide), Int.tdiv_eq_ediv h0 (by decide)]
  by_cases hk : k < 100
  · have e1 : k % 100 = k := by omega
    have e2 : k / 100 = 0 := by omega
    rw [e1, e2, if_pos hk]
    simp
  · have e1 : k % 100 = k - 100 := by omega
    have e2 : k / 100 = 1 := by omega
    rw [e1, e2, if_neg hk]
    have e3 : Int.tmod 1 2 = 1 := by decide
    rw [if_pos e3]
    push_cast
    ring

/-- C20: the 100th rendering frame (`m_FrameIndex` 99 before the call, 100
after the increment) has `offset = 1` and passes `8/5`, that is 1.6, as
`u_ScaleRatio`, above the range `[0, 1]` the shader documents; the state is
the one reached by 99 rendering frames from `m_FrameIndex = 0`.  The value
passed is above 1 in every frame whose incremented counter is between 63 and
137. -/
theorem C20_scale_ratio_above_one :
    Nat.iterate (fun s => (Draw 1080 1920 9 s).1) 99 { renderingSample with m_FrameIndex := 0 }
      = renderingSample ∧
    offset 100 = 1 ∧
    floatsSet .u_ScaleRatio (Draw 1080 1920 9 renderingSample).2 = [8 / 5] ∧
    ¬ ((8 : ℚ) / 5 ≤ 1) ∧
    (∀ k : Int, 63 ≤ k → k ≤ 137 → 1 < scaleRatio k) := by
  have ho : offset 100 = 1 := by
    rw [offset_first_cycle 100 (by decide) (by decide)]
    norm_num
  refine ⟨?_, ho, ?_, by norm_num, ?_⟩
  · rw [iterate_Draw_rendering 1080 1920 9 99 _ (by decide) (by decide) (by decide) (by decide)]
    rfl
  · rw [floatsSet_Draw 1080 1920 9 renderingSample (by decide) (by decide)]
    have e : wrapInt32 (renderingSample.m_FrameIndex + 1) = 100 := by decide
    rw [e]
    unfold scaleRatio
    rw [ho]
    norm_num
  · intro k h1 h2
    unfold scaleRatio
    rw [offset_first_cycle k (by omega) (by omega)]
    have hk1 : (63 : ℚ) ≤ k := by exact_mod_cast h1
    have hk2 : (k : ℚ) ≤ 137 := by exact_mod_cast h2
    split_ifs <;> linarith

end BigEyesSample
end GLES

/-! ## C21 : the animation progress of `BigEyesSample::Draw` -/

namespace GLES

/-- Values of `roundBinary`: the `float` and the `double` nearest to 1/100,
the `double` nearest to 1/5, the `float` nearest to -1/3, numbers that are
`float`s already, and two ties between neighbouring `float`s, which go to the
even significand. -/
theorem roundBinary_values :
    roundBinary 24 (1 / 100) = 5368709 / 536870912 ∧
    roundBinary 53 (1 / 100) = 5764607523034235 / 576460752303423488 ∧
    roundBinary 53 (1 / 5) = 3602879701896397 / 18014398509481984 ∧
    roundBinary 24 (-(1 / 3)) = -(11184811 / 33554432) ∧
    roundBinary 24 100 = 100 ∧ roundBinary 24 (3 / 4) = 3 / 4 ∧
    roundBinary 24 16777217 = 16777216 ∧ roundBinary 24 16777219 = 16777220 := by
  decide!

namespace BigEyesSample

/-- For a non-negative counter `offset` is computed from the remainder and the
parity of the quotient by 100. -/
theorem offset_of_nonneg (f : Int) (h0 : 0 ≤ f) :
    offset f = if (f / 100) % 2 = 1 then 1 - ((f % 100 : Int) : ℚ) / 100
      else ((f % 100 : Int) : ℚ) / 100 := by
  unfold offset cRem cDiv
  rw [Int.tmod_eq_emod h0 (by decide), Int.tdiv_eq_ediv h0 (by decide),
    Int.tmod_eq_emod (by omega) (by decide)]
  simp only [mul_one]

theorem offsetFloat_of_nonneg (f : Int) (h0 : 0 ≤ f) :
    offsetFloat f =
      if (f / 100) % 2 = 1 then
        roundBinary 24 (roundBinary 24 1 - roundBinary 24
          (roundBinary 24 (roundBinary 24 ((f % 100 : Int) : ℚ) * 1) / roundBinary 24 100))
      else
        roundBinary 24
          (roundBinary 24 (roundBinary 24 ((f % 100 : Int) : ℚ) * 1) / roundBinary 24 100) := by
  unfold offsetFloat cRem cDiv
  rw [Int.tmod_eq_emod h0 (by decide), Int.tdiv_eq_ediv h0 (by decide),
    Int.tmod_eq_emod (by omega) (by decide)]

/-- Both forms of the progress depend on the counter modulo 200 only. -/
theorem offsetFloat_mod (f : Int) (h0 : 0 ≤ f) : offsetFloat f = offsetFloat (f % 200) := by
  rw [offsetFloat_of_nonneg f h0, offsetFloat_of_nonneg (f % 200) (by omega)]
  have e1 : f % 200 % 100 = f % 100 := by omega
  have e2 : f % 200 / 100 % 2 = f / 100 % 2 := by omega
  rw [e1, e2]

theorem offset_mod (f : Int) (h0 : 0 ≤ f) : offset f = offset (f % 200) := by
  rw [offset_of_nonneg f h0, offset_of_nonneg (f % 200) (by omega)]
  have e1 : f % 200 % 100 = f % 100 := by omega
  have e2 : f % 200 / 100 % 2 = f / 100 % 2 := by omega
  rw [e1, e2]

/-- The `float` progress on the counters 0 .. 199, evaluated: the conversions
and the product with `1.0f` are exact, the value lies in `[0, 1]`, the next
value differs by 1/100 up to `2 ^ -24` but never by exactly 1/100, and the
value differs from the exact triangle wave by at most `2 ^ -24`. -/
theorem offsetFloat_checked :
    ∀ k ∈ List.range 200,
      (offsetFloat (k : Int) =
        if ((k : Int) / 100) % 2 = 1 then
          roundBinary 24 (1 - roundBinary 24 ((((k : Int) % 100 : Int) : ℚ) / 100))
        else roundBinary 24 ((((k : Int) % 100 : Int) : ℚ) / 100)) ∧
      0 ≤ offsetFloat (k : Int) ∧ offsetFloat (k : Int) ≤ 1 ∧
      1 / 100 - 1 / 2 ^ 24 ≤ |offsetFloat ((k : Int) + 1) - offsetFloat (k : Int)| ∧
      |offsetFloat ((k : Int) + 1) - offsetFloat (k : Int)| ≤ 1 / 100 + 1 / 2 ^ 24 ∧
      |offsetFloat ((k : Int) + 1) - offsetFloat (k : Int)| ≠ 1 / 100 ∧
      |offsetFloat (k : Int) - offset (k : Int)| ≤ 1 / 2 ^ 24 := by
  decide!

end BigEyesSample
end GLES

namespace GLES
namespace BigEyesSample

/-- [C21] counterexample: the progress is a `float`.  Between the counters 0
and 1 it changes by 5368709/536870912, the `float` nearest to 1/100, not by
1/100; and between no two consecutive counters of a period does it change by
exactly 1/100. -/
theorem C21_counterexample :
    |offsetFloat (0 + 1) - offsetFloat 0| = 5368709 / 536870912 ∧
    |offsetFloat (0 + 1) - offsetFloat 0| ≠ 1 / 100 ∧
    ∀ k ∈ List.range 200, |offsetFloat ((k : Int) + 1) - offsetFloat (k : Int)| ≠ 1 / 100 :=
  ⟨by decide!, by decide!, fun k hk => (offsetFloat_checked k hk).2.2.2.2.2.1⟩

/-- [C21] amended: for every frame index `f ≥ 0` the animation progress is the
`float` nearest to `(f % 100)/100` when `f / 100` is even and the `float`
nearest to 1 minus that `float` when it is odd; it lies in `[0, 1]`, has
period 200, differs between consecutive frame indices by 1/100 up to
`2 ^ -24`, turning points included, and differs by at most `2 ^ -24` from the
exact triangle wave, which is `(f % 100)/100` for even and
`1 - (f % 100)/100` for odd `f / 100`. -/
theorem C21_offset_triangle_wave (f : Int) (h0 : 0 ≤ f) :
    ((f / 100) % 2 = 0 → offsetFloat f = roundBinary 24 (((f % 100 : Int) : ℚ) / 100)) ∧
    ((f / 100) % 2 = 1 →
      offsetFloat f = roundBinary 24 (1 - roundBinary 24 (((f % 100 : Int) : ℚ) / 100))) ∧
    0 ≤ offsetFloat f ∧ offsetFloat f ≤ 1 ∧
    offsetFloat (f + 200) = offsetFloat f ∧
    1 / 100 - 1 / 2 ^ 24 ≤ |offsetFloat (f + 1) - offsetFloat f| ∧
    |offsetFloat (f + 1) - offsetFloat f| ≤ 1 / 100 + 1 / 2 ^ 24 ∧
    |offsetFloat f - offset f| ≤ 1 / 2 ^ 24 ∧
    ((f / 100) % 2 = 0 → offset f = ((f % 100 : Int) : ℚ) / 100) ∧
    ((f / 100) % 2 = 1 → offset f = 1 - ((f % 100 : Int) : ℚ) / 100) := by
  have hr0 : 0 ≤ f % 200 := by omega
  have hk : (f % 200).toNat ∈ List.range 200 := by
    rw [List.mem_range]; omega
  have hc := offsetFloat_checked (f % 200).toNat hk
  rw [Int.toNat_of_nonneg hr0] at hc
  obtain ⟨c1, c2, c3, c4, c5, _, c7⟩ := hc
  have e1 : f % 200 % 100 = f % 100 := by omega
  have e2 : f % 200 / 100 % 2 = f / 100 % 2 := by omega
  rw [e1, e2] at c1
  have hm := offsetFloat_mod f h0
  have hm1 : offsetFloat (f + 1) = offsetFloat (f % 200 + 1) := by
    rw [offsetFloat_mod (f + 1) (by omega), offsetFloat_mod (f % 200 + 1) (by omega)]
    congr 1
    omega
  have hm2 : offsetFloat (f + 200) = offsetFloat f := by
    rw [offsetFloat_mod (f + 200) (by omega), hm]
    congr 1
    omega
  have ho := offset_of_nonneg f h0
  rw [hm1, hm, offset_mod f h0]
  refine ⟨?_, ?_, c2, c3, ?_, c4, c5, c7, ?_, ?_⟩
  · intro he
    rw [c1, if_neg (by omega)]
  · intro hodd
    rw [c1, if_pos hodd]
  · rw [← hm]; exact hm2
  · intro he
    rw [← offset_mod f h0, ho, if_neg (by omega)]
  · intro hodd
    rw [← offset_mod f h0, ho, if_pos hodd]

/-- [C21] witness: the turning point `f = 199` (odd hundred, remainder 99):
the progress is 41943/4194304 there and 0 at 200. -/
theorem C21_offset_triangle_wave_witness :
    (0 : Int) ≤ 199 ∧
    offsetFloat 199 = roundBinary 24 (1 - roundBinary 24 ((((199 : Int) % 100 : Int) : ℚ) / 100)) ∧
    offsetFloat 199 = 41943 / 4194304 ∧
    offsetFloat (199 + 200) = offsetFloat 199 ∧
    |offsetFloat (199 + 1) - offsetFloat 199| ≤ 1 / 100 + 1 / 2 ^ 24 :=
  ⟨by decide, (C21_offset_triangle_wave 199 (by decide)).2.1 (by decide), by decide!,
    (C21_offset_triangle_wave 199 (by decide)).2.2.2.2.1,
    (C21_offset_triangle_wave 199 (by decide)).2.2.2.2.2.2.1⟩

end BigEyesSample
end GLES

/-! ## C22 : the range of the stretch offset -/

namespace GLES
namespace FBOLegLengthenSample

theorem runInits_add (prec a b : Nat) (s : FBOLegLengthenSample) :
    runInits prec (a + b) s = runInits prec b (runInits prec a s) := by
  induction a generalizing s with
  | zero => simp [runInits]
  | succ a ih =>
    rw [Nat.succ_add]
    exact ih (Init prec s)

theorem runInits_succ (prec n : Nat) (s : FBOLegLengthenSample) :
    runInits prec (n + 1) s = Init prec (runInits prec n s) := by
  rw [runInits_add]; rfl

/-- The first `N` samples of a run are listed by `orbit`. -/
theorem runInits_mem_orbit (prec : Nat) (N n : Nat) (s : FBOLegLengthenSample) (h : n < N) :
    runInits prec n s ∈ orbit prec N s := by
  induction N generalizing n s with
  | zero => omega
  | succ N ih =>
    cases n with
    | zero => simp [orbit, runInits]
    | succ n =>
      simp only [orbit, runInits, List.mem_cons]
      exact Or.inr (ih n (Init prec s) (by omega))

/-- With `m_dt` a `float`, the sample after 87 calls of `Init` is the sample
after 7 calls. -/
theorem period_float : runInits 24 87 ctor = runInits 24 7 ctor := by decide!

/-- With `m_dt` a `double`, the sample after 87 calls of `Init` is the sample
after 7 calls. -/
theorem period_double : runInits 53 87 ctor = runInits 53 7 ctor := by decide!

/-- From the 7th call on the run repeats every 80 calls. -/
theorem runInits_periodic (prec : Nat) (hper : runInits prec 87 ctor = runInits prec 7 ctor)
    (n : Nat) (hn : 7 ≤ n) : runInits prec (n + 80) ctor = runInits prec n ctor := by
  obtain ⟨j, rfl⟩ : ∃ j, n = 7 + j := ⟨n - 7, by omega⟩
  rw [show 7 + j + 80 = 87 + j by omega, runInits_add, hper, ← runInits_add]

/-- Every sample of the run is one of the first 87. -/
theorem runInits_mem_orbit_of_periodic (prec : Nat)
    (hper : runInits prec 87 ctor = runInits prec 7 ctor) (n : Nat) :
    runInits prec n ctor ∈ orbit prec 87 ctor := by
  induction n using Nat.strong_induction_on with
  | _ n ih =>
    by_cases h : n < 87
    · exact runInits_mem_orbit prec 87 n ctor h
    · have e : runInits prec n ctor = runInits prec (n - 80) ctor := by
        have := runInits_periodic prec hper (n - 80) (by omega)
        rw [show n - 80 + 80 = n by omega] at this
        exact this
      rw [e]
      exact ih (n - 80) (by omega)

end FBOLegLengthenSample
end GLES

namespace GLES
namespace FBOLegLengthenSample

/-- The bound and the step of one sample, with tolerances `2 ^ -prec` for the
bound and `2 ^ -(prec + 3)` for the step: `m_dt` lies in
`[-0.2 - 2 ^ -prec, 0.2 + 2 ^ -prec]`, and the next `Init` moves it by 0.01,
up to the tolerance, upwards when `m_isgo` is true after the direction tests
and downwards when it is false. -/
theorem orbit_float_checked :
    ∀ s ∈ orbit 24 87 ctor,
      -(1 / 5) - 1 / 2 ^ 24 ≤ s.m_dt ∧ s.m_dt ≤ 1 / 5 + 1 / 2 ^ 24 ∧
      (if (Init 24 s).m_isgo then
        s.m_dt + 1 / 100 - 1 / 2 ^ (24 + 3) ≤ (Init 24 s).m_dt ∧
          (Init 24 s).m_dt ≤ s.m_dt + 1 / 100 + 1 / 2 ^ (24 + 3)
      else
        s.m_dt - 1 / 100 - 1 / 2 ^ (24 + 3) ≤ (Init 24 s).m_dt ∧
          (Init 24 s).m_dt ≤ s.m_dt - 1 / 100 + 1 / 2 ^ (24 + 3)) := by
  decide!

theorem orbit_double_checked :
    ∀ s ∈ orbit 53 87 ctor,
      -(1 / 5) - 1 / 2 ^ 53 ≤ s.m_dt ∧ s.m_dt ≤ 1 / 5 + 1 / 2 ^ 53 ∧
      (if (Init 53 s).m_isgo then
        s.m_dt + 1 / 100 - 1 / 2 ^ (53 + 3) ≤ (Init 53 s).m_dt ∧
          (Init 53 s).m_dt ≤ s.m_dt + 1 / 100 + 1 / 2 ^ (53 + 3)
      else
        s.m_dt - 1 / 100 - 1 / 2 ^ (53 + 3) ≤ (Init 53 s).m_dt ∧
          (Init 53 s).m_dt ≤ s.m_dt - 1 / 100 + 1 / 2 ^ (53 + 3)) := by
  decide!

/-- [C22] counterexample: after 20 calls of `Init` on the constructed sample
the floating-point `m_dt` is above 0.2: 13421775/67108864 (0.200000033) when
`m_dt` is a `float`, 7205759403792795/36028797018963968
(0.20000000000000004) when it is a `double`. -/
theorem C22_counterexample :
    (runInits 24 20 ctor).m_dt = 13421775 / 67108864 ∧
    ¬ (runInits 24 20 ctor).m_dt ≤ 1 / 5 ∧
    (runInits 53 20 ctor).m_dt = 7205759403792795 / 36028797018963968 ∧
    ¬ (runInits 53 20 ctor).m_dt ≤ 1 / 5 := by
  decide!

/-- [C22] amended: with `m_dt` a `float` (`prec = 24`) or a `double`
(`prec = 53`), starting from the constructed sample (`m_dt = 0`,
`m_isgo = true`), after any number `n` of `Init` calls `m_dt` lies in
`[-0.2 - 2 ^ -prec, 0.2 + 2 ^ -prec]`; the next `Init` call moves it by 0.01
up to `2 ^ -(prec + 3)`, upwards when `m_isgo` is true after the direction
tests and downwards when it is false; from the 7th call on the run repeats
every 80 calls, and in each period `m_dt` passes 0.2 (after call 20) and -0.2
(after call 60). -/
theorem C22_dt_oscillates (prec : Nat) (hp : prec = 24 ∨ prec = 53) (n : Nat) :
    (-(1 / 5) - 1 / 2 ^ prec ≤ (runInits prec n ctor).m_dt ∧
      (runInits prec n ctor).m_dt ≤ 1 / 5 + 1 / 2 ^ prec) ∧
    (if (runInits prec (n + 1) ctor).m_isgo then
      (runInits prec n ctor).m_dt + 1 / 100 - 1 / 2 ^ (prec + 3)
          ≤ (runInits prec (n + 1) ctor).m_dt ∧
        (runInits prec (n + 1) ctor).m_dt
          ≤ (runInits prec n ctor).m_dt + 1 / 100 + 1 / 2 ^ (prec + 3)
    else
      (runInits prec n ctor).m_dt - 1 / 100 - 1 / 2 ^ (prec + 3)
          ≤ (runInits prec (n + 1) ctor).m_dt ∧
        (runInits prec (n + 1) ctor).m_dt
          ≤ (runInits prec n ctor).m_dt - 1 / 100 + 1 / 2 ^ (prec + 3)) ∧
    (7 ≤ n → runInits prec (n + 80) ctor = runInits prec n ctor) ∧
    1 / 5 < (runInits prec 20 ctor).m_dt ∧
    (runInits prec 60 ctor).m_dt < -(1 / 5) := by
  rcases hp with rfl | rfl
  · have h := orbit_float_checked _ (runInits_mem_orbit_of_periodic 24 period_float n)
    rw [runInits_succ]
    exact ⟨⟨h.1, h.2.1⟩, h.2.2, runInits_periodic 24 period_float n, by decide!, by decide!⟩
  · have h := orbit_double_checked _ (runInits_mem_orbit_of_periodic 53 period_double n)
    rw [runInits_succ]
    exact ⟨⟨h.1, h.2.1⟩, h.2.2, runInits_periodic 53 period_double n, by decide!, by decide!⟩

/-- [C22] witness: `m_dt` a `float`, 20 calls of `Init`. -/
theorem C22_dt_oscillates_witness :
    ((24 : Nat) = 24 ∨ (24 : Nat) = 53) ∧
    (-(1 / 5) - 1 / 2 ^ 24 ≤ (runInits 24 20 ctor).m_dt ∧
      (runInits 24 20 ctor).m_dt ≤ 1 / 5 + 1 / 2 ^ 24) ∧
    (runInits 24 (20 + 1) ctor).m_isgo = false ∧
    (runInits 24 (20 + 80) ctor).m_dt = (runInits 24 20 ctor).m_dt :=
  ⟨Or.inl rfl, (C22_dt_oscillates 24 (Or.inl rfl) 20).1, by decide!,
    congrArg (fun s => s.m_dt) ((C22_dt_oscillates 24 (Or.inl rfl) 20).2.2.1 (by decide))⟩

end FBOLegLengthenSample
end GLES

/-! ## C23 : the four destination rectangles of `BlitTextures` -/

namespace GLES

theorem FBOBlitSample.cDiv_two_of_nonneg {x : Int} (h : 0 ≤ x) : cDiv x 2 = x / 2 :=
  Int.tdiv_eq_ediv h (by decide)

namespace FBOBlitSample

/-- [C23] for a surface of width `w ≥ 0` and height `h ≥ 0`, `BlitTextures`
blits the colour attachments 0, 1, 2, 3, in this order, to the rectangles
`(0,0,w/2,h/2)`, `(w/2,0,w,h/2)`, `(0,h/2,w/2,h)`, `(w/2,h/2,w,h)`; no pixel
lies in two of them, and a pixel lies in one of them exactly when it lies in
`[0,w) x [0,h)`. -/
theorem C23_blit_rectangles_partition (s : FBOBlitSample)
    (hw : 0 ≤ s.m_SurfaceWidth) (hh : 0 ≤ s.m_SurfaceHeight) :
    destinations 0 (BlitTextures s) =
      [ (0, ⟨0, 0, s.m_SurfaceWidth / 2, s.m_SurfaceHeight / 2⟩),
        (1, ⟨s.m_SurfaceWidth / 2, 0, s.m_SurfaceWidth, s.m_SurfaceHeight / 2⟩),
        (2, ⟨0, s.m_SurfaceHeight / 2, s.m_SurfaceWidth / 2, s.m_SurfaceHeight⟩),
        (3, ⟨s.m_SurfaceWidth / 2, s.m_SurfaceHeight / 2, s.m_SurfaceWidth,
          s.m_SurfaceHeight⟩) ] ∧
    (destinations 0 (BlitTextures s)).Pairwise
      (fun a b => ∀ x y, ¬ (a.2.covers x y ∧ b.2.covers x y)) ∧
    ∀ x y, (∃ d ∈ destinations 0 (BlitTextures s), d.2.covers x y) ↔
      (0 ≤ x ∧ x < s.m_SurfaceWidth ∧ 0 ≤ y ∧ y < s.m_SurfaceHeight) := by
  have hd : destinations 0 (BlitTextures s) =
      [ (0, ⟨0, 0, s.m_SurfaceWidth / 2, s.m_SurfaceHeight / 2⟩),
        (1, ⟨s.m_SurfaceWidth / 2, 0, s.m_SurfaceWidth, s.m_SurfaceHeight / 2⟩),
        (2, ⟨0, s.m_SurfaceHeight / 2, s.m_SurfaceWidth / 2, s.m_SurfaceHeight⟩),
        (3, ⟨s.m_SurfaceWidth / 2, s.m_SurfaceHeight / 2, s.m_SurfaceWidth,
          s.m_SurfaceHeight⟩) ] := by
    simp only [BlitTextures, destinations, cDiv_two_of_nonneg hw, cDiv_two_of_nonneg hh]
  rw [hd]
  refine ⟨rfl, ?_, ?_⟩
  · simp only [List.pairwise_cons, List.mem_cons, List.mem_singleton, List.not_mem_nil,
      forall_eq_or_imp, forall_eq, Rect.covers, List.Pairwise.nil, and_true, false_implies,
      implies_true]
    refine ⟨⟨?_, ?_, ?_⟩, ⟨?_, ?_⟩, ?_⟩ <;> intro x y <;> omega
  · intro x y
    simp only [List.mem_cons, List.mem_singleton, List.not_mem_nil, or_false, exists_eq_or_imp,
      exists_eq_left, Rect.covers]
    omega

/-- [C23] witness: a surface of 5 x 3 pixels (both odd). -/
theorem C23_blit_rectangles_partition_witness :
    (0 ≤ (5 : Int) ∧ 0 ≤ (3 : Int)) ∧
    destinations 0 (BlitTextures ⟨1, NativeImage.empty, 5, 3⟩) =
      [ (0, ⟨0, 0, 2, 1⟩), (1, ⟨2, 0, 5, 1⟩), (2, ⟨0, 1, 2, 3⟩), (3, ⟨2, 1, 5, 3⟩) ] ∧
    (destinations 0 (BlitTextures ⟨1, NativeImage.empty, 5, 3⟩)).Pairwise
      (fun a b => ∀ x y, ¬ (a.2.covers x y ∧ b.2.covers x y)) ∧
    ∀ x y, (∃ d ∈ destinations 0 (BlitTextures ⟨1, NativeImage.empty, 5, 3⟩), d.2.covers x y) ↔
      (0 ≤ x ∧ x < 5 ∧ 0 ≤ y ∧ y < 3) :=
  ⟨by decide,
    (C23_blit_rectangles_partition ⟨1, NativeImage.empty, 5, 3⟩ (by decide) (by decide)).1,
    (C23_blit_rectangles_partition ⟨1, NativeImage.empty, 5, 3⟩ (by decide) (by decide)).2⟩

end FBOBlitSample
end GLES

/-! ## C24 : offset and texture indices of the transition -/

namespace GLES
namespace GLTransitionExample

end GLTransitionExample
end GLES

namespace GLES
namespace GLTransitionExample

end GLTransitionExample
end GLES

namespace GLES
namespace GLTransitionExample

end GLTransitionExample
end GLES

namespace GLES
namespace GLTransitionExample

end GLTransitionExample
end GLES

/-! ## C25 : the pixel pack binding around `DownloadPixels` -/

namespace GLES
namespace PBOSample
open Machine

/-- The pixel pack binding when `DownloadPixels` returns: 0 when the call
went through the mapping branch, else still `m_DownloadPboIds[index]`. -/
theorem packBinding_after_DownloadPixels (m : Machine) (f : FrameInput) (s : PBOSample) :
    (m.run (DownloadPixels f s).2).packBinding
      = if (downloadImage s (nextIndex s)).ppPlane0 = 0 then some 0
        else arrayRead s.m_DownloadPboIds (index s) := by
  unfold DownloadPixels
  dsimp only
  split_ifs <;> simp [run, run_append, step_packBinding]

theorem packBinding_after_Draw (m : Machine) (c : Bool) (f : FrameInput) (s : PBOSample) :
    (m.run (Draw c f s).2).packBinding
      = if (downloadImage s (nextIndex s)).ppPlane0 = 0 then some 0
        else arrayRead s.m_DownloadPboIds (index s) := by
  simp only [Draw, run_append]
  have h : ∀ m' : Machine, (m'.run (screenPass f (DownloadPixels f s).1)).packBinding
      = m'.packBinding := fun _ => rfl
  rw [h, packBinding_after_DownloadPixels]

/-- C25: `DownloadPixels` resets the pixel pack binding to 0 only inside its
mapping branch; a call that finds the pointer of slot `nextIndex` cached
returns with `m_DownloadPboIds[index]` still bound.  On the example sample
(every mapping succeeding) the binding is 0 after `Init` and after frames 0
and 1, but buffer 7 after frame 2, and in frame 3 the `glReadPixels` into the
client buffer `pBuffer` (address 36864) is issued with buffer 7 bound to
`GL_PIXEL_PACK_BUFFER`. -/
theorem C25_client_read_with_buffer_bound :
    (∀ (m : Machine) (c : Bool) (f : FrameInput) (s : PBOSample),
      (m.run (Draw c f s).2).packBinding
        = if (downloadImage s (nextIndex s)).ppPlane0 = 0 then some 0
          else arrayRead s.m_DownloadPboIds (index s)) ∧
    ((Machine.initial exampleMem).run exampleSample.2).packBinding = some 0 ∧
    ((Machine.initial exampleMem).run (exampleSample.2
      ++ (runFrames false [exampleFrame] exampleSample.1).2)).packBinding = some 0 ∧
    ((Machine.initial exampleMem).run (exampleSample.2
      ++ (runFrames false [exampleFrame, exampleFrame] exampleSample.1).2)).packBinding
        = some 0 ∧
    ((Machine.initial exampleMem).run (exampleSample.2
      ++ (runFrames false [exampleFrame, exampleFrame, exampleFrame]
            exampleSample.1).2)).packBinding = some 7 ∧
    observe obsRead
      ((Machine.initial exampleMem).run (exampleSample.2
        ++ (runFrames false [exampleFrame, exampleFrame, exampleFrame] exampleSample.1).2))
      (Draw false exampleFrame
        (runFrames false [exampleFrame, exampleFrame, exampleFrame] exampleSample.1).1).2
      = [(some 7, 36864), (some 8, 0)] :=
  ⟨packBinding_after_Draw, by decide, by decide!, by decide!, by decide!, by decide!⟩

end PBOSample
end GLES

/-! ## C26 : the pointer handed to `DumpNativeImage` -/

namespace GLES
namespace PBOSample
open Machine

/-- C26: on the example sample (every mapping succeeding, at address 32768).
Frame 0 maps buffer 8, unmaps it with `glUnmapBuffer` and only then hands the
image with the pointer 32768 to `DumpNativeImage`: no buffer is mapped at that
address at that moment.  Frame 2 maps nothing and hands over the same pointer,
cached in frame 0, again with no buffer mapped there.  In every call the
`DumpNativeImage` is the last operation of `DownloadPixels`, after the
`glUnmapBuffer` of the mapping branch. -/
theorem C26_dump_after_unmap :
    observe (obsMapAttempt .GL_PIXEL_PACK_BUFFER)
      ((Machine.initial exampleMem).run exampleSample.2)
      (Draw false exampleFrame exampleSample.1).2 = [some 8] ∧
    (DownloadPixels exampleFrame exampleSample.1).2.drop 5 =
      [ GLCall.glBindBuffer .GL_PIXEL_PACK_BUFFER (some 8),
        GLCall.glMapBufferRange .GL_PIXEL_PACK_BUFFER 0 28 .read 32768,
        GLCall.glUnmapBuffer .GL_PIXEL_PACK_BUFFER,
        GLCall.glBindBuffer .GL_PIXEL_PACK_BUFFER (some 0),
        GLCall.DumpNativeImage { exampleImage with ppPlane0 := 32768 } 1 ] ∧
    observe obsDump ((Machine.initial exampleMem).run exampleSample.2)
      (Draw false exampleFrame exampleSample.1).2 = [(32768, none)] ∧
    observe (obsMapAttempt .GL_PIXEL_PACK_BUFFER)
      ((Machine.initial exampleMem).run (exampleSample.2
        ++ (runFrames false [exampleFrame, exampleFrame] exampleSample.1).2))
      (Draw false exampleFrame
        (runFrames false [exampleFrame, exampleFrame] exampleSample.1).1).2 = [] ∧
    observe obsDump
      ((Machine.initial exampleMem).run (exampleSample.2
        ++ (runFrames false [exampleFrame, exampleFrame] exampleSample.1).2))
      (Draw false exampleFrame
        (runFrames false [exampleFrame, exampleFrame] exampleSample.1).1).2
      = [(32768, none)] := by
  refine ⟨by decide, by decide, by decide, by decide!, by decide!⟩

end PBOSample
end GLES

/-! ## C27 : the byte range of the stripe -/

namespace GLES
namespace PBOSample

/-- [C27] counterexample: for a loaded image of 65536 x 16384 pixels and
`rand()` = 16378 the stripe starts at row 16378 = `rand() % (h - 5)`, but the
byte offset `randomRow * width * 4`, computed in `int`, wraps to -1572864: the
`memset` of `UploadPixels` starts before the region, not inside it. -/
theorem C27_counterexample :
    (0 < giantImage.width ∧ 5 < giantImage.height ∧ 0 ≤ lateRowFrame.randValue) ∧
    randomRow (LoadImage giantImage 4096 ctor) lateRowFrame.randValue = 16378 ∧
    stripe (LoadImage giantImage 4096 ctor) 4096 lateRowFrame.randValue
      = GLCall.memset 4096 (-1572864) 188 1310720 ∧
    GLCall.memset 4096 (-1572864) 188 1310720
      ∈ UploadPixels false lateRowFrame (LoadImage giantImage 4096 ctor) := by
  decide

/-- [C27] amended: for a loaded image of width `w > 0` and height `h > 5`
whose byte size `w * h * 4` is below 2^31, and a non-negative `rand()` value,
the stripe of `UploadPixels` (in the mapped buffer with PBO upload, in the
pixel buffer without) is a `memset` of `5 * w * 4` bytes at byte offset
`r * w * 4` with `r = rand() % (h - 5)`, `0 ≤ r ≤ h - 6`, so that the byte
range `[r*w*4, (r+5)*w*4)` lies inside the `w * h * 4 = dataSize` bytes of the
region. -/
theorem C27_stripe_inside_region (f : FrameInput) (s : PBOSample)
    (hw : 0 < s.m_RenderImage.width) (hh : 5 < s.m_RenderImage.height)
    (hsz : s.m_RenderImage.width * s.m_RenderImage.height * 4 < 2147483648)
    (hrand : 0 ≤ f.randValue) :
    stripe s s.m_RenderImage.ppPlane0 f.randValue ∈ UploadPixels false f s ∧
    (f.uploadMapResult ≠ 0 → stripe s f.uploadMapResult f.randValue ∈ UploadPixels true f s) ∧
    (∀ base : Ptr, stripe s base f.randValue
      = GLCall.memset base
          (f.randValue % (s.m_RenderImage.height - 5) * (s.m_RenderImage.width * 4)) 188
          (5 * (s.m_RenderImage.width * 4))) ∧
    0 ≤ f.randValue % (s.m_RenderImage.height - 5) ∧
    f.randValue % (s.m_RenderImage.height - 5) ≤ s.m_RenderImage.height - 6 ∧
    0 ≤ f.randValue % (s.m_RenderImage.height - 5) * (s.m_RenderImage.width * 4) ∧
    (f.randValue % (s.m_RenderImage.height - 5) + 5) * (s.m_RenderImage.width * 4)
      ≤ s.m_RenderImage.width * s.m_RenderImage.height * 4 ∧
    dataSize s = s.m_RenderImage.width * s.m_RenderImage.height * 4 := by
  have hwh : s.m_RenderImage.height ≤ s.m_RenderImage.width * s.m_RenderImage.height :=
    le_mul_of_one_le_left (by omega) (by omega)
  obtain ⟨a1, a2, a3, a4, a5, a6⟩ :=
    stripe_arith s.m_RenderImage.width s.m_RenderImage.height f.randValue (by omega) hh
      (by omega) hsz hrand
  refine ⟨?_, ?_, ?_, a2, by omega, mul_nonneg a2 (by omega), ?_, a4⟩
  · simp [UploadPixels]
  · intro hmap
    simp [UploadPixels, hmap]
  · intro base
    unfold stripe randomRow
    rw [a1, a5, a6]
  · have h1 : f.randValue % (s.m_RenderImage.height - 5) + 5 ≤ s.m_RenderImage.height := by
      omega
    have h2 := mul_le_mul_of_nonneg_right h1 (show 0 ≤ s.m_RenderImage.width * 4 by omega)
    calc (f.randValue % (s.m_RenderImage.height - 5) + 5) * (s.m_RenderImage.width * 4)
        ≤ s.m_RenderImage.height * (s.m_RenderImage.width * 4) := h2
      _ = s.m_RenderImage.width * s.m_RenderImage.height * 4 := by ring

/-- [C27] witness: the example sample (1 x 7 image) and `rand()` = 7: row 1,
bytes 4..23 of 28. -/
theorem C27_stripe_inside_region_witness :
    (0 < exampleSample.1.m_RenderImage.width ∧ 5 < exampleSample.1.m_RenderImage.height ∧
      exampleSample.1.m_RenderImage.width * exampleSample.1.m_RenderImage.height * 4
        < 2147483648 ∧
      0 ≤ exampleFrame.randValue) ∧
    stripe exampleSample.1 8192 exampleFrame.randValue = GLCall.memset 8192 4 188 20 ∧
    dataSize exampleSample.1 = 28 :=
  ⟨by decide,
    ((C27_stripe_inside_region exampleFrame exampleSample.1 (by decide) (by decide) (by decide)
      (by decide)).2.2.1 8192).trans (by decide),
    ((C27_stripe_inside_region exampleFrame exampleSample.1 (by decide) (by decide) (by decide)
      (by decide)).2.2.2.2.2.2.2).trans (by decide)⟩

end PBOSample
end GLES
